import Mathlib

/-!
The profiling-session coordinator of operf.

A shallow embedding of `pe_profiling/operf.cpp`.  Every function of the source that
talks to the operating system is embedded as a pure function of an explicit
environment record: the record holds what each system call answered (the value
`fork` returned, whether a `write` failed, what a `read` delivered, the status a
`waitpid` stored, the readings of the clock).  The embedded function returns the
list of system calls it made, in program order, together with the way it ended.

A process that calls `fork` is embedded once: the value returned by `fork` is part
of the environment, so the run with a positive value is the invoking process and
the run with the value `0` is the child.
-/

namespace Operf

/-! ## Constants of the source and of the C library -/

/-- The enumerator `ALL_OK` of `end_code_t`. -/
def ALL_OK : Int := 0
/-- The enumerator `APP_ABNORMAL_END` of `end_code_t`. -/
def APP_ABNORMAL_END : Int := 1
/-- The enumerator `PERF_RECORD_ERROR` of `end_code_t`. -/
def PERF_RECORD_ERROR : Int := 2
/-- The enumerator `PERF_READ_ERROR` of `end_code_t`. -/
def PERF_READ_ERROR : Int := 4
/-- The enumerator `PERF_BOTH_ERROR` of `end_code_t`. -/
def PERF_BOTH_ERROR : Int := 8

def EXIT_SUCCESS : Nat := 0
def EXIT_FAILURE : Nat := 1

def ENOENT : Nat := 2
def EINTR : Nat := 4
def ECHILD : Nat := 10
def EACCES : Nat := 13
def EEXIST : Nat := 17
def ENOTDIR : Nat := 20
def ENOTEMPTY : Nat := 39

def SIGKILL : Nat := 9
def SIGUSR1 : Nat := 10

/-- The four pipes of the source: `sample_data_pipe`, `app_ready_pipe`,
`start_app_pipe` and `operf_record_ready_pipe`. -/
inductive Pipe
  | sample_data
  | app_ready
  | start_app
  | operf_record_ready
  deriving DecidableEq, Repr

/-- What a `read(fd, &x, sizeof(x))` on a handshake pipe can answer: `-1`, zero bytes
(the variable keeps its former value), or a whole integer. -/
inductive ReadResult
  | error
  | eof
  | data (v : Int)
  deriving DecidableEq, Repr

/-- The test `read(...) == -1`. -/
def ReadResult.failed : ReadResult → Bool
  | .error => true
  | _ => false

/-- The value held by the variable handed to `read` once the call is over, `init`
being the value it held before. -/
def ReadResult.store (init : Int) : ReadResult → Int
  | .data v => v
  | _ => init

/-- What `waitpid(pid, &waitpid_status, option)` can answer: `-1` with an `errno`,
`0` (only with `WNOHANG`: no child has changed state and the status word is left
untouched), or the pid with a status word stored. -/
inductive WaitResult
  | error (errno : Nat)
  | pending
  | reaped (status : Nat)
  deriving DecidableEq, Repr

/-- The test `waitpid(...) < 0`. -/
def WaitResult.failed : WaitResult → Bool
  | .error _ => true
  | _ => false

/-- The status word after the call, `old` being the word before it. -/
def WaitResult.store (old : Nat) : WaitResult → Nat
  | .reaped s => s
  | _ => old

/-- The macro `WTERMSIG` of `<sys/wait.h>` (glibc): `status & 0x7f`. -/
def WTERMSIG (status : Nat) : Nat := status % 128
/-- The macro `WEXITSTATUS` of `<sys/wait.h>` (glibc): `(status & 0xff00) >> 8`. -/
def WEXITSTATUS (status : Nat) : Nat := (status / 256) % 256
/-- The macro `WIFEXITED` of `<sys/wait.h>` (glibc): `WTERMSIG(status) == 0`. -/
def WIFEXITED (status : Nat) : Bool := WTERMSIG status == 0
/-- The macro `WIFSIGNALED` of `<sys/wait.h>` (glibc):
`((signed char) ((status & 0x7f) + 1) >> 1) > 0`, true for the values 1 to 126 of the
low seven bits. -/
def WIFSIGNALED (status : Nat) : Bool := decide (0 < WTERMSIG status) && decide (WTERMSIG status < 127)

/-- A reading of `gettimeofday`: `tv_sec` and `tv_usec`. -/
structure Timeval where
  tv_sec : Nat
  tv_usec : Nat
  deriving DecidableEq, Repr

/-- The system calls and collaborator calls a process makes, with what they answered. -/
inductive Ev
  /-- The call `pipe(p)`; `ok` is false when it returned a negative value. -/
  | pipe (p : Pipe) (ok : Bool)
  /-- A call of `fork()` and the value it returned in this process. -/
  | fork (ret : Int)
  /-- The call `close(p[side])`. -/
  | close (p : Pipe) (side : Nat)
  /-- The call `execvp("", ...)` that warms up the resolver; it returns. -/
  | execvp_warmup
  /-- The call `execvp(app_name, ...)` with the argument vector. -/
  | execvp_app (args : List (List Char))
  /-- The call `write(p[1], &v, sizeof(v))`; `ok` is false when it returned a negative value. -/
  | write (p : Pipe) (v : Int) (ok : Bool)
  /-- The call `read(p[0], &x, sizeof(x))` and its answer. -/
  | read (p : Pipe) (r : ReadResult)
  /-- The call `kill(pid, sig)`; `ok` is false when it returned a negative value. -/
  | kill (pid : Int) (sig : Nat) (ok : Bool)
  /-- The call `waitpid(pid, &waitpid_status, option)`; `nohang` says `option` is `WNOHANG`. -/
  | waitpid (pid : Int) (nohang : Bool) (r : WaitResult)
  /-- A call of `gettimeofday` and its reading. -/
  | gettimeofday (tv : Timeval)
  /-- The construction of the `operf_record` object. -/
  | operf_record_ctor
  /-- The call `operfRecord.recordPerfData()`. -/
  | recordPerfData
  /-- Entry into `convert_sample_data`. -/
  | convert_sample_data
  /-- The call `set_signals()`; `ok` is false when `sigaction` failed. -/
  | set_signals (ok : Bool)
  /-- The call `nftw(previous_sampledir, __delete_old_previous_sample_data, ...)`; `ok` is
  false when it returned a value other than 0. -/
  | nftw_previous (ok : Bool)
  /-- The call `rename(current_sampledir, previous_sampledir)` and the `errno` of its failure. -/
  | rename_current (errno : Option Nat)
  /-- The call `mkdir(current_sampledir, ...)` and the `errno` of its failure. -/
  | mkdir_current (errno : Option Nat)
  /-- The call `operfRead.init(...)`. -/
  | operfRead_init
  /-- The call `operfRead.readPerfHeader()` and the value it returned. -/
  | readPerfHeader (rc : Int)
  /-- The call `operfRead.convertPerfData()`. -/
  | convertPerfData
  /-- The call `sigaction(SIGCHLD, ...)` of `_do_jitdump_convert`. -/
  | sigaction_chld (ok : Bool)
  /-- The call `execvp(opjitconv_path, ...)`. -/
  | execvp_opjitconv
  /-- The call `sleep(1)`. -/
  | sleep
  /-- The message "Error: Cannot create read header info for sample data" on `cerr`. -/
  | cerr_header_error
  /-- One of the messages with which `_kill_operf_pid` reports a failure of the operf-record
  step: "Attempt to stop operf-record process failed", "waitpid for operf-record process
  failed", "operf-record process ended abnormally". -/
  | record_error_message
  /-- One of the messages with which `_kill_operf_pid` reports a failure of the operf-read
  step: "Attempt to stop operf-read process failed", "waitpid for operf-read process failed",
  "operf-read process ended abnormally". -/
  | read_error_message
  deriving DecidableEq, Repr

/-- How the execution of a function of the source ends in the process that runs it. -/
inductive Outcome
  /-- The function returned to its caller with this value. -/
  | returned (rc : Int)
  /-- The process ended in `_exit(code)` or `exit(code)`. -/
  | exited (code : Nat)
  /-- The process image was replaced by a successful `execvp`. -/
  | execd
  deriving DecidableEq, Repr

/-! ## `run_app` -/

/-- What the operating system answers to the AppLauncher inside `run_app`. -/
structure AppEnv where
  /-- The argument vector `exec_args` built at the top of `run_app`. -/
  exec_args : List (List Char)
  /-- The `write` on `app_ready_pipe[1]` did not return a negative value. -/
  ready_write_ok : Bool
  /-- The answer of the `read` on `start_app_pipe[0]`. -/
  start_read : ReadResult
  /-- The call `execvp(app_name, ...)` succeeded. -/
  exec_ok : Bool

/-- The function `run_app` from the fake `execvp` on (lines 210 to 236): the calls made and the
way the process ends.  The function never returns.  The lines before build the argument
vector, given here as `exec_args`; their test `if (!app_fname)` is on a pointer to which 1
was added and never holds. -/
def run_app (e : AppEnv) : List Ev × Outcome :=
  -- execvp("", ...); int startup = 1; write(app_ready_pipe[1], &startup, ...)
  let t1 := [Ev.execvp_warmup, Ev.write Pipe.app_ready 1 e.ready_write_ok]
  if !e.ready_write_ok then
    (t1, Outcome.exited EXIT_FAILURE)
  else
    -- int startme = 0; read(start_app_pipe[0], &startme, ...)
    let t2 := t1 ++ [Ev.read Pipe.start_app e.start_read]
    if e.start_read.failed then
      (t2, Outcome.exited EXIT_FAILURE)
    else
      let startme : Int := e.start_read.store 0
      if startme != 1 then
        -- goto fail
        (t2, Outcome.exited EXIT_FAILURE)
      else
        -- execvp(app_name, ...)
        let t3 := t2 ++ [Ev.execvp_app e.exec_args]
        if e.exec_ok then (t3, Outcome.execd)
        else (t3, Outcome.exited EXIT_FAILURE)

/-! ## `start_profiling_app` -/

/-- The file-scope variables of the source that the coordinator protocol reads and writes. -/
structure Globals where
  app_PID : Int
  operf_pid : Int
  convert_pid : Int
  app_started : Bool
  startApp : Bool
  deriving DecidableEq, Repr

/-- The members of `operf_options` used by the coordinator. -/
structure Options where
  system_wide : Bool
  pid : Int
  append : Bool
  deriving DecidableEq, Repr

/-- How the construction of the `operf_record` object ends: the constructor throws
`runtime_error`, or it returns with `get_valid()` false, or with `get_valid()` true. -/
inductive RecInit
  | throws
  | invalid
  | valid
  deriving DecidableEq, Repr

/-- What the operating system and the collaborators answer inside `start_profiling_app`. -/
structure SpaEnv where
  /-- The calls `pipe(app_ready_pipe)`, `pipe(start_app_pipe)`, `pipe(operf_record_ready_pipe)`
  did not return a negative value. -/
  pipe_app_ready_ok : Bool
  pipe_start_app_ok : Bool
  pipe_record_ready_ok : Bool
  /-- The value returned by `app_PID = fork()`. -/
  fork_app : Int
  /-- The value returned by `operf_pid = fork()`. -/
  fork_record : Int
  /-- The answers given to `run_app` in the AppLauncher child. -/
  app : AppEnv
  /-- The outcome of constructing `operfRecord` in the Recorder child. -/
  rec_init : RecInit
  /-- The `write` on `operf_record_ready_pipe[1]` did not return a negative value. -/
  rec_ready_write_ok : Bool
  /-- The call `recordPerfData()` threw `runtime_error`. -/
  rec_run_throws : Bool
  /-- The answer of the coordinator's `read` on `app_ready_pipe[0]`, and the value the
  uninitialised variable `startup` held before it. -/
  app_ready_read : ReadResult
  startup_uninit : Int
  /-- The answer of the coordinator's `read` on `operf_record_ready_pipe[0]`, and the value
  the uninitialised variable `recorder_ready` held before it. -/
  rec_ready_read : ReadResult
  recorder_ready_uninit : Int
  /-- The coordinator's `write` on `start_app_pipe[1]` did not return a negative value. -/
  start_write_ok : Bool

/-- The result of running a function of the coordinator: calls made, the way it ended and the
values of the file-scope variables at that point. -/
structure Run where
  trace : List Ev
  out : Outcome
  g : Globals
  deriving DecidableEq, Repr

/-- The run `r` continued from a point where the calls `t` had already been made. -/
def Run.after (t : List Ev) (r : Run) : Run := { r with trace := t ++ r.trace }

/-- The label `fail_out` of the Recorder child, reached with the given value of `ready`, and
what follows it (lines 326 to 375). -/
def fail_out (o : Options) (e : SpaEnv) (g : Globals) (ready : Int) : Run :=
  if g.startApp && ready == 0 then
    -- write(operf_record_ready_pipe[1], &ready, ...); _exit(EXIT_SUCCESS)
    ⟨[Ev.write Pipe.operf_record_ready ready e.rec_ready_write_ok],
      Outcome.exited EXIT_SUCCESS, g⟩
  else
    -- control leaves the if/else chain: lines 370 to 374
    ⟨[], Outcome.returned 0, if !o.system_wide then { g with app_started := true } else g⟩

/-- The branch `operf_pid == 0` of `start_profiling_app`: the Recorder child (lines 275 to 336). -/
def record_child (o : Options) (e : SpaEnv) (g : Globals) : Run :=
  -- int ready = 0; close(sample_data_pipe[0]); try { operf_record operfRecord(...)
  let t1 := [Ev.close Pipe.sample_data 0, Ev.operf_record_ctor]
  match e.rec_init with
  | RecInit.throws => (fail_out o e g 0).after t1
  | RecInit.invalid => (fail_out o e g 0).after t1
  | RecInit.valid =>
    -- if (startApp) { ready = 1; write(operf_record_ready_pipe[1], &ready, ...) }
    let t2 := if g.startApp then t1 ++ [Ev.write Pipe.operf_record_ready 1 e.rec_ready_write_ok]
      else t1
    let ready : Int := if g.startApp then 1 else 0
    if g.startApp && !e.rec_ready_write_ok then
      (fail_out o e g ready).after t2
    else
      -- operfRecord.recordPerfData()
      let t3 := t2 ++ [Ev.recordPerfData]
      if e.rec_run_throws then (fail_out o e g ready).after t3
      else ⟨t3, Outcome.exited EXIT_SUCCESS, g⟩

/-- The branch `operf_pid > 0` of `start_profiling_app`: the invoking process after the second
`fork` (lines 337 to 375). -/
def coordinator_branch (o : Options) (e : SpaEnv) (g : Globals) : Run :=
  let done : List Ev → Run := fun t1 =>
    -- if (!operf_options::system_wide) app_started = true; return 0
    ⟨t1, Outcome.returned 0, if !o.system_wide then { g with app_started := true } else g⟩
  if g.startApp then
    -- int startup; read(app_ready_pipe[0], &startup, ...)
    let t1 := [Ev.read Pipe.app_ready e.app_ready_read]
    let startup := e.app_ready_read.store e.startup_uninit
    if e.app_ready_read.failed then ⟨t1, Outcome.returned (-1), g⟩
    else if startup != 1 then ⟨t1, Outcome.returned (-1), g⟩
    else
      -- int recorder_ready; read(operf_record_ready_pipe[0], &recorder_ready, ...)
      let t2 := t1 ++ [Ev.read Pipe.operf_record_ready e.rec_ready_read]
      let recorder_ready := e.rec_ready_read.store e.recorder_ready_uninit
      if e.rec_ready_read.failed then ⟨t2, Outcome.returned (-1), g⟩
      else if recorder_ready != 1 then
        -- startup = 0; write(start_app_pipe[1], &startup, ...); return -1
        ⟨t2 ++ [Ev.write Pipe.start_app 0 e.start_write_ok], Outcome.returned (-1), g⟩
      else
        -- write(start_app_pipe[1], &startup, ...)
        let t3 := t2 ++ [Ev.write Pipe.start_app startup e.start_write_ok]
        if !e.start_write_ok then ⟨t3, Outcome.returned (-1), g⟩
        else done t3
  else done []

/-- The part of `start_profiling_app` from `operf_pid = fork()` on (lines 271 to 375). -/
def fork_record (o : Options) (e : SpaEnv) (g : Globals) : Run :=
  let g1 := { g with operf_pid := e.fork_record }
  let t1 := [Ev.fork e.fork_record]
  if e.fork_record < 0 then ⟨t1, Outcome.returned (-1), g1⟩
  else if e.fork_record == 0 then (record_child o e g1).after t1
  else (coordinator_branch o e g1).after t1

/-- The function `start_profiling_app` (lines 238 to 375), entered with the file-scope
variables `g0`.  The first lines only format the start time into `start_time_str`. -/
def start_profiling_app (o : Options) (e : SpaEnv) (g0 : Globals) : Run :=
  -- startApp = ((app_PID != operf_options::pid) && (operf_options::system_wide == false))
  let g := { g0 with startApp := (g0.app_PID != o.pid) && (o.system_wide == false) }
  if g.startApp then
    -- pipe(app_ready_pipe) < 0 || pipe(start_app_pipe) < 0
    if !e.pipe_app_ready_ok then
      ⟨[Ev.pipe Pipe.app_ready false], Outcome.exited EXIT_FAILURE, g⟩
    else if !e.pipe_start_app_ok then
      ⟨[Ev.pipe Pipe.app_ready true, Ev.pipe Pipe.start_app false], Outcome.exited EXIT_FAILURE, g⟩
    else
      -- app_PID = fork()
      let t1 := [Ev.pipe Pipe.app_ready true, Ev.pipe Pipe.start_app true, Ev.fork e.fork_app]
      let g1 := { g with app_PID := e.fork_app }
      if e.fork_app < 0 then ⟨t1, Outcome.exited EXIT_FAILURE, g1⟩
      else if e.fork_app == 0 then
        -- close(sample_data_pipe[0]); close(sample_data_pipe[1]); run_app()
        let r := run_app e.app
        ⟨t1 ++ [Ev.close Pipe.sample_data 0, Ev.close Pipe.sample_data 1] ++ r.1, r.2, g1⟩
      else
        -- pipe(operf_record_ready_pipe)
        let t2 := t1 ++ [Ev.pipe Pipe.operf_record_ready e.pipe_record_ready_ok]
        if !e.pipe_record_ready_ok then ⟨t2, Outcome.returned (-1), g1⟩
        else (fork_record o e g1).after t2
  else fork_record o e g

/-- The event is a `write` on `start_app_pipe[1]`. -/
def Ev.isStartWrite : Ev → Bool
  | Ev.write Pipe.start_app _ _ => true
  | _ => false

/-! ## `_kill_operf_pid` -/

/-- What the operating system answers inside `_kill_operf_pid`. -/
structure KillEnv where
  /-- The call `kill(operf_pid, SIGUSR1)` did not return a negative value. -/
  kill_record_ok : Bool
  /-- The answer of the blocking `waitpid` on `operf_pid`. -/
  wait_record : WaitResult
  /-- The readings of `gettimeofday`, in the order of the calls; reading 0 is the one taken
  before the loop. -/
  clock : Nat → Timeval
  /-- The call `kill(convert_pid, SIGUSR1)` did not return a negative value. -/
  kill_convert_ok : Bool
  /-- The answer of the n-th `waitpid` on `convert_pid`, given whether it is called with
  `WNOHANG`. -/
  wait_convert : Nat → Bool → WaitResult

/-- The statement `rc = rc ? PERF_BOTH_ERROR : PERF_READ_ERROR`. -/
def read_error (rc : Int) : Int := if rc != 0 then PERF_BOTH_ERROR else PERF_READ_ERROR

/-- The first part of `_kill_operf_pid` (lines 386 to 403): stop the operf-record process and
classify its end.  Returns the calls made and the value of `rc`. -/
def stop_record (e : KillEnv) (g : Globals) : List Ev × Int :=
  let t1 := [Ev.kill g.operf_pid SIGUSR1 e.kill_record_ok]
  if !e.kill_record_ok then (t1 ++ [Ev.record_error_message], PERF_RECORD_ERROR)
  else
    let t2 := t1 ++ [Ev.waitpid g.operf_pid false e.wait_record]
    if e.wait_record.failed then (t2 ++ [Ev.record_error_message], PERF_RECORD_ERROR)
    else
      let waitpid_status := e.wait_record.store 0
      if WIFEXITED waitpid_status && WEXITSTATUS waitpid_status == 0 then (t2, ALL_OK)
      else (t2 ++ [Ev.record_error_message], PERF_RECORD_ERROR)

/-- The values of `rc`, `waitpid_status` and `keep_trying` after the tail of the loop body, and
the message it printed. -/
structure Classified where
  rc : Int
  waitpid_status : Nat
  keep_trying : Bool
  message : List Ev

/-- The tail of the loop body (lines 438 to 455), given the answer `r` of
`waitpid(convert_pid, &waitpid_status, option)`. -/
def classify_convert (rc : Int) (waitpid_status : Nat) (keep_trying : Bool) (r : WaitResult) :
    Classified :=
  match r with
  | WaitResult.error errno =>
    -- keep_trying = false; if (errno != ECHILD) rc = rc ? PERF_BOTH_ERROR : PERF_READ_ERROR
    if errno != ECHILD then ⟨read_error rc, waitpid_status, false, [Ev.read_error_message]⟩
    else ⟨rc, waitpid_status, false, []⟩
  | _ =>
    let st := r.store waitpid_status
    if WIFEXITED st then
      -- keep_trying = false
      if WEXITSTATUS st != 0 then ⟨read_error rc, st, false, [Ev.read_error_message]⟩
      else ⟨rc, st, false, []⟩
    else ⟨rc, st, keep_trying, []⟩

/-- The local variables of `_kill_operf_pid` inside the loop, with the number of clock readings
and of waits on `convert_pid` made so far and the calls made so far. -/
structure LoopState where
  rc : Int
  usec_timer : Nat
  waitpid_status : Nat
  nclock : Nat
  nwait : Nat
  trace : List Ev

/-- The loop `while (keep_trying)` of `_kill_operf_pid` (lines 414 to 456), entered with
`keep_trying` true.  `fuel` bounds the number of iterations; `none` means the bound was reached
with the loop still running. -/
def wait_loop (e : KillEnv) (g : Globals) (start_time_sec : Nat) :
    Nat → LoopState → Option (List Ev × Int)
  | 0, _ => none
  | fuel + 1, s =>
    -- int option = WNOHANG; gettimeofday(&tv, NULL)
    let tv := e.clock s.nclock
    let t1 := s.trace ++ [Ev.gettimeofday tv]
    if tv.tv_sec > start_time_sec + 5 then
      -- keep_trying = false; option = 0; kill(convert_pid, SIGUSR1)
      let t2 := t1 ++ [Ev.kill g.convert_pid SIGUSR1 e.kill_convert_ok]
      if !e.kill_convert_ok then
        -- rc = rc ? PERF_BOTH_ERROR : PERF_READ_ERROR; break
        some (t2 ++ [Ev.read_error_message], read_error s.rc)
      else
        let r := e.wait_convert s.nwait false
        let c := classify_convert s.rc s.waitpid_status false r
        some (t2 ++ [Ev.waitpid g.convert_pid false r] ++ c.message, c.rc)
    else if decide (tv.tv_usec % 1000000 > s.usec_timer + 100000)
        || decide (tv.tv_usec < s.usec_timer) then
      -- usec_timer = tv.tv_usec
      let r := e.wait_convert s.nwait true
      let c := classify_convert s.rc s.waitpid_status true r
      let t3 := t1 ++ [Ev.waitpid g.convert_pid true r] ++ c.message
      if c.keep_trying then
        wait_loop e g start_time_sec fuel
          { rc := c.rc, usec_timer := tv.tv_usec, waitpid_status := c.waitpid_status,
            nclock := s.nclock + 1, nwait := s.nwait + 1, trace := t3 }
      else some (t3, c.rc)
    else
      -- continue
      wait_loop e g start_time_sec fuel { s with nclock := s.nclock + 1, trace := t1 }

/-- The function `_kill_operf_pid` (lines 377 to 458): the calls made and the value returned;
`none` when the loop is still running after `fuel` iterations. -/
def _kill_operf_pid (fuel : Nat) (e : KillEnv) (g : Globals) : Option (List Ev × Int) :=
  let r := stop_record e g
  -- waitpid_status = 0; gettimeofday(&tv, NULL); start_time_sec = tv.tv_sec;
  -- usec_timer = tv.tv_usec
  let tv := e.clock 0
  wait_loop e g tv.tv_sec fuel
    { rc := r.2, usec_timer := tv.tv_usec, waitpid_status := 0, nclock := 1, nwait := 0,
      trace := r.1 ++ [Ev.gettimeofday tv] }

/-! ## The samples directory and `convert_sample_data` -/

mutual
/-- A node of the file system below the samples directory: a regular file (with a tag standing
for its contents) or a directory. -/
inductive Node
  | file (data : Nat)
  | dir (entries : Entries)
/-- The entries of a directory, each with its name. -/
inductive Entries
  | nil
  | cons (name : String) (node : Node) (rest : Entries)
end

/-- The two entries `current` and `previous` of the samples directory; `none` when the entry
does not exist. -/
structure SamplesDir where
  current : Option Node
  previous : Option Node

mutual
/-- The walk of `nftw` with `FTW_DEPTH | FTW_ACTIONRETVAL` and the callback
`__delete_old_previous_sample_data` over the node at `path`: the entries of a directory are
visited before the directory, `remove(fpath)` is called on each, and the walk stops
(`FTW_STOP`) at the first `remove` that fails.  `deny` says on which paths `remove` fails with
`EACCES`.  Returns what is left of the node and whether the walk was stopped. -/
def nftw_node (deny : List String → Bool) (path : List String) : Node → Option Node × Bool
  | Node.file d => if deny path then (some (Node.file d), true) else (none, false)
  | Node.dir es =>
    match nftw_entries deny path es with
    | (Entries.nil, false) => if deny path then (some (Node.dir Entries.nil), true) else (none, false)
    | (es1, _) => (some (Node.dir es1), true)
/-- The walk of `nftw` over the entries of the directory at `path`, in order. -/
def nftw_entries (deny : List String → Bool) (path : List String) : Entries → Entries × Bool
  | Entries.nil => (Entries.nil, false)
  | Entries.cons n x rest =>
    match nftw_node deny (path ++ [n]) x with
    | (some x1, _) => (Entries.cons n x1 rest, true)
    | (none, _) => nftw_entries deny path rest
end

/-- What the operating system and the collaborators answer inside `convert_sample_data`. -/
structure ConvEnv where
  /-- The paths below `previous` on which `remove` fails (with `EACCES`). -/
  deny_remove : List String → Bool
  /-- The call `rename` is refused with `EACCES`. -/
  deny_rename : Bool
  /-- The call `mkdir` is refused with `EACCES`. -/
  deny_mkdir : Bool
  /-- The value returned by `operfRead.readPerfHeader()`. -/
  header_rc : Int
  /-- The constant `OP_PERF_HANDLED_ERROR` of the collaborator header `operf_utils.h`. -/
  OP_PERF_HANDLED_ERROR : Int
  /-- The value of `operfRead.is_valid()`. -/
  is_valid : Bool
  /-- The call `operfRead.convertPerfData()` threw `runtime_error`. -/
  convert_throws : Bool
  /-- The call `sigaction(SIGCHLD, ...)` returned 0. -/
  sigaction_ok : Bool
  /-- The value returned by `jitconv_pid = fork()`. -/
  fork_jit : Int
  /-- The call `execvp(opjitconv_path, ...)` in the helper succeeded. -/
  jit_exec_ok : Bool
  /-- The point of the main flow at which the handler `_jitconv_complete` runs, if it does:
  1 is between the assignment `jit_conversion_running = true` and the first test of the
  loop, 2 and 3 are during the first and the second `sleep(1)`, 4 is between the end of the
  loop and the last test of `jit_conversion_running`; 0 is before the assignment. -/
  sigchld_at : Option Nat
  /-- The value returned by `wait` inside the handler. -/
  handler_pid : Int
  /-- The call `kill(jitconv_pid, SIGKILL)` did not return a negative value (the source does
  not look at it). -/
  kill_jit_ok : Bool

/-- The answer of `rename(current_sampledir, previous_sampledir)` on the samples directory:
the `errno` of a failure, or the directory after the move. -/
def fs_rename (deny : Bool) (fs : SamplesDir) : Except Nat SamplesDir :=
  match fs.current with
  | none => Except.error ENOENT
  | some (Node.file _) => Except.error ENOTDIR
  | some (Node.dir es) =>
    if deny then Except.error EACCES
    else
      match fs.previous with
      | none => Except.ok { current := none, previous := some (Node.dir es) }
      | some (Node.file _) => Except.error ENOTDIR
      | some (Node.dir Entries.nil) => Except.ok { current := none, previous := some (Node.dir es) }
      | some (Node.dir _) => Except.error ENOTEMPTY

/-- The answer of `mkdir(current_sampledir, ...)` on the samples directory. -/
def fs_mkdir (deny : Bool) (fs : SamplesDir) : Except Nat SamplesDir :=
  match fs.current with
  | some _ => Except.error EEXIST
  | none =>
    if deny then Except.error EACCES
    else Except.ok { fs with current := some (Node.dir Entries.nil) }


/-- The result of running the Converter: calls made, the way it ended and the samples
directory at that point. -/
structure ConvRun where
  trace : List Ev
  out : Outcome
  fs : SamplesDir

/-- The `mkdir` of `current` in `convert_sample_data` (lines 691 to 696), after the calls `t`
on the samples directory `fs`: the calls made, the samples directory afterwards, and the exit
code when the process ended in `_exit` (`none` when control reaches `operfRead.init`). -/
def make_current (e : ConvEnv) (t : List Ev) (fs : SamplesDir) :
    List Ev × SamplesDir × Option Nat :=
  -- rc = mkdir(current_sampledir, ...); if (rc && (errno != EEXIST)) _exit(EXIT_FAILURE)
  match fs_mkdir e.deny_mkdir fs with
  | Except.ok fs1 => (t ++ [Ev.mkdir_current none], fs1, none)
  | Except.error n =>
    if n != EEXIST then (t ++ [Ev.mkdir_current (some n)], fs, some EXIT_FAILURE)
    else (t ++ [Ev.mkdir_current (some n)], fs, none)

/-- The answer of `nftw(previous_sampledir, ...)` on the samples directory: what is left of
`previous`, whether the call returned a value other than 0, and `errno`. -/
def fs_nftw (deny : List String → Bool) (fs : SamplesDir) : Option Node × Bool × Nat :=
  match fs.previous with
  | none => (none, true, ENOENT)
  | some n =>
    let r := nftw_node deny [] n
    (r.1, r.2, if r.2 then EACCES else 0)

/-- The part of `convert_sample_data` before `operfRead.init` (lines 671 to 696): the rotation
of the sample data when not in append mode, then the `mkdir` of `current`.  Returns the calls
made, the samples directory afterwards, and the exit code when the process ended in `_exit`
(`none` when control reaches `operfRead.init`). -/
def rotate_sample_data (append : Bool) (e : ConvEnv) (fs : SamplesDir) :
    List Ev × SamplesDir × Option Nat :=
  if !append then
    -- errno = 0; nftw(previous_sampledir, ...) != 0 && errno != ENOENT
    let w := fs_nftw e.deny_remove fs
    let fs1 : SamplesDir := { fs with previous := w.1 }
    let t1 := [Ev.nftw_previous (!w.2.1)]
    if w.2.1 && w.2.2 != ENOENT then (t1, fs1, some EXIT_FAILURE)
    else
      -- rename(current_sampledir, previous_sampledir) < 0
      match fs_rename e.deny_rename fs1 with
      | Except.ok fs2 => make_current e (t1 ++ [Ev.rename_current none]) fs2
      | Except.error n =>
        -- if (errno && (errno != ENOENT)) _exit(EXIT_FAILURE)
        if n != 0 && n != ENOENT then (t1 ++ [Ev.rename_current (some n)], fs1, some EXIT_FAILURE)
        else make_current e (t1 ++ [Ev.rename_current (some n)]) fs1
  else make_current e [] fs

/-- The value of `jit_conversion_running` when the main flow of the Converter reaches the
point `p` (see `ConvEnv.sigchld_at`): set by `_do_jitdump_convert` unless `fork` returned
`-1`, and cleared by the handler `_jitconv_complete` when it has run since and its `wait`
returned `jitconv_pid`. -/
def jit_conversion_running (e : ConvEnv) (p : Nat) : Bool :=
  e.fork_jit != -1 &&
    !(match e.sigchld_at with
      | some q => decide (1 ≤ q) && decide (q ≤ p) && (e.handler_pid == e.fork_jit)
      | none => false)

/-- The loop `while (jit_conversion_running && (keep_waiting < 2))` of `convert_sample_data`,
entered with the given value of `keep_waiting` and `remaining = 2 - keep_waiting`: the calls
of `sleep` it makes. -/
def jit_wait_loop (e : ConvEnv) : Nat → Nat → List Ev
  | 0, _ => []
  | remaining + 1, keep_waiting =>
    if jit_conversion_running e (keep_waiting + 1) then
      Ev.sleep :: jit_wait_loop e remaining (keep_waiting + 1)
    else []

/-- The function `convert_sample_data` (lines 664 to 728, with `_do_jitdump_convert`), run on
the samples directory `fs`.  The function never returns. -/
def convert_sample_data (o : Options) (e : ConvEnv) (fs : SamplesDir) : ConvRun :=
  let p := rotate_sample_data o.append e fs
  let t0 := Ev.convert_sample_data :: p.1
  match p.2.2 with
  | some code => ⟨t0, Outcome.exited code, p.2.1⟩
  | none =>
    -- operfRead.init(...); rc = operfRead.readPerfHeader()
    let t1 := t0 ++ [Ev.operfRead_init, Ev.readPerfHeader e.header_rc]
    if e.header_rc < 0 then
      let t2 := if e.header_rc != e.OP_PERF_HANDLED_ERROR then t1 ++ [Ev.cerr_header_error] else t1
      ⟨t2, Outcome.exited EXIT_FAILURE, p.2.1⟩
    else
      -- if (operfRead.is_valid()) operfRead.convertPerfData()
      let t2 := if e.is_valid then t1 ++ [Ev.convertPerfData] else t1
      if e.is_valid && e.convert_throws then ⟨t2, Outcome.exited EXIT_FAILURE, p.2.1⟩
      else
        -- _do_jitdump_convert(): sigaction(SIGCHLD, ...); jitconv_pid = fork()
        let t3 := t2 ++ [Ev.sigaction_chld e.sigaction_ok]
        if !e.sigaction_ok then ⟨t3, Outcome.exited EXIT_FAILURE, p.2.1⟩
        else
          let t4 := t3 ++ [Ev.fork e.fork_jit]
          if e.fork_jit == 0 then
            -- the helper: execvp(opjitconv_path, exec_args)
            let t5 := t4 ++ [Ev.execvp_opjitconv]
            if e.jit_exec_ok then ⟨t5, Outcome.execd, p.2.1⟩
            else ⟨t5, Outcome.exited EXIT_FAILURE, p.2.1⟩
          else
            -- int keep_waiting = 0; while (...) { sleep(1); keep_waiting++; }
            let t5 := t4 ++ jit_wait_loop e 2 0
            -- if (jit_conversion_running) kill(jitconv_pid, SIGKILL); _exit(EXIT_SUCCESS)
            let t6 := if jit_conversion_running e 4 then t5 ++ [Ev.kill e.fork_jit SIGKILL e.kill_jit_ok]
              else t5
            ⟨t6, Outcome.exited EXIT_SUCCESS, p.2.1⟩

/-! ## `_run` -/

/-- What the operating system and the collaborators answer inside `_run`. -/
structure RunEnv where
  /-- The call `pipe(sample_data_pipe)` did not return a negative value. -/
  pipe_sample_data_ok : Bool
  /-- The answers given inside `start_profiling_app`. -/
  spa : SpaEnv
  /-- The value returned by `convert_pid = fork()`. -/
  fork_convert : Int
  /-- The answers given to `convert_sample_data` in the Converter child. -/
  conv : ConvEnv
  /-- The call `sigaction(SIGINT, ...)` of `set_signals` returned 0. -/
  sigaction_ok : Bool
  /-- The answer of the blocking `waitpid` of `_run`, on `app_PID` when an application was
  launched and on `operf_pid` otherwise. -/
  wait_primary : WaitResult
  /-- The answers given inside `_kill_operf_pid`. -/
  kill : KillEnv

/-- The result of `_run`: calls made, the way it ended, the file-scope variables and the
samples directory at that point. -/
structure RunResult where
  trace : List Ev
  out : Outcome
  g : Globals
  fs : SamplesDir

/-- The value of `rc` after the wait on the launched application (lines 507 to 523). -/
def classify_app (r : WaitResult) : Int :=
  match r with
  | WaitResult.error errno => if errno == EINTR then ALL_OK else APP_ABNORMAL_END
  | _ =>
    let waitpid_status := r.store 0
    if WIFEXITED waitpid_status && WEXITSTATUS waitpid_status == 0 then ALL_OK
    else if WIFEXITED waitpid_status then APP_ABNORMAL_END
    else ALL_OK

/-- The value of `rc` after a wait on the operf-record process that did not fail (lines 539
to 549). -/
def classify_record (r : WaitResult) : Int :=
  let waitpid_status := r.store 0
  if WIFEXITED waitpid_status && WEXITSTATUS waitpid_status == 0 then ALL_OK
  else if WIFEXITED waitpid_status then PERF_RECORD_ERROR
  else if WIFSIGNALED waitpid_status then PERF_RECORD_ERROR
  else ALL_OK

/-- The part of `_run` from `set_signals()` on (lines 502 to 553). -/
def run_wait (fuel : Nat) (e : RunEnv) (g : Globals) (fs : SamplesDir) (t : List Ev) :
    Option RunResult :=
  let t1 := t ++ [Ev.set_signals e.sigaction_ok]
  if !e.sigaction_ok then some ⟨t1, Outcome.exited EXIT_FAILURE, g, fs⟩
  else if g.startApp then
    -- waitpid(app_PID, &waitpid_status, 0) and the assignments to rc that follow it
    let t2 := t1 ++ [Ev.waitpid g.app_PID false e.wait_primary]
    let rc : Int := classify_app e.wait_primary
    -- rc = _kill_operf_pid()
    match _kill_operf_pid fuel e.kill g with
    | none => none
    | some k =>
      let rc : Int := (fun _ => k.2) rc
      some ⟨t2 ++ k.1, Outcome.returned rc, g, fs⟩
  else
    -- waitpid(operf_pid, &waitpid_status, 0)
    let t2 := t1 ++ [Ev.waitpid g.operf_pid false e.wait_primary]
    match e.wait_primary with
    | WaitResult.error errno =>
      if errno == EINTR then
        -- rc = _kill_operf_pid()
        match _kill_operf_pid fuel e.kill g with
        | none => none
        | some k => some ⟨t2 ++ k.1, Outcome.returned k.2, g, fs⟩
      else some ⟨t2, Outcome.returned PERF_RECORD_ERROR, g, fs⟩
    | r => some ⟨t2, Outcome.returned (classify_record r), g, fs⟩

/-- The function `_run` (lines 460 to 553), entered with the file-scope variables `g0` and the
samples directory `fs`; `none` when the loop of `_kill_operf_pid` is still running after
`fuel` iterations. -/
def _run (fuel : Nat) (o : Options) (e : RunEnv) (g0 : Globals) (fs : SamplesDir) :
    Option RunResult :=
  -- pipe(sample_data_pipe)
  if !e.pipe_sample_data_ok then
    some ⟨[Ev.pipe Pipe.sample_data false], Outcome.exited EXIT_FAILURE, g0, fs⟩
  else
    let s := start_profiling_app o e.spa g0
    let t1 := Ev.pipe Pipe.sample_data true :: s.trace
    match s.out with
    | Outcome.returned rc =>
      if rc < 0 then some ⟨t1, Outcome.returned PERF_RECORD_ERROR, s.g, fs⟩
      else if !(!s.g.app_started && !o.system_wide) then
        -- convert_pid = fork()
        let g1 := { s.g with convert_pid := e.fork_convert }
        let t2 := t1 ++ [Ev.fork e.fork_convert]
        if e.fork_convert < 0 then some ⟨t2, Outcome.exited EXIT_FAILURE, g1, fs⟩
        else if e.fork_convert == 0 then
          -- close(sample_data_pipe[1]); convert_sample_data()
          let c := convert_sample_data o e.conv fs
          some ⟨t2 ++ [Ev.close Pipe.sample_data 1] ++ c.trace, c.out, g1, c.fs⟩
        else
          -- close(sample_data_pipe[0]); close(sample_data_pipe[1])
          run_wait fuel e g1 fs (t2 ++ [Ev.close Pipe.sample_data 0, Ev.close Pipe.sample_data 1])
      else run_wait fuel e s.g fs t1
    | out => some ⟨t1, out, s.g, fs⟩

/-- The shape of the calls of a run with respect to `start_app_pipe`: either no `write` on it at
all, or the calls end with the read on `app_ready_pipe`, the read on
`operf_record_ready_pipe` and one `write` of `v` on `start_app_pipe`, in that order, where
neither read failed, `startup` held 1, and `v` is 1 with `recorder_ready` holding 1, or `v` is
0 with `recorder_ready` not holding 1 and the run returning -1. -/
def StartShape (e : SpaEnv) (r : Run) : Prop :=
  r.trace.filter Ev.isStartWrite = [] ∨
  ∃ pre v, r.trace = pre ++ [Ev.read Pipe.app_ready e.app_ready_read,
      Ev.read Pipe.operf_record_ready e.rec_ready_read,
      Ev.write Pipe.start_app v e.start_write_ok] ∧
    pre.filter Ev.isStartWrite = [] ∧
    e.app_ready_read.failed = false ∧ e.app_ready_read.store e.startup_uninit = 1 ∧
    e.rec_ready_read.failed = false ∧
    ((v = 1 ∧ e.rec_ready_read.store e.recorder_ready_uninit = 1) ∨
      (v = 0 ∧ e.rec_ready_read.store e.recorder_ready_uninit ≠ 1 ∧
        r.out = Outcome.returned (-1)))

/-- The event is a call of `fork`. -/
def Ev.isFork : Ev → Bool
  | Ev.fork _ => true
  | _ => false

/-- The first value successfully written on the pipe `p` among the calls `t` of the process
that writes on it: the value a reader of the pipe receives first. -/
def first_written (p : Pipe) : List Ev → Option Int
  | [] => none
  | Ev.write q v true :: rest => if q = p then some v else first_written p rest
  | _ :: rest => first_written p rest

/-- The event is a message reporting a failure of the operf-record step. -/
def Ev.isRecordError : Ev → Bool
  | Ev.record_error_message => true
  | _ => false

/-- The event is a message reporting a failure of the operf-read step. -/
def Ev.isReadError : Ev → Bool
  | Ev.read_error_message => true
  | _ => false

/-- The answer of a `waitpid` on the Converter is compatible with a Converter that exits with
code 0: no child has changed state yet, or the child is reaped with status "exited, code 0". -/
def WaitResult.exitedZero : WaitResult → Bool
  | WaitResult.error _ => false
  | WaitResult.pending => true
  | WaitResult.reaped s => WIFEXITED s && WEXITSTATUS s == 0

/-- The event is a call of `waitpid`. -/
def Ev.isWaitpid : Ev → Bool
  | Ev.waitpid _ _ _ => true
  | _ => false

/-- The pids of the children successfully forked among the calls `t`: the positive values
returned by `fork`. -/
def forked (t : List Ev) : List Int :=
  t.filterMap fun ev =>
    match ev with
    | Ev.fork p => if 0 < p then some p else none
    | _ => none

/-- Among the calls `t` there is a `waitpid` on `pid` that reaped the child and stored its
status. -/
def reaped (pid : Int) (t : List Ev) : Bool :=
  t.any fun ev =>
    match ev with
    | Ev.waitpid p _ (WaitResult.reaped _) => p == pid
    | _ => false

/-! ## Concrete sessions -/

/-- The options of a session that launches an application: no `--system-wide`, no `--pid`. -/
def launch_options : Options := { system_wide := false, pid := 0, append := false }

/-- The options of a `--system-wide` session. -/
def system_wide_options : Options := { system_wide := true, pid := 0, append := false }

/-- The file-scope variables when `_run` is entered in a session that launches an application
or profiles the whole system: `app_PID` is -1, the other variables hold their static
initial value. -/
def initial_globals : Globals :=
  { app_PID := -1, operf_pid := 0, convert_pid := 0, app_started := false, startApp := false }

/-- Answers to the AppLauncher with which it is released and its `execvp` succeeds. -/
def app_env_ok : AppEnv :=
  { exec_args := [['l', 's'], ['-', 'l']], ready_write_ok := true,
    start_read := ReadResult.data 1, exec_ok := true }

/-- Answers seen by the coordinator (both `fork` calls return a child pid) in a launch where
both handshakes deliver 1. -/
def launch_env : SpaEnv :=
  { pipe_app_ready_ok := true, pipe_start_app_ok := true, pipe_record_ready_ok := true,
    fork_app := 100, fork_record := 101, app := app_env_ok, rec_init := RecInit.valid,
    rec_ready_write_ok := true, rec_run_throws := false,
    app_ready_read := ReadResult.data 1, startup_uninit := 0,
    rec_ready_read := ReadResult.data 1, recorder_ready_uninit := 0, start_write_ok := true }

/-- Answers seen by the coordinator in a launch where the AppLauncher's handshake delivers 0. -/
def app_not_ready_env : SpaEnv := { launch_env with app_ready_read := ReadResult.data 0 }

/-- Answers seen by the coordinator in a launch where the Recorder's handshake delivers 0. -/
def record_not_ready_env : SpaEnv := { launch_env with rec_ready_read := ReadResult.data 0 }

/-- Answers seen by the Recorder child (the second `fork` returns 0) in a launch where the
construction of `operf_record` fails with `get_valid()` false. -/
def record_invalid_env : SpaEnv :=
  { launch_env with fork_record := 0, rec_init := RecInit.invalid }

/-- A `remove` that never fails. -/
def allow_all : List String → Bool := fun _ => false

/-- Answers to a Converter for which every step succeeds and the JIT helper ends during the
first `sleep`. -/
def conv_env_ok : ConvEnv :=
  { deny_remove := allow_all, deny_rename := false, deny_mkdir := false, header_rc := 0,
    OP_PERF_HANDLED_ERROR := -101, is_valid := true, convert_throws := false,
    sigaction_ok := true, fork_jit := 200, jit_exec_ok := true, sigchld_at := some 2,
    handler_pid := 200, kill_jit_ok := true }

/-- Answers inside `_kill_operf_pid` when the Recorder and the Converter both exit with code 0:
the clock advances by 0.2 s per reading and every `waitpid` reaps a child that exited 0. -/
def kill_env_ok : KillEnv :=
  { kill_record_ok := true, wait_record := WaitResult.reaped 0,
    clock := fun n => { tv_sec := 1000 + n / 5, tv_usec := (n % 5) * 200000 },
    kill_convert_ok := true, wait_convert := fun _ _ => WaitResult.reaped 0 }

/-- Answers seen by the coordinator inside `_run` in a launch where the Recorder's handshake
delivers 0. -/
def record_not_ready_run : RunEnv :=
  { pipe_sample_data_ok := true, spa := record_not_ready_env, fork_convert := 102,
    conv := conv_env_ok, sigaction_ok := true, wait_primary := WaitResult.reaped 0,
    kill := kill_env_ok }

/-- A samples directory whose `current` holds one file and which has no `previous`. -/
def one_file_fs : SamplesDir :=
  { current := some (Node.dir (Entries.cons "sample" (Node.file 7) Entries.nil)),
    previous := none }

/-- The file-scope variables of a coordinator that has launched an application (pid 100) and
forked the Recorder (pid 101) and the Converter (pid 102). -/
def running_globals : Globals :=
  { app_PID := 100, operf_pid := 101, convert_pid := 102, app_started := true, startApp := true }

/-- Answers inside `_run` in a `--system-wide` session whose wait on the Recorder is
interrupted, with a Recorder and a Converter that exit with code 0. -/
def system_wide_run : RunEnv :=
  { pipe_sample_data_ok := true, spa := launch_env, fork_convert := 102, conv := conv_env_ok,
    sigaction_ok := true, wait_primary := WaitResult.error EINTR, kill := kill_env_ok }

/-- Answers inside `_run` in a launch where the application exits with code 1 (status word
256) and the Recorder and the Converter exit with code 0. -/
def app_failed_run : RunEnv :=
  { pipe_sample_data_ok := true, spa := launch_env, fork_convert := 102, conv := conv_env_ok,
    sigaction_ok := true, wait_primary := WaitResult.reaped 256, kill := kill_env_ok }

/-- Answers inside `_kill_operf_pid` when the Converter is killed by signal 9: the first poll
reaps it with status word 9, every later `waitpid` fails with `ECHILD`. -/
def convert_signaled_env : KillEnv :=
  { kill_env_ok with
    wait_convert := fun n _ => if n = 0 then WaitResult.reaped 9 else WaitResult.error ECHILD }

/-- Answers inside `_kill_operf_pid` when the Converter keeps running: every poll with
`WNOHANG` returns 0, a blocking wait reaps it with status "exited, code 0". -/
def convert_running_env : KillEnv :=
  { kill_env_ok with
    wait_convert := fun _ nohang => if nohang then WaitResult.pending else WaitResult.reaped 0 }

/-- Answers inside `_run` in a `--system-wide` session in which the Recorder ends on its own
with code 0. -/
def system_wide_self_end_run : RunEnv :=
  { system_wide_run with wait_primary := WaitResult.reaped 0 }

/-- Answers inside `_run` in a launch in which the wait on the application is interrupted. -/
def app_wait_interrupted_run : RunEnv :=
  { app_failed_run with wait_primary := WaitResult.error EINTR }

/-- Answers inside `_run` in a launch in which the application, the Recorder and the Converter
all exit with code 0. -/
def launch_run_ok : RunEnv :=
  { app_failed_run with wait_primary := WaitResult.reaped 0 }

/-- The event is a call that changes the samples directory: `nftw` with the removing callback,
`rename`, or `mkdir`. -/
def Ev.isFsStep : Ev → Bool
  | Ev.nftw_previous _ => true
  | Ev.rename_current _ => true
  | Ev.mkdir_current _ => true
  | _ => false

/-- The options of a launch in append mode. -/
def append_options : Options := { system_wide := false, pid := 0, append := true }

/-- A samples directory with a `current` holding one file and a `previous` holding another. -/
def two_dirs_fs : SamplesDir :=
  { current := some (Node.dir (Entries.cons "sample" (Node.file 7) Entries.nil)),
    previous := some (Node.dir (Entries.cons "old" (Node.file 3) Entries.nil)) }

/-- The event is a call of `sleep`. -/
def Ev.isSleep : Ev → Bool
  | Ev.sleep => true
  | _ => false

/-- The event is a call of `kill`. -/
def Ev.isKill : Ev → Bool
  | Ev.kill _ _ _ => true
  | _ => false

/-- Answers to a Converter whose `fork` of the JIT helper fails. -/
def conv_env_fork_failed : ConvEnv := { conv_env_ok with fork_jit := -1, sigchld_at := none }

/-- Answers to a Converter whose JIT helper never completes. -/
def conv_env_helper_hangs : ConvEnv := { conv_env_ok with sigchld_at := none }

/-- Answers to a Converter whose `readPerfHeader` returns a negative value other than
`OP_PERF_HANDLED_ERROR`. -/
def conv_env_bad_header : ConvEnv := { conv_env_ok with header_rc := -1 }

/-- The event is a `write` on `operf_record_ready_pipe[1]`. -/
def Ev.isRecordReadyWrite : Ev → Bool
  | Ev.write Pipe.operf_record_ready _ _ => true
  | _ => false

/-- Answers seen by the Recorder child (the second `fork` returns 0) in a launch where the
`operf_record` object is valid and recording ends normally. -/
def record_child_env : SpaEnv := { launch_env with fork_record := 0 }

/-- Answers seen by the Recorder child of a session without launch in which `get_valid()` is
false. -/
def record_child_invalid_env : SpaEnv :=
  { launch_env with fork_record := 0, rec_init := RecInit.invalid }

/-- The options of a session that attaches to the process 4242. -/
def attach_options : Options := { system_wide := false, pid := 4242, append := false }

/-- The file-scope variables when `_run` is entered in a session that attaches to the process
4242: `process_args` has set `app_PID` to the pid. -/
def attach_globals : Globals :=
  { app_PID := 4242, operf_pid := 0, convert_pid := 0, app_started := false,
    startApp := false }

/-- Answers seen by the Recorder child of a launch whose `write` of the ready value fails. -/
def record_child_write_fails_env : SpaEnv :=
  { launch_env with fork_record := 0, rec_ready_write_ok := false }

/-- Answers seen by the Recorder child of a launch whose `recordPerfData` throws
`runtime_error` after the ready value was written. -/
def record_child_throws_env : SpaEnv :=
  { launch_env with fork_record := 0, rec_run_throws := true }

/-- Answers inside `_run` seen by the Recorder child of a system-wide session in which
`get_valid()` is false. -/
def record_child_invalid_run : RunEnv :=
  { system_wide_run with spa := record_child_invalid_env, wait_primary := WaitResult.error ECHILD }

/-- A run that returns 0 has `app_started` set unless the session is system-wide. -/
def GuardHolds (o : Options) (r : Run) : Prop :=
  r.out = Outcome.returned 0 → (r.g.app_started || o.system_wide) = true

/-! ## `process_args` and `main` -/

/-- What `process_args` finds once `popt::parse_options` has filled `operf_options`, and what
its collaborators answer. -/
structure ArgsEnv where
  /-- The vector `non_options`: the command to launch and its arguments, when given. -/
  non_options : List (List Char)
  /-- The call `validate_app_name()` did not return a negative value. -/
  validate_ok : Bool
  /-- The rest of `process_args` (verbose setup, session directory, events, vmlinux) does not
  end the process. -/
  setup_ok : Bool

/-- The function `process_args` (lines 1112 to 1171), entered with the given value of `app_PID`:
the exit code when it ends the process (`__print_usage_and_exit` or an `exit` of the later
setup), or the value of `app_PID` when it returns.  The copies of the command into `app_name`
and `app_args` are left out. -/
def process_args (o : Options) (a : ArgsEnv) (app_PID : Int) : Except Nat Int :=
  let rest : Int → Except Nat Int := fun p =>
    if a.setup_ok then Except.ok p else Except.error EXIT_FAILURE
  if !a.non_options.isEmpty then
    -- if (operf_options::pid || operf_options::system_wide) __print_usage_and_exit(NULL)
    if o.pid != 0 || o.system_wide then Except.error EXIT_FAILURE
    -- if (validate_app_name() < 0) __print_usage_and_exit(NULL)
    else if !a.validate_ok then Except.error EXIT_FAILURE
    else rest app_PID
  else if o.pid != 0 then
    if o.system_wide then Except.error EXIT_FAILURE
    else rest o.pid
  else if o.system_wide then rest (-1)
  else Except.error EXIT_FAILURE

/-- The number of target modes present among: a command, a non-zero `--pid`, `--system-wide`. -/
def modes_present (o : Options) (a : ArgsEnv) : Nat :=
  (if a.non_options.isEmpty then 0 else 1) + (if o.pid != 0 then 1 else 0) +
    (if o.system_wide then 1 else 0)

/-- What the operating system and the collaborators answer inside `main`. -/
structure MainEnv where
  /-- The value returned by `_check_perf_events_cap()`. -/
  perf_cap_rc : Nat
  /-- The answers given inside `process_args`. -/
  args : ArgsEnv
  /-- The value of `geteuid()`. -/
  my_uid : Nat
  /-- The value `cpu_type` is not `CPU_NO_GOOD`. -/
  cpu_ok : Bool
  /-- The calls of `_precheck_permissions_to_samplesdir` do not end the process. -/
  precheck_ok : Bool
  /-- The answers given inside `_run`. -/
  run : RunEnv
  /-- The call `kill(app_PID, SIGKILL)` of the cleanup returned 0. -/
  kill_app_ok : Bool

/-- The function `main` (lines 1223 to 1296) with the options `o` as parsed: the calls made, the
way the process ends (`returned rc` is the exit status `run_result`), the file-scope variables
and the samples directory; `none` when the loop of `_kill_operf_pid` is still running after
`fuel` iterations.  The messages on `cerr` and `cout` and the calls of `cleanup()` are left
out. -/
def main (fuel : Nat) (o : Options) (e : MainEnv) (fs : SamplesDir) : Option RunResult :=
  let g0 : Globals :=
    { app_PID := -1, operf_pid := 0, convert_pid := 0, app_started := false, startApp := false }
  -- if ((rc = _check_perf_events_cap())) { ...; exit(1); }
  if e.perf_cap_rc != 0 then some ⟨[], Outcome.exited 1, g0, fs⟩
  else
    match process_args o e.args g0.app_PID with
    | Except.error code => some ⟨[], Outcome.exited code, g0, fs⟩
    | Except.ok p =>
      let g := { g0 with app_PID := p }
      -- if (operf_options::system_wide && my_uid != 0) exit(1)
      if o.system_wide && e.my_uid != 0 then some ⟨[], Outcome.exited 1, g, fs⟩
      -- if (cpu_type == CPU_NO_GOOD) exit(1)
      else if !e.cpu_ok then some ⟨[], Outcome.exited 1, g, fs⟩
      -- if (my_uid != 0) _precheck_permissions_to_samplesdir(...)
      else if e.my_uid != 0 && !e.precheck_ok then some ⟨[], Outcome.exited 1, g, fs⟩
      else
        match _run fuel o e.run g fs with
        | none => none
        | some r =>
          match r.out with
          | Outcome.returned run_result =>
            -- if (run_result) { if (app_started && (run_result != APP_ABNORMAL_END)) kill(...) }
            if run_result != 0 && r.g.app_started && run_result != APP_ABNORMAL_END then
              some { r with trace := r.trace ++ [Ev.kill r.g.app_PID SIGKILL e.kill_app_ok] }
            else some r
          | _ => some r

/-- Answers inside `process_args` for a command line that gives a command and `--pid`. -/
def args_command_and_pid : ArgsEnv :=
  { non_options := [['l', 's']], validate_ok := true, setup_ok := true }

/-- Answers inside `process_args` for a command line without a command. -/
def args_no_command : ArgsEnv := { non_options := [], validate_ok := true, setup_ok := true }

/-- Answers inside `main` for a root user on a supported processor, with the given answers of
`process_args`. -/
def main_env (a : ArgsEnv) : MainEnv :=
  { perf_cap_rc := 0, args := a, my_uid := 0, cpu_ok := true, precheck_ok := true,
    run := launch_run_ok, kill_app_ok := true }

/-! ## Descriptor tables -/

/-- The event is a call that changes the descriptor table of the process: `pipe` or `close`. -/
def Ev.isFdCall : Ev → Bool
  | Ev.pipe _ _ => true
  | Ev.close _ _ => true
  | _ => false

/-- The event is a `close` of an end of one of the three handshake pipes `app_ready_pipe`,
`start_app_pipe`, `operf_record_ready_pipe`. -/
def Ev.isHandshakeClose : Ev → Bool
  | Ev.close p _ => p != Pipe.sample_data
  | _ => false

/-- The entry of the descriptor table for the end `p[side]` after one more call: a `pipe(p)`
that succeeds opens both ends of `p`, a `close(p[side])` closes the end, and no other call
(a `fork` among them: the child starts with a copy of the table) changes the entry. -/
def fd_step (p : Pipe) (side : Nat) (is_open : Bool) : Ev → Bool
  | Ev.pipe q ok => if q = p ∧ ok = true ∧ side < 2 then true else is_open
  | Ev.close q s => if q = p ∧ s = side then false else is_open
  | _ => is_open

/-- The descriptor table of a process: whether the end `p[side]` is open in the process whose
calls are `t`, the calls made by its ancestors before the `fork` that created it included. -/
def fd_table (t : List Ev) (p : Pipe) (side : Nat) : Bool := t.foldl (fd_step p side) false

/-- Answers inside `_run` seen by the AppLauncher child (the first `fork` returns 0) of a
launch. -/
def app_child_run : RunEnv := { launch_run_ok with spa := { launch_env with fork_app := 0 } }

/-- Answers inside `_run` seen by the Recorder child (the second `fork` returns 0) of a
launch. -/
def record_child_run : RunEnv := { launch_run_ok with spa := record_child_env }

/-- Answers inside `_run` seen by the Converter child (the third `fork` returns 0) of a
launch. -/
def convert_child_run : RunEnv := { launch_run_ok with fork_convert := 0 }

/-- Answers inside `_run` when `pipe(sample_data_pipe)` fails. -/
def sample_pipe_fails_run : RunEnv := { launch_run_ok with pipe_sample_data_ok := false }

/-- Answers inside `_run` in a launch whose `pipe(start_app_pipe)` fails. -/
def start_pipe_fails_run : RunEnv :=
  { launch_run_ok with spa := { launch_env with pipe_start_app_ok := false } }

/-- Answers inside `_run` in a launch whose `pipe(operf_record_ready_pipe)` fails, the
AppLauncher (pid 100) being forked. -/
def record_pipe_fails_run : RunEnv :=
  { launch_run_ok with spa := { launch_env with pipe_record_ready_ok := false } }

/-- Answers inside `_run` when the `fork` of the Recorder fails; in a launch the AppLauncher
(pid 100) is forked. -/
def record_fork_fails_run : RunEnv :=
  { launch_run_ok with spa := { launch_env with fork_record := -1 } }

/-- Answers inside `_run` in a launch whose `fork` of the Converter fails, the AppLauncher
(pid 100) and the Recorder (pid 101) being forked. -/
def convert_fork_fails_run : RunEnv := { launch_run_ok with fork_convert := -1 }

/-! ## `op_sig_stop` -/

/-- The handler `op_sig_stop` of `SIGINT` (lines 140 to 148), run with the file-scope variables
`g`: the calls it makes; `kill_ok` says its `kill` returned 0.  The `write` of the debug text on
descriptor 1 is left out. -/
def op_sig_stop (g : Globals) (kill_ok : Bool) : List Ev :=
  -- if (startApp) kill(app_PID, SIGKILL)
  if g.startApp then [Ev.kill g.app_PID SIGKILL kill_ok] else []

/-- Answers inside `main` for `operf --pid 4242` run by root when the wait on the Recorder
fails with `ECHILD`: `_run` returns `PERF_RECORD_ERROR`. -/
def attach_record_error_env : MainEnv :=
  { main_env args_no_command with
    run := { system_wide_run with wait_primary := WaitResult.error ECHILD } }

/-- Answers inside `main` for `operf --pid 4242` run by root when the wait on the Recorder is
interrupted and the Converter exits with code 1 (status word 256): `_run` returns
`PERF_READ_ERROR`. -/
def attach_read_error_env : MainEnv :=
  { main_env args_no_command with
    run := { system_wide_run with
      kill := { kill_env_ok with wait_convert := fun _ _ => WaitResult.reaped 256 } } }

/-- Answers inside `main` for `operf --system-wide` run by root when the wait on the Recorder
fails with `ECHILD`: `_run` returns `PERF_RECORD_ERROR`. -/
def system_wide_record_error_env : MainEnv := attach_record_error_env

/-! ## The argument vector of `run_app` -/

/-- The call `s.find_first_of(c, 0)` of `std::string`: the position of the first `c` in `s`,
`none` for `string::npos`. -/
def find_first_of (s : List Char) (c : Char) : Option Nat :=
  match s with
  | [] => none
  | x :: xs => if x = c then some 0 else (find_first_of xs c).map (fun n => n + 1)

/-- The call `rindex(s, c)` of the C library for a character `c` other than NUL: the position
of the last `c` in `s`, `none` for the null pointer. -/
def rindex (s : List Char) (c : Char) : Option Nat :=
  match s with
  | [] => none
  | x :: xs =>
    match rindex xs c with
    | some n => some (n + 1)
    | none => if x = c then some 0 else none

/-- The loop `do { ... } while (end_pos != string::npos)` of `run_app` (lines 187 to 195),
entered with the string `app_args_str` and the vector `exec_args_str`: the vector when the loop
ends.  `fuel` bounds the number of iterations; `none` means the bound was reached with the loop
still running. -/
def split_loop : Nat → List Char → List (List Char) → Option (List (List Char))
  | 0, _, _ => none
  | fuel + 1, app_args_str, exec_args_str =>
    -- end_pos = app_args_str.find_first_of(' ', 0)
    match find_first_of app_args_str ' ' with
    | some end_pos =>
      -- exec_args_str.push_back(app_args_str.substr(0, end_pos));
      -- app_args_str = app_args_str.substr(end_pos + 1)
      split_loop fuel (app_args_str.drop (end_pos + 1))
        (exec_args_str ++ [app_args_str.take end_pos])
    | none =>
      -- exec_args_str.push_back(app_args_str)
      some (exec_args_str ++ [app_args_str])

/-- The first part of `run_app` (lines 171 to 209): the vector `exec_args` built from
`app_name` and `app_args` (`none` when `app_args` is the null pointer).  An entry `some s` is a
pointer to the string `s`, the entry `none` is the null pointer that ends the vector.  The
result is `none` when the loop is still running after `fuel` iterations, and when `app_name`
holds no `/`: `app_fname` is then the pointer 1, which passes the test `if (!app_fname)`, and
reading the string it points to is undefined. -/
def build_exec_args (fuel : Nat) (app_name : List Char) (app_args : Option (List Char)) :
    Option (List (Option (List Char))) :=
  -- char * app_fname = rindex(app_name, '/') + 1
  match rindex app_name '/' with
  | none => none
  | some i =>
    let app_fname := app_name.drop (i + 1)
    -- if (app_args) { string app_args_str = app_args; do ... while (...) }
    let exec_args_str : Option (List (List Char)) :=
      match app_args with
      | some app_args_str => split_loop fuel app_args_str []
      | none => some []
    match exec_args_str with
    | none => none
    | some v =>
      -- exec_args.push_back(app_fname); for (it ...) exec_args.push_back((*it).c_str());
      -- exec_args.push_back((char *) NULL)
      some (some app_fname :: v.map some ++ [none])

/-- The argument strings that `execvp` reads from a vector: the entries before the first null
pointer. -/
def argv : List (Option (List Char)) → List (List Char)
  | some s :: rest => s :: argv rest
  | _ => []

/-- The function `run_app` from its first line (lines 171 to 236): the vector is built, then
handed to `execvp`. -/
def run_app_from_top (fuel : Nat) (app_name : List Char) (app_args : Option (List Char))
    (e : AppEnv) : Option (List Ev × Outcome) :=
  match build_exec_args fuel app_name app_args with
  | none => none
  | some exec_args => some (run_app { e with exec_args := argv exec_args })

/-- The full path name `/bin/ls`. -/
def bin_ls : List Char := ['/', 'b', 'i', 'n', '/', 'l', 's']

/-- The argument string ` -l  /tmp `, with a leading space, two consecutive spaces and a
trailing space. -/
def spaced_args : List Char := [' ', '-', 'l', ' ', ' ', '/', 't', 'm', 'p', ' ']

/-! ## Theorems -/

/-- C1: in `run_app` the real `execvp(app_name, ...)` is called exactly when the ready value was
written and the `read` on `start_app_pipe` delivered the value 1; in every other case (value 0,
any other value, a read of zero bytes, a read error, a failed ready write) the process ends in
`_exit(EXIT_FAILURE)` without calling it; and the call is always preceded by the write of the
ready value 1 on `app_ready_pipe`. -/
theorem run_app_exec_iff_start_one (e : AppEnv) :
    ((∃ a, Ev.execvp_app a ∈ (run_app e).1) ↔
        (e.ready_write_ok = true ∧ e.start_read = ReadResult.data 1)) ∧
    (¬ (e.ready_write_ok = true ∧ e.start_read = ReadResult.data 1) →
        (run_app e).2 = Outcome.exited EXIT_FAILURE ∧ ∀ a, Ev.execvp_app a ∉ (run_app e).1) ∧
    (∀ (i : Nat) a, (run_app e).1[i]? = some (Ev.execvp_app a) →
        ∃ j : Nat, j < i ∧ (run_app e).1[j]? = some (Ev.write Pipe.app_ready 1 true)) := by
  obtain ⟨args, w, r, x⟩ := e
  have key : ∀ (i : Nat) a, ([Ev.execvp_warmup, Ev.write Pipe.app_ready 1 true,
      Ev.read Pipe.start_app (ReadResult.data 1), Ev.execvp_app args] : List Ev)[i]? =
        some (Ev.execvp_app a) → ∃ j : Nat, j < i ∧
      ([Ev.execvp_warmup, Ev.write Pipe.app_ready 1 true,
        Ev.read Pipe.start_app (ReadResult.data 1), Ev.execvp_app args] : List Ev)[j]? =
        some (Ev.write Pipe.app_ready 1 true) := by
    intro i a h
    refine ⟨1, ?_, rfl⟩
    match i, h with
    | 0, h => simp at h
    | 1, h => simp at h
    | (n + 2), _ => omega
  cases w
  · refine ⟨?_, ?_, ?_⟩
    · simp [run_app]
    · simp [run_app]
    · intro i a h
      match i, h with
      | 0, h => simp [run_app] at h
      | 1, h => simp [run_app] at h
      | (n + 2), h => simp [run_app] at h
  · cases r with
    | error =>
      refine ⟨?_, ?_, ?_⟩
      · simp [run_app, ReadResult.failed]
      · simp [run_app, ReadResult.failed]
      · intro i a h
        match i, h with
        | 0, h => simp [run_app, ReadResult.failed] at h
        | 1, h => simp [run_app, ReadResult.failed] at h
        | 2, h => simp [run_app, ReadResult.failed] at h
        | (n + 3), h => simp [run_app, ReadResult.failed] at h
    | eof =>
      refine ⟨?_, ?_, ?_⟩
      · simp [run_app, ReadResult.failed, ReadResult.store]
      · simp [run_app, ReadResult.failed, ReadResult.store]
      · intro i a h
        match i, h with
        | 0, h => simp [run_app, ReadResult.failed, ReadResult.store] at h
        | 1, h => simp [run_app, ReadResult.failed, ReadResult.store] at h
        | 2, h => simp [run_app, ReadResult.failed, ReadResult.store] at h
        | (n + 3), h => simp [run_app, ReadResult.failed, ReadResult.store] at h
    | data v =>
      by_cases hv : v = 1
      · subst hv
        cases x
        · refine ⟨?_, ?_, ?_⟩
          · simp [run_app, ReadResult.failed, ReadResult.store]
          · simp [run_app, ReadResult.failed, ReadResult.store]
          · simpa [run_app, ReadResult.failed, ReadResult.store] using key
        · refine ⟨?_, ?_, ?_⟩
          · simp [run_app, ReadResult.failed, ReadResult.store]
          · simp [run_app, ReadResult.failed, ReadResult.store]
          · simpa [run_app, ReadResult.failed, ReadResult.store] using key
      · refine ⟨?_, ?_, ?_⟩
        · simp [run_app, ReadResult.failed, ReadResult.store, hv]
        · simp [run_app, ReadResult.failed, ReadResult.store, hv]
        · intro i a h
          match i, h with
          | 0, h => simp [run_app, ReadResult.failed, ReadResult.store, hv] at h
          | 1, h => simp [run_app, ReadResult.failed, ReadResult.store, hv] at h
          | 2, h => simp [run_app, ReadResult.failed, ReadResult.store, hv] at h
          | (n + 3), h => simp [run_app, ReadResult.failed, ReadResult.store, hv] at h

/-! ### Shape of the calls made by `start_profiling_app` -/

theorem run_app_no_start_write (e : AppEnv) : (run_app e).1.filter Ev.isStartWrite = [] := by
  unfold run_app
  dsimp only
  by_cases h1 : e.ready_write_ok = true <;> by_cases h2 : e.start_read.failed = true <;>
    by_cases h3 : e.start_read.store 0 = 1 <;> by_cases h4 : e.exec_ok = true <;>
    simp [h1, h2, h3, h4, List.filter, Ev.isStartWrite]

theorem StartShape.after {e : SpaEnv} {r : Run} (h : StartShape e r) (t : List Ev)
    (ht : t.filter Ev.isStartWrite = []) : StartShape e (r.after t) := by
  rcases h with h | ⟨pre, v, h1, h2, h3⟩
  · left
    simp [Run.after, h, ht]
  · right
    refine ⟨t ++ pre, v, ?_, ?_, ?_⟩
    · simp [Run.after, h1]
    · simp [h2, ht]
    · simpa [Run.after] using h3

theorem fail_out_shape (o : Options) (e : SpaEnv) (g : Globals) (ready : Int) :
    StartShape e (fail_out o e g ready) := by
  left
  unfold fail_out
  by_cases h : (g.startApp && ready == 0) = true <;> simp [h, List.filter, Ev.isStartWrite]

theorem record_child_shape (o : Options) (e : SpaEnv) (g : Globals) :
    StartShape e (record_child o e g) := by
  unfold record_child
  cases e.rec_init
  · exact (fail_out_shape o e g 0).after _ (by simp [List.filter, Ev.isStartWrite])
  · exact (fail_out_shape o e g 0).after _ (by simp [List.filter, Ev.isStartWrite])
  · dsimp only
    by_cases h1 : g.startApp = true <;> by_cases h2 : e.rec_ready_write_ok = true <;>
      by_cases h3 : e.rec_run_throws = true <;> simp only [h1, h2, h3, if_true, if_false,
        Bool.and_true, Bool.and_false, Bool.true_and, Bool.false_and, Bool.not_true,
        Bool.not_false, Bool.false_eq_true]
    all_goals first
      | exact (fail_out_shape o e g _).after _ (by simp [List.filter, Ev.isStartWrite])
      | (left; simp [List.filter, Ev.isStartWrite])

theorem coordinator_branch_shape (o : Options) (e : SpaEnv) (g : Globals) :
    StartShape e (coordinator_branch o e g) := by
  unfold coordinator_branch
  dsimp only
  by_cases h1 : g.startApp = true
  swap
  · left; simp [h1]
  by_cases h2 : e.app_ready_read.failed = true
  · left; simp [h1, h2, List.filter, Ev.isStartWrite]
  by_cases h3 : e.app_ready_read.store e.startup_uninit = 1
  swap
  · left; simp [h1, h2, h3, List.filter, Ev.isStartWrite]
  by_cases h4 : e.rec_ready_read.failed = true
  · left; simp [h1, h2, h3, h4, List.filter, Ev.isStartWrite]
  have h2' : e.app_ready_read.failed = false := by simpa using h2
  have h4' : e.rec_ready_read.failed = false := by simpa using h4
  by_cases h5 : e.rec_ready_read.store e.recorder_ready_uninit = 1
  · by_cases h6 : e.start_write_ok = true
    · right
      exact ⟨[], 1, by simp [h1, h2, h3, h4, h5, h6], by simp, h2', h3, h4', Or.inl ⟨rfl, h5⟩⟩
    · right
      exact ⟨[], 1, by simp [h1, h2, h3, h4, h5, h6], by simp, h2', h3, h4', Or.inl ⟨rfl, h5⟩⟩
  · right
    exact ⟨[], 0, by simp [h1, h2, h3, h4, h5], by simp, h2', h3, h4',
      Or.inr ⟨rfl, h5, by simp [h1, h2, h3, h4, h5]⟩⟩

theorem fork_record_shape (o : Options) (e : SpaEnv) (g : Globals) :
    StartShape e (fork_record o e g) := by
  unfold fork_record
  dsimp only
  by_cases h1 : e.fork_record < 0
  · left; simp [h1, List.filter, Ev.isStartWrite]
  by_cases h2 : e.fork_record = 0
  · simp only [h1, h2, if_false, if_true, beq_self_eq_true, lt_self_iff_false]
    exact (record_child_shape o e _).after _ (by simp [List.filter, Ev.isStartWrite])
  · simp only [h1, if_false, beq_iff_eq, h2]
    exact (coordinator_branch_shape o e _).after _ (by simp [List.filter, Ev.isStartWrite])

theorem start_profiling_app_shape (o : Options) (e : SpaEnv) (g0 : Globals) :
    StartShape e (start_profiling_app o e g0) := by
  unfold start_profiling_app
  dsimp only
  by_cases h0 : ((g0.app_PID != o.pid) && (o.system_wide == false)) = true
  swap
  · simp only [h0, if_false, Bool.false_eq_true]
    exact fork_record_shape o e _
  simp only [h0, if_true]
  by_cases h1 : e.pipe_app_ready_ok = true
  swap
  · left; simp [h1, List.filter, Ev.isStartWrite]
  by_cases h2 : e.pipe_start_app_ok = true
  swap
  · left; simp [h1, h2, List.filter, Ev.isStartWrite]
  by_cases h3 : e.fork_app < 0
  · left; simp [h1, h2, h3, List.filter, Ev.isStartWrite]
  by_cases h4 : e.fork_app = 0
  · left
    simp [h1, h2, h4, List.filter, Ev.isStartWrite, run_app_no_start_write]
  by_cases h5 : e.pipe_record_ready_ok = true
  swap
  · left; simp [h1, h2, h3, h4, h5, List.filter, Ev.isStartWrite]
  simp only [h1, h2, h3, h4, h5, if_false, if_true, Bool.not_true, Bool.false_eq_true,
    beq_iff_eq]
  exact (fork_record_shape o e _).after _ (by simp [List.filter, Ev.isStartWrite])

theorem ReadResult.eq_data_one {r : ReadResult} {init : Int} (hf : r.failed = false)
    (he : r ≠ ReadResult.eof) (hs : r.store init = 1) : r = ReadResult.data 1 := by
  cases r with
  | error => simp [ReadResult.failed] at hf
  | eof => exact absurd rfl he
  | data v => simp [ReadResult.store] at hs; rw [hs]

theorem not_start_write_of_filter_nil {t : List Ev} (h : t.filter Ev.isStartWrite = [])
    {k : Nat} {v : Int} {ok : Bool} : t[k]? ≠ some (Ev.write Pipe.start_app v ok) := by
  intro hk
  have hm : Ev.write Pipe.start_app v ok ∈ t := List.getElem?_mem hk
  have : Ev.write Pipe.start_app v ok ∈ t.filter Ev.isStartWrite :=
    List.mem_filter.mpr ⟨hm, rfl⟩
  rw [h] at this
  exact absurd this (List.not_mem_nil _)

/-- C2: in `start_profiling_app`, every `write` of the value 1 on `start_app_pipe` is preceded
by a read of the value 1 from `app_ready_pipe` and then a read of the value 1 from
`operf_record_ready_pipe`; and in every run at most one `write` on `start_app_pipe` is made.
The two hypotheses say that neither handshake read returns zero bytes: the reading process
keeps the write ends of `app_ready_pipe` and `operf_record_ready_pipe` open itself, so these
reads block rather than report end of file (a read of zero bytes would leave `startup` or
`recorder_ready` without a value, which C++ leaves undefined). -/
theorem start_write_one_after_both_ready (o : Options) (e : SpaEnv) (g0 : Globals)
    (hA : e.app_ready_read ≠ ReadResult.eof) (hR : e.rec_ready_read ≠ ReadResult.eof) :
    (∀ (k : Nat) (ok : Bool),
      (start_profiling_app o e g0).trace[k]? = some (Ev.write Pipe.start_app 1 ok) →
      ∃ i j : Nat, i < j ∧ j < k ∧
        (start_profiling_app o e g0).trace[i]? =
          some (Ev.read Pipe.app_ready (ReadResult.data 1)) ∧
        (start_profiling_app o e g0).trace[j]? =
          some (Ev.read Pipe.operf_record_ready (ReadResult.data 1))) ∧
    ((start_profiling_app o e g0).trace.filter Ev.isStartWrite).length ≤ 1 := by
  rcases start_profiling_app_shape o e g0 with h | ⟨pre, v, ht, hpre, hfa, hsa, hfr, hv⟩
  · refine ⟨?_, by simp [h]⟩
    intro k ok hk
    exact absurd hk (not_start_write_of_filter_nil h)
  · rw [ht]
    refine ⟨?_, by simp [List.filter_append, hpre, List.filter, Ev.isStartWrite]⟩
    intro k ok hk
    rcases Nat.lt_or_ge k pre.length with hlt | hge
    · rw [List.getElem?_append_left hlt] at hk
      exact absurd hk (not_start_write_of_filter_nil hpre)
    · rw [List.getElem?_append_right hge] at hk
      obtain ⟨d, hd⟩ : ∃ d, k = pre.length + d := ⟨k - pre.length, by omega⟩
      subst hd
      simp only [Nat.add_sub_cancel_left] at hk
      match d, hk with
      | 0, hk => simp at hk
      | 1, hk => simp at hk
      | 2, hk =>
        simp at hk
        have hv1 : v = 1 := hk.1
        have hsr : e.rec_ready_read.store e.recorder_ready_uninit = 1 := by
          rcases hv with ⟨_, h⟩ | ⟨h0, _, _⟩
          · exact h
          · omega
        refine ⟨pre.length, pre.length + 1, by omega, by omega, ?_, ?_⟩
        · rw [List.getElem?_append_right (le_refl _)]
          simp [ReadResult.eq_data_one hfa hA hsa]
        · rw [List.getElem?_append_right (by omega)]
          simp [ReadResult.eq_data_one hfr hR hsr]
      | (n + 3), hk => simp at hk


/-- C2 (witness): the launch in which both handshakes deliver 1 satisfies the hypotheses, and
there the value 1 is written to `start_app_pipe`, as the eighth call. -/
theorem start_write_one_after_both_ready_witness :
    (launch_env.app_ready_read ≠ ReadResult.eof ∧ launch_env.rec_ready_read ≠ ReadResult.eof) ∧
    (start_profiling_app launch_options launch_env initial_globals).trace[7]? =
      some (Ev.write Pipe.start_app 1 true) ∧
    ((∀ (k : Nat) (ok : Bool),
      (start_profiling_app launch_options launch_env initial_globals).trace[k]? =
        some (Ev.write Pipe.start_app 1 ok) →
      ∃ i j : Nat, i < j ∧ j < k ∧
        (start_profiling_app launch_options launch_env initial_globals).trace[i]? =
          some (Ev.read Pipe.app_ready (ReadResult.data 1)) ∧
        (start_profiling_app launch_options launch_env initial_globals).trace[j]? =
          some (Ev.read Pipe.operf_record_ready (ReadResult.data 1))) ∧
    ((start_profiling_app launch_options launch_env initial_globals).trace.filter
      Ev.isStartWrite).length ≤ 1) :=
  ⟨⟨by decide, by decide⟩, by decide,
    start_write_one_after_both_ready launch_options launch_env initial_globals
      (by decide) (by decide)⟩

/-- In launch mode, in the process for which the first `fork` returned a child pid and all three
handshake pipes were created, `start_profiling_app` continues with the second `fork`. -/
theorem start_profiling_app_launch_parent (o : Options) (e : SpaEnv) (g0 : Globals)
    (hpid : g0.app_PID ≠ o.pid) (hsw : o.system_wide = false)
    (hp1 : e.pipe_app_ready_ok = true) (hp2 : e.pipe_start_app_ok = true)
    (hp3 : e.pipe_record_ready_ok = true) (hfa : 0 < e.fork_app) :
    start_profiling_app o e g0 =
      (fork_record o e { g0 with startApp := true, app_PID := e.fork_app }).after
        [Ev.pipe Pipe.app_ready true, Ev.pipe Pipe.start_app true, Ev.fork e.fork_app,
          Ev.pipe Pipe.operf_record_ready true] := by
  have h1 : ¬ e.fork_app < 0 := by omega
  have h2 : ¬ e.fork_app = 0 := by omega
  have hb : (g0.app_PID != o.pid) = true := by simpa using hpid
  simp [start_profiling_app, hb, hsw, hp1, hp2, hp3, h1, h2]

/-- In the process for which the second `fork` returned a child pid, `fork_record` continues
with the coordinator branch. -/
theorem fork_record_parent (o : Options) (e : SpaEnv) (g : Globals) (hfr : 0 < e.fork_record) :
    fork_record o e g =
      (coordinator_branch o e { g with operf_pid := e.fork_record }).after
        [Ev.fork e.fork_record] := by
  have h1 : ¬ e.fork_record < 0 := by omega
  have h2 : ¬ e.fork_record = 0 := by omega
  simp [fork_record, h1, h2]

/-- In the process for which the second `fork` returned 0, `fork_record` continues with the
Recorder child. -/
theorem fork_record_child (o : Options) (e : SpaEnv) (g : Globals) (hfr : e.fork_record = 0) :
    fork_record o e g =
      (record_child o e { g with operf_pid := 0 }).after [Ev.fork 0] := by
  simp [fork_record, hfr]

/-- C3 (counterexample): in the launch where the AppLauncher's handshake delivers 0, the
coordinator returns -1 having made no `write` on `start_app_pipe` at all, so no negative
acknowledgment. -/
theorem app_not_ready_writes_nothing :
    (start_profiling_app launch_options app_not_ready_env initial_globals).out =
      Outcome.returned (-1) ∧
    (start_profiling_app launch_options app_not_ready_env initial_globals).trace =
      [Ev.pipe Pipe.app_ready true, Ev.pipe Pipe.start_app true, Ev.fork 100,
        Ev.pipe Pipe.operf_record_ready true, Ev.fork 101,
        Ev.read Pipe.app_ready (ReadResult.data 0)] ∧
    ¬ (∃ ok, Ev.write Pipe.start_app 0 ok ∈
      (start_profiling_app launch_options app_not_ready_env initial_globals).trace) := by
  decide

/-- C3 (amended): in launch mode, in the coordinator, if the AppLauncher's handshake delivered 1
and the Recorder's handshake delivers a value other than 1, the only `write` on
`start_app_pipe` is the negative acknowledgment 0 and `start_profiling_app` returns -1; if the
AppLauncher's handshake delivers a value other than 1, `start_profiling_app` returns -1
without any `write` on `start_app_pipe`. -/
theorem nack_only_when_recorder_not_ready (o : Options) (e : SpaEnv) (g0 : Globals)
    (hpid : g0.app_PID ≠ o.pid) (hsw : o.system_wide = false)
    (hp1 : e.pipe_app_ready_ok = true) (hp2 : e.pipe_start_app_ok = true)
    (hp3 : e.pipe_record_ready_ok = true) (hfa : 0 < e.fork_app) (hfr : 0 < e.fork_record) :
    (∀ v, e.app_ready_read = ReadResult.data 1 → e.rec_ready_read = ReadResult.data v → v ≠ 1 →
      (start_profiling_app o e g0).out = Outcome.returned (-1) ∧
      (start_profiling_app o e g0).trace.filter Ev.isStartWrite =
        [Ev.write Pipe.start_app 0 e.start_write_ok]) ∧
    (∀ v, e.app_ready_read = ReadResult.data v → v ≠ 1 →
      (start_profiling_app o e g0).out = Outcome.returned (-1) ∧
      (start_profiling_app o e g0).trace.filter Ev.isStartWrite = []) := by
  rw [start_profiling_app_launch_parent o e g0 hpid hsw hp1 hp2 hp3 hfa,
    fork_record_parent o e _ hfr]
  constructor
  · intro v hA hR hv
    simp [Run.after, coordinator_branch, hA, hR, hv, ReadResult.failed, ReadResult.store,
      List.filter, Ev.isStartWrite]
  · intro v hA hv
    simp [Run.after, coordinator_branch, hA, hv, ReadResult.failed, ReadResult.store,
      List.filter, Ev.isStartWrite]

/-- C3 (witness): the launch in which the Recorder's handshake delivers 0. -/
theorem nack_only_when_recorder_not_ready_witness :
    (start_profiling_app launch_options record_not_ready_env initial_globals).out =
        Outcome.returned (-1) ∧
    (start_profiling_app launch_options record_not_ready_env initial_globals).trace.filter
        Ev.isStartWrite = [Ev.write Pipe.start_app 0 true] :=
  (nack_only_when_recorder_not_ready launch_options record_not_ready_env initial_globals
    (by decide) rfl rfl rfl rfl (by decide) (by decide)).1 0 rfl rfl (by decide)


/-- C4: launch mode, the construction of `operf_record` fails (the constructor throws or
`get_valid()` is false).  The Recorder child then makes one write on
`operf_record_ready_pipe`, of the value 0, never calls `recordPerfData` and exits.  In the
coordinator, whose read on `app_ready_pipe` delivered 1 and whose read on
`operf_record_ready_pipe` delivers what the Recorder wrote, the only write on `start_app_pipe`
is of the value 0, `start_profiling_app` returns -1 and `_run` returns `PERF_RECORD_ERROR`
right after it: the only calls of `fork` are those of the AppLauncher and of the Recorder,
`convert_sample_data` is not entered and the samples directory is unchanged. -/
theorem record_init_failure_aborts_launch (fuel : Nat) (o : Options) (eR : SpaEnv) (e : RunEnv)
    (g0 : Globals) (fs : SamplesDir)
    (hpid : g0.app_PID ≠ o.pid) (hsw : o.system_wide = false)
    (hR1 : eR.pipe_app_ready_ok = true) (hR2 : eR.pipe_start_app_ok = true)
    (hR3 : eR.pipe_record_ready_ok = true) (hRa : 0 < eR.fork_app) (hRr : eR.fork_record = 0)
    (hinit : eR.rec_init = RecInit.throws ∨ eR.rec_init = RecInit.invalid)
    (hRw : eR.rec_ready_write_ok = true)
    (hp0 : e.pipe_sample_data_ok = true)
    (hp1 : e.spa.pipe_app_ready_ok = true) (hp2 : e.spa.pipe_start_app_ok = true)
    (hp3 : e.spa.pipe_record_ready_ok = true) (hfa : 0 < e.spa.fork_app)
    (hfr : 0 < e.spa.fork_record)
    (hA : e.spa.app_ready_read = ReadResult.data 1)
    (hlink : (first_written Pipe.operf_record_ready (start_profiling_app o eR g0).trace).map
      ReadResult.data = some e.spa.rec_ready_read) :
    ((start_profiling_app o eR g0).trace =
        [Ev.pipe Pipe.app_ready true, Ev.pipe Pipe.start_app true, Ev.fork eR.fork_app,
          Ev.pipe Pipe.operf_record_ready true, Ev.fork 0, Ev.close Pipe.sample_data 0,
          Ev.operf_record_ctor, Ev.write Pipe.operf_record_ready 0 true] ∧
      (start_profiling_app o eR g0).out = Outcome.exited EXIT_SUCCESS) ∧
    (start_profiling_app o e.spa g0).out = Outcome.returned (-1) ∧
    ∃ r, _run fuel o e g0 fs = some r ∧
      r.out = Outcome.returned PERF_RECORD_ERROR ∧ PERF_RECORD_ERROR = 2 ∧
      r.trace.filter Ev.isStartWrite = [Ev.write Pipe.start_app 0 e.spa.start_write_ok] ∧
      r.trace.filter Ev.isFork = [Ev.fork e.spa.fork_app, Ev.fork e.spa.fork_record] ∧
      Ev.convert_sample_data ∉ r.trace ∧
      r.fs = fs := by
  have hRt : (start_profiling_app o eR g0).trace =
        [Ev.pipe Pipe.app_ready true, Ev.pipe Pipe.start_app true, Ev.fork eR.fork_app,
          Ev.pipe Pipe.operf_record_ready true, Ev.fork 0, Ev.close Pipe.sample_data 0,
          Ev.operf_record_ctor, Ev.write Pipe.operf_record_ready 0 true] ∧
      (start_profiling_app o eR g0).out = Outcome.exited EXIT_SUCCESS := by
    rw [start_profiling_app_launch_parent o eR g0 hpid hsw hR1 hR2 hR3 hRa,
      fork_record_child o eR _ hRr]
    rcases hinit with h | h <;> simp [Run.after, record_child, fail_out, h, hRw]
  have hR : e.spa.rec_ready_read = ReadResult.data 0 := by
    rw [hRt.1] at hlink
    simpa [first_written] using hlink.symm
  have hspa : start_profiling_app o e.spa g0 =
      ⟨[Ev.pipe Pipe.app_ready true, Ev.pipe Pipe.start_app true, Ev.fork e.spa.fork_app,
          Ev.pipe Pipe.operf_record_ready true, Ev.fork e.spa.fork_record,
          Ev.read Pipe.app_ready (ReadResult.data 1),
          Ev.read Pipe.operf_record_ready (ReadResult.data 0),
          Ev.write Pipe.start_app 0 e.spa.start_write_ok], Outcome.returned (-1),
        { g0 with startApp := true, app_PID := e.spa.fork_app,
                  operf_pid := e.spa.fork_record }⟩ := by
    rw [start_profiling_app_launch_parent o e.spa g0 hpid hsw hp1 hp2 hp3 hfa,
      fork_record_parent o e.spa _ hfr]
    simp [Run.after, coordinator_branch, hA, hR, ReadResult.failed, ReadResult.store]
  have hrun : _run fuel o e g0 fs = some
      ⟨Ev.pipe Pipe.sample_data true :: (start_profiling_app o e.spa g0).trace,
        Outcome.returned PERF_RECORD_ERROR, (start_profiling_app o e.spa g0).g, fs⟩ := by
    simp [_run, hp0, hspa]
  refine ⟨hRt, by rw [hspa], _, hrun, ?_⟩
  rw [hspa]
  simp [List.filter, Ev.isStartWrite, Ev.isFork, PERF_RECORD_ERROR]

/-- C4 (witness): the launch in which `get_valid()` is false in the Recorder child and the
coordinator reads the 0 that the child wrote. -/
theorem record_init_failure_aborts_launch_witness :
    (first_written Pipe.operf_record_ready
        (start_profiling_app launch_options record_invalid_env initial_globals).trace).map
      ReadResult.data = some record_not_ready_run.spa.rec_ready_read ∧
    (start_profiling_app launch_options record_not_ready_run.spa initial_globals).out =
      Outcome.returned (-1) ∧
    ∃ r, _run 0 launch_options record_not_ready_run initial_globals one_file_fs = some r ∧
      r.out = Outcome.returned PERF_RECORD_ERROR ∧ PERF_RECORD_ERROR = 2 ∧
      r.trace.filter Ev.isStartWrite =
        [Ev.write Pipe.start_app 0 record_not_ready_run.spa.start_write_ok] ∧
      r.trace.filter Ev.isFork =
        [Ev.fork record_not_ready_run.spa.fork_app, Ev.fork record_not_ready_run.spa.fork_record] ∧
      Ev.convert_sample_data ∉ r.trace ∧
      r.fs = one_file_fs :=
  ⟨by decide,
    (record_init_failure_aborts_launch 0 launch_options record_invalid_env record_not_ready_run
      initial_globals one_file_fs (by decide) rfl rfl rfl rfl (by decide) rfl
      (Or.inr rfl) rfl rfl rfl rfl rfl (by decide) (by decide) rfl (by decide)).2⟩

/-! ### `_kill_operf_pid`: result codes -/

theorem stop_record_spec (e : KillEnv) (g : Globals) :
    (((stop_record e g).2 = ALL_OK ∧ (stop_record e g).1.filter Ev.isRecordError = []) ∨
      ((stop_record e g).2 = PERF_RECORD_ERROR ∧
        (stop_record e g).1.filter Ev.isRecordError = [Ev.record_error_message])) ∧
    (stop_record e g).1.filter Ev.isReadError = [] := by
  unfold stop_record
  dsimp only
  by_cases h1 : e.kill_record_ok = true <;> by_cases h2 : e.wait_record.failed = true <;>
    by_cases h3 : (WIFEXITED (e.wait_record.store 0) &&
      WEXITSTATUS (e.wait_record.store 0) == 0) = true <;>
    simp [h1, h2, h3, List.filter, Ev.isRecordError, Ev.isReadError]

theorem classify_convert_spec (rc : Int) (st : Nat) (kt : Bool) (r : WaitResult) :
    ((classify_convert rc st kt r).rc = rc ∧ (classify_convert rc st kt r).message = []) ∨
    ((classify_convert rc st kt r).rc = read_error rc ∧
      (classify_convert rc st kt r).message = [Ev.read_error_message] ∧
      (classify_convert rc st kt r).keep_trying = false) := by
  unfold classify_convert
  cases r with
  | error errno => by_cases h : errno = ECHILD <;> simp [h]
  | pending =>
    by_cases h1 : WIFEXITED (WaitResult.pending.store st) = true <;>
      by_cases h2 : WEXITSTATUS (WaitResult.pending.store st) = 0 <;> simp [h1, h2]
  | reaped s0 =>
    by_cases h1 : WIFEXITED ((WaitResult.reaped s0).store st) = true <;>
      by_cases h2 : WEXITSTATUS ((WaitResult.reaped s0).store st) = 0 <;> simp [h1, h2]

theorem wait_loop_spec (e : KillEnv) (g : Globals) (st : Nat) :
    ∀ (fuel : Nat) (s : LoopState) (t : List Ev) (rc : Int),
      wait_loop e g st fuel s = some (t, rc) →
      ∃ suf, t = s.trace ++ suf ∧ suf.filter Ev.isRecordError = [] ∧
        ((rc = s.rc ∧ suf.filter Ev.isReadError = []) ∨
          (rc = read_error s.rc ∧ suf.filter Ev.isReadError = [Ev.read_error_message])) := by
  intro fuel
  induction fuel with
  | zero => intro s t rc h; simp [wait_loop] at h
  | succ n ih =>
    intro s t rc h
    unfold wait_loop at h
    dsimp only at h
    by_cases hd : (e.clock s.nclock).tv_sec > st + 5
    · simp only [hd, if_true] at h
      by_cases hk : e.kill_convert_ok = true
      · simp only [hk, Bool.not_true, Bool.false_eq_true, if_false, Option.some.injEq,
          Prod.mk.injEq] at h
        obtain ⟨h1, h2⟩ := h
        subst h1 h2
        rcases classify_convert_spec s.rc s.waitpid_status false (e.wait_convert s.nwait false)
          with ⟨c1, c2⟩ | ⟨c1, c2, _⟩
        · exact ⟨_, by simp only [List.append_assoc]; rfl,
            by simp [c2, List.filter, Ev.isRecordError],
            Or.inl ⟨c1, by simp [c2, List.filter, Ev.isReadError]⟩⟩
        · exact ⟨_, by simp only [List.append_assoc]; rfl,
            by simp [c2, List.filter, Ev.isRecordError],
            Or.inr ⟨c1, by simp [c2, List.filter, Ev.isReadError]⟩⟩
      · simp only [hk, Bool.not_false, if_true, Option.some.injEq, Prod.mk.injEq] at h
        obtain ⟨h1, h2⟩ := h
        subst h1 h2
        exact ⟨_, by simp only [List.append_assoc]; rfl,
            by simp [List.filter, Ev.isRecordError],
            Or.inr ⟨rfl, by simp [List.filter, Ev.isReadError]⟩⟩
    · simp only [hd, if_false] at h
      by_cases hp : (decide ((e.clock s.nclock).tv_usec % 1000000 > s.usec_timer + 100000)
          || decide ((e.clock s.nclock).tv_usec < s.usec_timer)) = true
      · simp only [hp, if_true] at h
        rcases classify_convert_spec s.rc s.waitpid_status true (e.wait_convert s.nwait true)
          with ⟨c1, c2⟩ | ⟨c1, c2, c3⟩
        · by_cases hkt : (classify_convert s.rc s.waitpid_status true
              (e.wait_convert s.nwait true)).keep_trying = true
          · simp only [hkt, if_true] at h
            obtain ⟨suf, e1, e2, e3⟩ := ih _ t rc h
            simp only [c1, c2, List.append_nil] at e1 e3
            refine ⟨[Ev.gettimeofday (e.clock s.nclock),
              Ev.waitpid g.convert_pid true (e.wait_convert s.nwait true)] ++ suf, ?_, ?_, ?_⟩
            · simp [e1]
            · simp [List.filter_append, e2, List.filter, Ev.isRecordError]
            · rcases e3 with ⟨a, b⟩ | ⟨a, b⟩
              · exact Or.inl ⟨a, by simp [List.filter_append, b, List.filter, Ev.isReadError]⟩
              · exact Or.inr ⟨a, by simp [List.filter_append, b, List.filter, Ev.isReadError]⟩
          · simp only [hkt, if_false, Option.some.injEq, Prod.mk.injEq,
              Bool.false_eq_true] at h
            obtain ⟨h1, h2⟩ := h
            subst h1 h2
            exact ⟨_, by simp only [List.append_assoc]; rfl,
              by simp [c2, List.filter, Ev.isRecordError],
              Or.inl ⟨c1, by simp [c2, List.filter, Ev.isReadError]⟩⟩
        · simp only [c3, if_false, Option.some.injEq, Prod.mk.injEq, Bool.false_eq_true] at h
          obtain ⟨h1, h2⟩ := h
          subst h1 h2
          exact ⟨_, by simp only [List.append_assoc]; rfl,
            by simp [c2, List.filter, Ev.isRecordError],
            Or.inr ⟨c1, by simp [c2, List.filter, Ev.isReadError]⟩⟩
      · simp only [hp, if_false, Bool.false_eq_true] at h
        obtain ⟨suf, e1, e2, e3⟩ := ih _ t rc h
        refine ⟨[Ev.gettimeofday (e.clock s.nclock)] ++ suf, by simp [e1],
          by simp [List.filter_append, e2, List.filter, Ev.isRecordError], ?_⟩
        rcases e3 with ⟨a, b⟩ | ⟨a, b⟩
        · exact Or.inl ⟨a, by simp [List.filter_append, b, List.filter, Ev.isReadError]⟩
        · exact Or.inr ⟨a, by simp [List.filter_append, b, List.filter, Ev.isReadError]⟩

theorem wait_loop_terminates (e : KillEnv) (g : Globals) (st : Nat) :
    ∀ (k : Nat) (s : LoopState), (e.clock (s.nclock + k)).tv_sec > st + 5 →
      ∃ res, wait_loop e g st (k + 1) s = some res := by
  intro k
  induction k with
  | zero =>
    intro s h
    simp only [Nat.add_zero] at h
    unfold wait_loop
    dsimp only
    simp only [h, if_true]
    by_cases hk : e.kill_convert_ok = true <;> simp [hk]
  | succ n ih =>
    intro s h
    unfold wait_loop
    dsimp only
    by_cases hd : (e.clock s.nclock).tv_sec > st + 5
    · simp only [hd, if_true]
      by_cases hk : e.kill_convert_ok = true <;> simp [hk]
    · simp only [hd, if_false]
      by_cases hp : (decide ((e.clock s.nclock).tv_usec % 1000000 > s.usec_timer + 100000)
          || decide ((e.clock s.nclock).tv_usec < s.usec_timer)) = true
      · simp only [hp, if_true]
        by_cases hkt : (classify_convert s.rc s.waitpid_status true
              (e.wait_convert s.nwait true)).keep_trying = true
        · simp only [hkt, if_true]
          exact ih _ (by simpa [Nat.add_assoc, Nat.add_comm 1 n] using h)
        · simp [hkt]
      · simp only [hp, if_false, Bool.false_eq_true]
        exact ih _ (by simpa [Nat.add_assoc, Nat.add_comm 1 n] using h)

theorem classify_convert_exited_zero (rc : Int) (st : Nat) (kt : Bool) (r : WaitResult)
    (hst : (WIFEXITED st && WEXITSTATUS st == 0) = true) (hr : r.exitedZero = true) :
    (classify_convert rc st kt r).rc = rc ∧ (classify_convert rc st kt r).keep_trying = false := by
  simp only [Bool.and_eq_true, beq_iff_eq] at hst
  cases r with
  | error errno => simp [WaitResult.exitedZero] at hr
  | pending => simp [classify_convert, WaitResult.store, hst.1, hst.2]
  | reaped s0 =>
    simp only [WaitResult.exitedZero, Bool.and_eq_true, beq_iff_eq] at hr
    simp [classify_convert, WaitResult.store, hr.1, hr.2]

theorem wait_loop_exited_zero (e : KillEnv) (g : Globals) (st : Nat)
    (hk : e.kill_convert_ok = true) (hw : ∀ n b, (e.wait_convert n b).exitedZero = true) :
    ∀ (fuel : Nat) (s : LoopState) (t : List Ev) (rc : Int),
      (WIFEXITED s.waitpid_status && WEXITSTATUS s.waitpid_status == 0) = true →
      wait_loop e g st fuel s = some (t, rc) → rc = s.rc := by
  intro fuel
  induction fuel with
  | zero => intro s t rc _ h; simp [wait_loop] at h
  | succ n ih =>
    intro s t rc hs h
    unfold wait_loop at h
    dsimp only at h
    by_cases hd : (e.clock s.nclock).tv_sec > st + 5
    · simp only [hd, if_true, hk, Bool.not_true, Bool.false_eq_true, if_false,
        Option.some.injEq, Prod.mk.injEq] at h
      rw [← h.2]
      exact (classify_convert_exited_zero s.rc s.waitpid_status false _ hs (hw _ _)).1
    · simp only [hd, if_false] at h
      by_cases hp : (decide ((e.clock s.nclock).tv_usec % 1000000 > s.usec_timer + 100000)
          || decide ((e.clock s.nclock).tv_usec < s.usec_timer)) = true
      · have hc := classify_convert_exited_zero s.rc s.waitpid_status true _ hs (hw s.nwait true)
        simp only [hp, if_true, hc.2, Bool.false_eq_true, if_false, Option.some.injEq,
          Prod.mk.injEq] at h
        rw [← h.2]
        exact hc.1
      · simp only [hp, if_false, Bool.false_eq_true] at h
        exact ih { s with nclock := s.nclock + 1,
                          trace := s.trace ++ [Ev.gettimeofday (e.clock s.nclock)] } t rc hs h

theorem wait_status_zero_exited : (WIFEXITED 0 && WEXITSTATUS 0 == 0) = true := by decide

theorem kill_operf_pid_terminates (e : KillEnv) (g : Globals) (n : Nat)
    (h : (e.clock (n + 1)).tv_sec > (e.clock 0).tv_sec + 5) :
    ∃ res, _kill_operf_pid (n + 1) e g = some res := by
  unfold _kill_operf_pid
  exact wait_loop_terminates e g _ n _ (by simpa [Nat.add_comm] using h)

/-- C5: whenever `_kill_operf_pid` returns, the value is one of 0, 2, 4, 8: 0 exactly when it
reported neither a failure of the operf-record step nor one of the operf-read step, 2 exactly
when it reported only the former, 4 exactly when only the latter, 8 exactly when both; each is
reported at most once and the value is never 6.  It does return as soon as the clock has passed
the five seconds.  In a system-wide session whose wait on the Recorder is interrupted, with a
Recorder and a Converter that exit with code 0, `_run` returns 0. -/
theorem kill_operf_pid_result_codes :
    (∀ (fuel : Nat) (e : KillEnv) (g : Globals) (t : List Ev) (rc : Int),
      _kill_operf_pid fuel e g = some (t, rc) →
      (t.filter Ev.isRecordError).length ≤ 1 ∧ (t.filter Ev.isReadError).length ≤ 1 ∧
      (rc = ALL_OK ↔ t.filter Ev.isRecordError = [] ∧ t.filter Ev.isReadError = []) ∧
      (rc = PERF_RECORD_ERROR ↔ t.filter Ev.isRecordError ≠ [] ∧ t.filter Ev.isReadError = []) ∧
      (rc = PERF_READ_ERROR ↔ t.filter Ev.isRecordError = [] ∧ t.filter Ev.isReadError ≠ []) ∧
      (rc = PERF_BOTH_ERROR ↔ t.filter Ev.isRecordError ≠ [] ∧ t.filter Ev.isReadError ≠ []) ∧
      (rc = 0 ∨ rc = 2 ∨ rc = 4 ∨ rc = 8) ∧ rc ≠ 6) ∧
    (∀ (e : KillEnv) (g : Globals) (n : Nat),
      (e.clock (n + 1)).tv_sec > (e.clock 0).tv_sec + 5 →
      ∃ res, _kill_operf_pid (n + 1) e g = some res) ∧
    (∀ (o : Options) (e : RunEnv) (g0 : Globals) (fs : SamplesDir) (n : Nat),
      o.system_wide = true → e.pipe_sample_data_ok = true → 0 < e.spa.fork_record →
      0 < e.fork_convert → e.sigaction_ok = true → e.wait_primary = WaitResult.error EINTR →
      e.kill.kill_record_ok = true →
      (∃ s, e.kill.wait_record = WaitResult.reaped s ∧ WIFEXITED s = true ∧ WEXITSTATUS s = 0) →
      e.kill.kill_convert_ok = true →
      (∀ k b, (e.kill.wait_convert k b).exitedZero = true) →
      (e.kill.clock (n + 1)).tv_sec > (e.kill.clock 0).tv_sec + 5 →
      ∃ r, _run (n + 1) o e g0 fs = some r ∧ r.out = Outcome.returned 0) := by
  refine ⟨?_, ?_, ?_⟩
  · intro fuel e g t rc h
    unfold _kill_operf_pid at h
    obtain ⟨suf, e1, e2, e3⟩ := wait_loop_spec e g _ fuel _ t rc h
    dsimp only at e1 e3
    obtain ⟨hrec, hread⟩ := stop_record_spec e g
    have hR : t.filter Ev.isRecordError = (stop_record e g).1.filter Ev.isRecordError := by
      simp [e1, List.filter_append, e2, List.filter, Ev.isRecordError]
    have hC : t.filter Ev.isReadError = suf.filter Ev.isReadError := by
      simp [e1, List.filter_append, hread, List.filter, Ev.isReadError]
    rw [hR, hC]
    rcases hrec with ⟨r1, r2⟩ | ⟨r1, r2⟩ <;> rcases e3 with ⟨c1, c2⟩ | ⟨c1, c2⟩ <;>
      simp [c1, c2, r1, r2, read_error, ALL_OK, PERF_RECORD_ERROR, PERF_READ_ERROR,
        PERF_BOTH_ERROR]
  · intro e g n h
    exact kill_operf_pid_terminates e g n h
  · intro o e g0 fs n hsw hp hfr hfc hsig hwp hkr hwr hkc hwc hclock
    obtain ⟨s0, hs0, hs1, hs2⟩ := hwr
    obtain ⟨res, hres⟩ := kill_operf_pid_terminates e.kill
      { g0 with startApp := false, operf_pid := e.spa.fork_record,
                convert_pid := e.fork_convert } n hclock
    have hrc : res.2 = 0 := by
      have h := hres
      unfold _kill_operf_pid at h
      have := wait_loop_exited_zero e.kill _ _ hkc hwc (n + 1) _ res.1 res.2
        wait_status_zero_exited h
      simpa [stop_record, hkr, hs0, WaitResult.failed, WaitResult.store, hs1, hs2, ALL_OK]
        using this
    have h1 : ¬ e.spa.fork_record < 0 := by omega
    have h2 : ¬ e.spa.fork_record = 0 := by omega
    have h3 : ¬ e.fork_convert < 0 := by omega
    have h4 : ¬ e.fork_convert = 0 := by omega
    simp [_run, hp, start_profiling_app, hsw, fork_record, h1, h2, Run.after,
      coordinator_branch, h3, h4, run_wait, hsig, hwp, hres, hrc]

/-- C5 (witness): with a Recorder and a Converter that exit with code 0, `_kill_operf_pid`
returns 0 after one poll and reports nothing; and the system-wide session whose wait is
interrupted returns 0 from `_run`. -/
theorem kill_operf_pid_result_codes_witness :
    _kill_operf_pid 1 kill_env_ok running_globals =
      some ([Ev.kill 101 SIGUSR1 true, Ev.waitpid 101 false (WaitResult.reaped 0),
        Ev.gettimeofday ⟨1000, 0⟩, Ev.gettimeofday ⟨1000, 200000⟩,
        Ev.waitpid 102 true (WaitResult.reaped 0)], 0) ∧
    ((0 : Int) = ALL_OK ↔
      ([Ev.kill 101 SIGUSR1 true, Ev.waitpid 101 false (WaitResult.reaped 0),
        Ev.gettimeofday ⟨1000, 0⟩, Ev.gettimeofday ⟨1000, 200000⟩,
        Ev.waitpid 102 true (WaitResult.reaped 0)].filter Ev.isRecordError = [] ∧
      [Ev.kill 101 SIGUSR1 true, Ev.waitpid 101 false (WaitResult.reaped 0),
        Ev.gettimeofday ⟨1000, 0⟩, Ev.gettimeofday ⟨1000, 200000⟩,
        Ev.waitpid 102 true (WaitResult.reaped 0)].filter Ev.isReadError = [])) ∧
    (system_wide_run.kill.clock (29 + 1)).tv_sec > (system_wide_run.kill.clock 0).tv_sec + 5 ∧
    ∃ r, _run (29 + 1) system_wide_options system_wide_run initial_globals one_file_fs = some r ∧
      r.out = Outcome.returned 0 :=
  ⟨by decide,
    (kill_operf_pid_result_codes.1 1 kill_env_ok running_globals _ 0 (by decide)).2.2.1,
    by decide,
    kill_operf_pid_result_codes.2.2 system_wide_options system_wide_run initial_globals
      one_file_fs 29 rfl rfl (by decide) (by decide) rfl rfl rfl ⟨0, rfl, by decide, by decide⟩
      rfl (fun _ _ => rfl) (by decide)⟩

/-- C6: in the launch where the application exits with code 1 while the Recorder and the
Converter exit with code 0, the wait on the application sets `rc` to `APP_ABNORMAL_END`, and
`_run` returns 0: the assignment `rc = _kill_operf_pid()` has replaced the value. -/
theorem app_abnormal_end_overwritten :
    classify_app app_failed_run.wait_primary = APP_ABNORMAL_END ∧
    (_run 1 launch_options app_failed_run initial_globals one_file_fs).map (fun r => r.out) =
      some (Outcome.returned 0) := by
  decide

/-- C7: when the first poll reaps the Converter with status word 9 (killed by signal 9) and the
Recorder exited with code 0, `_kill_operf_pid` returns `ALL_OK`: the loop goes round once more,
the next `waitpid` fails with `ECHILD`, and no read error is recorded. -/
theorem convert_signaled_not_recorded :
    WIFSIGNALED 9 = true ∧ WIFEXITED 9 = false ∧
    _kill_operf_pid 2 convert_signaled_env running_globals =
      some ([Ev.kill 101 SIGUSR1 true, Ev.waitpid 101 false (WaitResult.reaped 0),
        Ev.gettimeofday ⟨1000, 0⟩, Ev.gettimeofday ⟨1000, 200000⟩,
        Ev.waitpid 102 true (WaitResult.reaped 9), Ev.gettimeofday ⟨1000, 400000⟩,
        Ev.waitpid 102 true (WaitResult.error ECHILD)], ALL_OK) := by
  decide

/-- C8: when every poll with `WNOHANG` returns 0, the first poll (0.2 s after the start) ends
the loop: the status word still holds 0, which `WIFEXITED` and `WEXITSTATUS` read as "exited,
code 0".  `_kill_operf_pid` returns without having sent `SIGUSR1` to `convert_pid`. -/
theorem convert_poll_pending_ends_loop :
    (∀ n, convert_running_env.wait_convert n true = WaitResult.pending) ∧
    _kill_operf_pid 1 convert_running_env running_globals =
      some ([Ev.kill 101 SIGUSR1 true, Ev.waitpid 101 false (WaitResult.reaped 0),
        Ev.gettimeofday ⟨1000, 0⟩, Ev.gettimeofday ⟨1000, 200000⟩,
        Ev.waitpid 102 true WaitResult.pending], ALL_OK) ∧
    ∀ ok, Ev.kill 102 SIGUSR1 ok ∉
      [Ev.kill 101 SIGUSR1 true, Ev.waitpid 101 false (WaitResult.reaped 0),
        Ev.gettimeofday ⟨1000, 0⟩, Ev.gettimeofday ⟨1000, 200000⟩,
        Ev.waitpid 102 true WaitResult.pending] := by
  refine ⟨fun _ => rfl, by decide, by decide⟩

/-! ### Which children `_run` waits on -/

/-- C9 (counterexample): three returns of `_run` that leave a forked child without a `waitpid`
that reaped it.  When the Recorder reports not-ready, `_run` returns 2 having forked the
AppLauncher (pid 100) and the Recorder (pid 101) and waited on neither; when the Recorder of a
system-wide session ends on its own, `_run` returns 0 without a wait on the Converter (pid
102); when the wait on the application is interrupted, the AppLauncher is not reaped. -/
theorem forked_children_left_unreaped :
    (_run 0 launch_options record_not_ready_run initial_globals one_file_fs).map
        (fun r => (r.out, forked r.trace, reaped 100 r.trace, reaped 101 r.trace)) =
      some (Outcome.returned 2, [100, 101], false, false) ∧
    (_run 0 system_wide_options system_wide_self_end_run initial_globals one_file_fs).map
        (fun r => (r.out, forked r.trace, reaped 102 r.trace)) =
      some (Outcome.returned 0, [101, 102], false) ∧
    (_run 1 launch_options app_wait_interrupted_run initial_globals one_file_fs).map
        (fun r => (r.out, forked r.trace, reaped 100 r.trace)) =
      some (Outcome.returned 0, [100, 101, 102], false) := by
  decide

theorem convert_sample_data_never_returns (o : Options) (e : ConvEnv) (fs : SamplesDir)
    (rc : Int) : (convert_sample_data o e fs).out ≠ Outcome.returned rc := by
  unfold convert_sample_data
  dsimp only
  cases (rotate_sample_data o.append e fs).2.2 with
  | some code => simp
  | none =>
    by_cases h1 : e.header_rc < 0 <;> by_cases h2 : (e.is_valid && e.convert_throws) = true <;>
      by_cases h3 : e.sigaction_ok = true <;> by_cases h4 : e.fork_jit = 0 <;>
      by_cases h5 : e.jit_exec_ok = true <;> simp [h1, h2, h3, h4, h5]

theorem run_app_never_returns (e : AppEnv) (rc : Int) : (run_app e).2 ≠ Outcome.returned rc := by
  unfold run_app
  dsimp only
  by_cases h1 : e.ready_write_ok = true <;> by_cases h2 : e.start_read.failed = true <;>
    by_cases h3 : e.start_read.store 0 = 1 <;> by_cases h4 : e.exec_ok = true <;>
    simp [h1, h2, h3, h4]

/-- In a mode that launches an application, when `start_profiling_app` returns 0 in the process
for which the second `fork` returned a child pid, the first `fork` returned a child pid too and
the calls made are the three `pipe` calls, the two `fork` calls and the handshake. -/
theorem start_profiling_app_success_launch (o : Options) (e : SpaEnv) (g0 : Globals)
    (hL : ((g0.app_PID != o.pid) && (o.system_wide == false)) = true)
    (hout : (start_profiling_app o e g0).out = Outcome.returned 0) (hfr : 0 < e.fork_record) :
    0 < e.fork_app ∧
    start_profiling_app o e g0 =
      ⟨[Ev.pipe Pipe.app_ready true, Ev.pipe Pipe.start_app true, Ev.fork e.fork_app,
          Ev.pipe Pipe.operf_record_ready true, Ev.fork e.fork_record,
          Ev.read Pipe.app_ready e.app_ready_read,
          Ev.read Pipe.operf_record_ready e.rec_ready_read,
          Ev.write Pipe.start_app 1 true], Outcome.returned 0,
        { g0 with startApp := true, app_PID := e.fork_app, operf_pid := e.fork_record,
                  app_started := true }⟩ := by
  have hsw : o.system_wide = false := by
    simp only [Bool.and_eq_true, beq_iff_eq] at hL
    exact hL.2
  have hr1 : ¬ e.fork_record < 0 := by omega
  have hr2 : ¬ e.fork_record = 0 := by omega
  unfold start_profiling_app at hout ⊢
  dsimp only at hout ⊢
  simp only [hL, if_true] at hout ⊢
  by_cases h1 : e.pipe_app_ready_ok = true
  swap
  · simp [h1] at hout
  by_cases h2 : e.pipe_start_app_ok = true
  swap
  · simp [h1, h2] at hout
  by_cases h3 : e.fork_app < 0
  · simp [h1, h2, h3] at hout
  by_cases h4 : e.fork_app = 0
  · simp [h1, h2, h4] at hout
    exact absurd hout (run_app_never_returns _ _)
  by_cases h5 : e.pipe_record_ready_ok = true
  swap
  · simp [h1, h2, h3, h4, h5] at hout
  simp only [h1, h2, h3, h4, h5, Bool.not_true, Bool.false_eq_true, if_false, beq_iff_eq,
    fork_record, hr1, hr2, Run.after, coordinator_branch] at hout ⊢
  refine ⟨by omega, ?_⟩
  by_cases c1 : e.app_ready_read.failed = true
  · simp [c1] at hout
  by_cases c2 : e.app_ready_read.store e.startup_uninit = 1
  swap
  · simp [c1, c2] at hout
  by_cases c3 : e.rec_ready_read.failed = true
  · simp [c1, c2, c3] at hout
  by_cases c4 : e.rec_ready_read.store e.recorder_ready_uninit = 1
  swap
  · simp [c1, c2, c3, c4] at hout
  by_cases c5 : e.start_write_ok = true
  swap
  · simp [c1, c2, c3, c4, c5] at hout
  simp [c1, c2, c3, c4, c5, hsw]

/-- In a mode that does not launch an application, in the process for which the `fork` returned
a child pid, `start_profiling_app` makes that one call and returns 0. -/
theorem start_profiling_app_success_attach (o : Options) (e : SpaEnv) (g0 : Globals)
    (hL : ((g0.app_PID != o.pid) && (o.system_wide == false)) = false)
    (hfr : 0 < e.fork_record) :
    start_profiling_app o e g0 =
      ⟨[Ev.fork e.fork_record], Outcome.returned 0,
        { g0 with startApp := false, operf_pid := e.fork_record,
                  app_started := !o.system_wide || g0.app_started }⟩ := by
  have hr1 : ¬ e.fork_record < 0 := by omega
  have hr2 : ¬ e.fork_record = 0 := by omega
  unfold start_profiling_app
  dsimp only
  simp only [hL, Bool.false_eq_true, if_false, fork_record, hr1, hr2, beq_iff_eq, Run.after,
    coordinator_branch]
  by_cases hs : o.system_wide = true <;> simp [hs]

theorem reaped_of_mem {pid : Int} {t : List Ev} {b : Bool} {st : Nat}
    (h : Ev.waitpid pid b (WaitResult.reaped st) ∈ t) : reaped pid t = true := by
  unfold reaped
  rw [List.any_eq_true]
  exact ⟨_, h, by simp⟩

theorem wait_loop_waits (e : KillEnv) (g : Globals) (st : Nat) (hk : e.kill_convert_ok = true) :
    ∀ (fuel : Nat) (s : LoopState) (t : List Ev) (rc : Int),
      wait_loop e g st fuel s = some (t, rc) →
      ∃ b, Ev.waitpid g.convert_pid b (e.wait_convert s.nwait b) ∈ t := by
  intro fuel
  induction fuel with
  | zero => intro s t rc h; simp [wait_loop] at h
  | succ n ih =>
    intro s t rc h
    unfold wait_loop at h
    dsimp only at h
    by_cases hd : (e.clock s.nclock).tv_sec > st + 5
    · simp only [hd, if_true, hk, Bool.not_true, Bool.false_eq_true, if_false,
        Option.some.injEq, Prod.mk.injEq] at h
      exact ⟨false, by rw [← h.1]; simp⟩
    · simp only [hd, if_false] at h
      by_cases hp : (decide ((e.clock s.nclock).tv_usec % 1000000 > s.usec_timer + 100000)
          || decide ((e.clock s.nclock).tv_usec < s.usec_timer)) = true
      · simp only [hp, if_true] at h
        by_cases hkt : (classify_convert s.rc s.waitpid_status true
              (e.wait_convert s.nwait true)).keep_trying = true
        · simp only [hkt, if_true] at h
          obtain ⟨suf, e1, _, _⟩ := wait_loop_spec e g st n _ t rc h
          exact ⟨true, by rw [e1]; simp⟩
        · simp only [hkt, if_false, Option.some.injEq, Prod.mk.injEq,
            Bool.false_eq_true] at h
          exact ⟨true, by rw [← h.1]; simp⟩
      · simp only [hp, if_false, Bool.false_eq_true] at h
        exact ih { s with nclock := s.nclock + 1,
                          trace := s.trace ++ [Ev.gettimeofday (e.clock s.nclock)] } t rc h

/-- When both `SIGUSR1` are delivered, the wait on the Recorder reaps it and the first wait on
the Converter reaps it, the calls of a `_kill_operf_pid` that returns contain a `waitpid`
that reaped `operf_pid` and one that reaped `convert_pid`. -/
theorem kill_operf_pid_reaps (fuel : Nat) (e : KillEnv) (g : Globals) (k : List Ev × Int)
    (h : _kill_operf_pid fuel e g = some k)
    (hkr : e.kill_record_ok = true) (hwr : ∃ s, e.wait_record = WaitResult.reaped s)
    (hkc : e.kill_convert_ok = true) (hwc : ∃ s, ∀ b, e.wait_convert 0 b = WaitResult.reaped s) :
    reaped g.operf_pid k.1 = true ∧ reaped g.convert_pid k.1 = true := by
  obtain ⟨s1, hs1⟩ := hwr
  obtain ⟨s2, hs2⟩ := hwc
  unfold _kill_operf_pid at h
  dsimp only at h
  obtain ⟨suf, e1, _, _⟩ := wait_loop_spec e g _ fuel _ k.1 k.2 h
  obtain ⟨b, hb⟩ := wait_loop_waits e g _ hkc fuel _ k.1 k.2 h
  dsimp only at e1 hb
  rw [hs2 b] at hb
  refine ⟨?_, reaped_of_mem hb⟩
  have hm : Ev.waitpid g.operf_pid false (WaitResult.reaped s1) ∈ (stop_record e g).1 := by
    unfold stop_record
    dsimp only
    by_cases h3 : (WIFEXITED ((WaitResult.reaped s1).store 0) &&
      WEXITSTATUS ((WaitResult.reaped s1).store 0) == 0) = true <;>
      simp [hkr, hs1, WaitResult.failed, h3]
  have hm2 : Ev.waitpid g.operf_pid false (WaitResult.reaped s1) ∈ k.1 := by
    rw [e1]
    simp [hm]
  exact reaped_of_mem hm2

/-! ### No `waitpid` inside `start_profiling_app` -/

theorem Run.after_filter (p : Ev → Bool) (t : List Ev) (r : Run) :
    (r.after t).trace.filter p = t.filter p ++ r.trace.filter p := by
  simp [Run.after]

theorem run_app_no_waitpid (e : AppEnv) : (run_app e).1.filter Ev.isWaitpid = [] := by
  unfold run_app
  dsimp only
  by_cases h1 : e.ready_write_ok = true <;> by_cases h2 : e.start_read.failed = true <;>
    by_cases h3 : e.start_read.store 0 = 1 <;> by_cases h4 : e.exec_ok = true <;>
    simp [h1, h2, h3, h4, List.filter, Ev.isWaitpid]

theorem fail_out_no_waitpid (o : Options) (e : SpaEnv) (g : Globals) (ready : Int) :
    (fail_out o e g ready).trace.filter Ev.isWaitpid = [] := by
  unfold fail_out
  by_cases h : (g.startApp && ready == 0) = true <;> simp [h, List.filter, Ev.isWaitpid]

theorem record_child_no_waitpid (o : Options) (e : SpaEnv) (g : Globals) :
    (record_child o e g).trace.filter Ev.isWaitpid = [] := by
  unfold record_child
  cases e.rec_init
  · simp [Run.after_filter, fail_out_no_waitpid, List.filter, Ev.isWaitpid]
  · simp [Run.after_filter, fail_out_no_waitpid, List.filter, Ev.isWaitpid]
  · dsimp only
    by_cases h1 : g.startApp = true <;> by_cases h2 : e.rec_ready_write_ok = true <;>
      by_cases h3 : e.rec_run_throws = true <;>
      simp [h1, h2, h3, Run.after_filter, fail_out_no_waitpid, List.filter, Ev.isWaitpid]

theorem coordinator_branch_no_waitpid (o : Options) (e : SpaEnv) (g : Globals) :
    (coordinator_branch o e g).trace.filter Ev.isWaitpid = [] := by
  unfold coordinator_branch
  dsimp only
  by_cases h1 : g.startApp = true <;> by_cases h2 : e.app_ready_read.failed = true <;>
    by_cases h3 : e.app_ready_read.store e.startup_uninit = 1 <;>
    by_cases h4 : e.rec_ready_read.failed = true <;>
    by_cases h5 : e.rec_ready_read.store e.recorder_ready_uninit = 1 <;>
    by_cases h6 : e.start_write_ok = true <;>
    simp [h1, h2, h3, h4, h5, h6, List.filter, Ev.isWaitpid]

theorem fork_record_no_waitpid (o : Options) (e : SpaEnv) (g : Globals) :
    (fork_record o e g).trace.filter Ev.isWaitpid = [] := by
  unfold fork_record
  dsimp only
  by_cases h1 : e.fork_record < 0
  · simp [h1, List.filter, Ev.isWaitpid]
  by_cases h2 : e.fork_record = 0
  · simp [h2, Run.after_filter, record_child_no_waitpid, List.filter, Ev.isWaitpid]
  · simp [h1, h2, Run.after_filter, coordinator_branch_no_waitpid, List.filter, Ev.isWaitpid]

theorem start_profiling_app_no_waitpid (o : Options) (e : SpaEnv) (g0 : Globals) :
    (start_profiling_app o e g0).trace.filter Ev.isWaitpid = [] := by
  unfold start_profiling_app
  dsimp only
  by_cases h0 : ((g0.app_PID != o.pid) && (o.system_wide == false)) = true
  swap
  · simp only [h0, if_false, Bool.false_eq_true]
    exact fork_record_no_waitpid o e _
  simp only [h0, if_true]
  by_cases h1 : e.pipe_app_ready_ok = true
  swap
  · simp [h1, List.filter, Ev.isWaitpid]
  by_cases h2 : e.pipe_start_app_ok = true
  swap
  · simp [h1, h2, List.filter, Ev.isWaitpid]
  by_cases h3 : e.fork_app < 0
  · simp [h1, h2, h3, List.filter, Ev.isWaitpid]
  by_cases h4 : e.fork_app = 0
  · simp [h1, h2, h4, List.filter, Ev.isWaitpid, run_app_no_waitpid]
  by_cases h5 : e.pipe_record_ready_ok = true
  swap
  · simp [h1, h2, h3, h4, h5, List.filter, Ev.isWaitpid]
  simp [h1, h2, h3, h4, h5, Run.after_filter, fork_record_no_waitpid, List.filter,
    Ev.isWaitpid]

/-! ### No `fork` inside `_kill_operf_pid` -/

theorem forked_append (a b : List Ev) : forked (a ++ b) = forked a ++ forked b := by
  simp [forked, List.filterMap_append]

theorem classify_convert_forked (rc : Int) (st : Nat) (kt : Bool) (r : WaitResult) :
    forked (classify_convert rc st kt r).message = [] := by
  rcases classify_convert_spec rc st kt r with ⟨_, h⟩ | ⟨_, h, _⟩ <;> simp [h, forked]

theorem stop_record_forked (e : KillEnv) (g : Globals) : forked (stop_record e g).1 = [] := by
  unfold stop_record
  dsimp only
  by_cases h1 : e.kill_record_ok = true <;> by_cases h2 : e.wait_record.failed = true <;>
    by_cases h3 : (WIFEXITED (e.wait_record.store 0) &&
      WEXITSTATUS (e.wait_record.store 0) == 0) = true <;>
    simp [h1, h2, h3, forked]

theorem forked_gettimeofday (tv : Timeval) : forked [Ev.gettimeofday tv] = [] := rfl

theorem forked_kill (p : Int) (sig : Nat) (ok : Bool) : forked [Ev.kill p sig ok] = [] := rfl

theorem forked_waitpid (p : Int) (b : Bool) (r : WaitResult) :
    forked [Ev.waitpid p b r] = [] := rfl

theorem forked_read_error : forked [Ev.read_error_message] = [] := rfl

theorem wait_loop_forked (e : KillEnv) (g : Globals) (st : Nat) :
    ∀ (fuel : Nat) (s : LoopState) (t : List Ev) (rc : Int),
      wait_loop e g st fuel s = some (t, rc) → forked t = forked s.trace := by
  intro fuel
  induction fuel with
  | zero => intro s t rc h; simp [wait_loop] at h
  | succ n ih =>
    intro s t rc h
    unfold wait_loop at h
    dsimp only at h
    by_cases hd : (e.clock s.nclock).tv_sec > st + 5
    · simp only [hd, if_true] at h
      by_cases hk : e.kill_convert_ok = true
      · simp only [hk, Bool.not_true, Bool.false_eq_true, if_false, Option.some.injEq,
          Prod.mk.injEq] at h
        rw [← h.1]
        simp only [forked_append, classify_convert_forked, forked_gettimeofday, forked_kill,
          forked_waitpid, List.append_nil]
      · simp only [hk, Bool.not_false, if_true, Option.some.injEq, Prod.mk.injEq] at h
        rw [← h.1]
        simp only [forked_append, forked_gettimeofday, forked_kill, forked_read_error,
          List.append_nil]
    · simp only [hd, if_false] at h
      by_cases hp : (decide ((e.clock s.nclock).tv_usec % 1000000 > s.usec_timer + 100000)
          || decide ((e.clock s.nclock).tv_usec < s.usec_timer)) = true
      · simp only [hp, if_true] at h
        by_cases hkt : (classify_convert s.rc s.waitpid_status true
              (e.wait_convert s.nwait true)).keep_trying = true
        · simp only [hkt, if_true] at h
          rw [ih _ t rc h]
          simp only [forked_append, classify_convert_forked, forked_gettimeofday,
            forked_waitpid, List.append_nil]
        · simp only [hkt, if_false, Option.some.injEq, Prod.mk.injEq,
            Bool.false_eq_true] at h
          rw [← h.1]
          simp only [forked_append, classify_convert_forked, forked_gettimeofday,
            forked_waitpid, List.append_nil]
      · simp only [hp, if_false, Bool.false_eq_true] at h
        rw [ih { s with nclock := s.nclock + 1,
                          trace := s.trace ++ [Ev.gettimeofday (e.clock s.nclock)] } t rc h]
        simp only [forked_append, forked_gettimeofday, List.append_nil]

theorem kill_operf_pid_forked (fuel : Nat) (e : KillEnv) (g : Globals) (k : List Ev × Int)
    (h : _kill_operf_pid fuel e g = some k) : forked k.1 = [] := by
  unfold _kill_operf_pid at h
  dsimp only at h
  rw [wait_loop_forked e g _ fuel _ k.1 k.2 h]
  simp only [forked_append, stop_record_forked, forked_gettimeofday, List.append_nil]

theorem reaped_append_left {pid : Int} {a : List Ev} (b : List Ev) (h : reaped pid a = true) :
    reaped pid (a ++ b) = true := by
  simp only [reaped, List.any_append, Bool.or_eq_true] at h ⊢
  exact Or.inl h

theorem reaped_append_right {pid : Int} (a : List Ev) {b : List Ev} (h : reaped pid b = true) :
    reaped pid (a ++ b) = true := by
  simp only [reaped, List.any_append, Bool.or_eq_true] at h ⊢
  exact Or.inr h

/-- The part of `_run` after a successful `start_profiling_app`, in the coordinator: when it
returns, it has forked the Converter and gone through `set_signals`. -/
theorem run_after_start (fuel : Nat) (o : Options) (e : RunEnv) (g0 : Globals) (fs : SamplesDir)
    (r : RunResult) (rc : Int) (t : List Ev) (g : Globals)
    (hrun : _run fuel o e g0 fs = some r) (hret : r.out = Outcome.returned rc)
    (hspa : start_profiling_app o e.spa g0 = ⟨t, Outcome.returned 0, g⟩)
    (hguard : (!(!g.app_started && !o.system_wide)) = true) :
    0 < e.fork_convert ∧
    run_wait fuel e { g with convert_pid := e.fork_convert } fs
      (Ev.pipe Pipe.sample_data true :: t ++ [Ev.fork e.fork_convert] ++
        [Ev.close Pipe.sample_data 0, Ev.close Pipe.sample_data 1]) = some r := by
  unfold _run at hrun
  by_cases hp0 : e.pipe_sample_data_ok = true
  swap
  · simp [hp0] at hrun
    rw [← hrun] at hret
    simp at hret
  simp only [hp0, Bool.not_true, Bool.false_eq_true, if_false, hspa] at hrun
  simp only [lt_self_iff_false, if_false, hguard, if_true] at hrun
  by_cases h1 : e.fork_convert < 0
  · simp [h1] at hrun
    rw [← hrun] at hret
    simp at hret
  by_cases h2 : e.fork_convert = 0
  · simp [h2] at hrun
    rw [← hrun] at hret
    exact absurd hret (convert_sample_data_never_returns _ _ _ _)
  refine ⟨by omega, ?_⟩
  simpa [h1, h2] using hrun

/-- C9 (amended): when `_run` returns in the coordinator after `start_profiling_app` succeeded,
on the paths that go through `_kill_operf_pid` (a launch whose wait on the application stored
a status, or a session without launch whose wait on the Recorder was interrupted), with both
`SIGUSR1` delivered, the wait on the Recorder and the first wait on the Converter each storing
a status, every child forked has been reaped by a `waitpid` before the return.  When
`start_profiling_app` returns -1, `_run` returns without any call of `waitpid`. -/
theorem forked_children_reaped (fuel : Nat) (o : Options) (e : RunEnv) (g0 : Globals)
    (fs : SamplesDir) (r : RunResult) (rc : Int)
    (hrun : _run fuel o e g0 fs = some r) (hret : r.out = Outcome.returned rc) :
    ((start_profiling_app o e.spa g0).out = Outcome.returned 0 → 0 < e.spa.fork_record →
      ((((g0.app_PID != o.pid) && (o.system_wide == false)) = true ∧
          ∃ s, e.wait_primary = WaitResult.reaped s) ∨
        (((g0.app_PID != o.pid) && (o.system_wide == false)) = false ∧
          e.wait_primary = WaitResult.error EINTR)) →
      e.kill.kill_record_ok = true → (∃ s, e.kill.wait_record = WaitResult.reaped s) →
      e.kill.kill_convert_ok = true →
      (∃ s, ∀ b, e.kill.wait_convert 0 b = WaitResult.reaped s) →
      forked r.trace ≠ [] ∧ ∀ p ∈ forked r.trace, reaped p r.trace = true) ∧
    ((start_profiling_app o e.spa g0).out = Outcome.returned (-1) →
      r.trace.filter Ev.isWaitpid = []) := by
  constructor
  · intro hstart hfr hpath hkr hwr hkc hwc
    rcases hpath with ⟨hL, s, hwp⟩ | ⟨hL, hwp⟩
    · obtain ⟨hfa, hspa⟩ := start_profiling_app_success_launch o e.spa g0 hL hstart hfr
      obtain ⟨hfc, hw⟩ := run_after_start fuel o e g0 fs r rc _ _ hrun hret hspa (by simp)
      unfold run_wait at hw
      dsimp only at hw
      by_cases hsig : e.sigaction_ok = true
      swap
      · simp [hsig] at hw
        rw [← hw] at hret
        simp at hret
      simp only [hsig, Bool.not_true, Bool.false_eq_true, if_false, if_true] at hw
      cases hk : _kill_operf_pid fuel e.kill
          { app_PID := e.spa.fork_app, operf_pid := e.spa.fork_record,
            convert_pid := e.fork_convert, app_started := true, startApp := true } with
      | none => simp [hk] at hw
      | some k =>
        simp only [hk, Option.some.injEq] at hw
        obtain ⟨hr1, hr2⟩ := kill_operf_pid_reaps fuel e.kill _ k hk hkr hwr hkc hwc
        have hf := kill_operf_pid_forked fuel e.kill _ k hk
        rw [← hw]
        dsimp only at hr1 hr2 ⊢
        have hforked : forked (Ev.pipe Pipe.sample_data true ::
            [Ev.pipe Pipe.app_ready true, Ev.pipe Pipe.start_app true, Ev.fork e.spa.fork_app,
              Ev.pipe Pipe.operf_record_ready true, Ev.fork e.spa.fork_record,
              Ev.read Pipe.app_ready e.spa.app_ready_read,
              Ev.read Pipe.operf_record_ready e.spa.rec_ready_read,
              Ev.write Pipe.start_app 1 true] ++ [Ev.fork e.fork_convert] ++
              [Ev.close Pipe.sample_data 0, Ev.close Pipe.sample_data 1] ++
              [Ev.set_signals true] ++
              [Ev.waitpid e.spa.fork_app false e.wait_primary] ++ k.1) =
            [e.spa.fork_app, e.spa.fork_record, e.fork_convert] := by
          rw [forked_append, hf]
          simp [forked, hfa, hfr, hfc]
        rw [hforked]
        refine ⟨by simp, ?_⟩
        intro p hp
        simp only [List.mem_cons, List.mem_singleton, List.not_mem_nil, or_false] at hp
        rcases hp with hp | hp | hp
        · subst hp
          apply reaped_append_left
          apply reaped_append_right
          rw [hwp]
          simp [reaped]
        · subst hp
          exact reaped_append_right _ hr1
        · subst hp
          exact reaped_append_right _ hr2
    · have hspa := start_profiling_app_success_attach o e.spa g0 hL hfr
      have hguard : (!(!(!o.system_wide || g0.app_started) && !o.system_wide)) = true := by
        cases o.system_wide <;> simp
      obtain ⟨hfc, hw⟩ := run_after_start fuel o e g0 fs r rc _ _ hrun hret hspa hguard
      unfold run_wait at hw
      dsimp only at hw
      by_cases hsig : e.sigaction_ok = true
      swap
      · simp [hsig] at hw
        rw [← hw] at hret
        simp at hret
      simp only [hsig, Bool.not_true, Bool.false_eq_true, if_false, hwp] at hw
      simp only [beq_self_eq_true, if_true] at hw
      cases hk : _kill_operf_pid fuel e.kill
          { app_PID := g0.app_PID, operf_pid := e.spa.fork_record,
            convert_pid := e.fork_convert,
            app_started := !o.system_wide || g0.app_started,
            startApp := false } with
      | none => simp [hk] at hw
      | some k =>
        simp only [hk, Option.some.injEq] at hw
        obtain ⟨hr1, hr2⟩ := kill_operf_pid_reaps fuel e.kill _ k hk hkr hwr hkc hwc
        have hf := kill_operf_pid_forked fuel e.kill _ k hk
        rw [← hw]
        dsimp only at hr1 hr2 ⊢
        have hforked : forked (Ev.pipe Pipe.sample_data true ::
            [Ev.fork e.spa.fork_record] ++ [Ev.fork e.fork_convert] ++
              [Ev.close Pipe.sample_data 0, Ev.close Pipe.sample_data 1] ++
              [Ev.set_signals true] ++
              [Ev.waitpid e.spa.fork_record false (WaitResult.error EINTR)] ++ k.1) =
            [e.spa.fork_record, e.fork_convert] := by
          rw [forked_append, hf]
          simp [forked, hfr, hfc]
        rw [hforked]
        refine ⟨by simp, ?_⟩
        intro p hp
        simp only [List.mem_cons, List.mem_singleton, List.not_mem_nil, or_false] at hp
        rcases hp with hp | hp
        · subst hp
          exact reaped_append_right _ hr1
        · subst hp
          exact reaped_append_right _ hr2
  · intro hfail
    unfold _run at hrun
    by_cases hp0 : e.pipe_sample_data_ok = true
    swap
    · simp [hp0] at hrun
      rw [← hrun] at hret
      simp at hret
    simp only [hp0, Bool.not_true, Bool.false_eq_true, if_false, hfail] at hrun
    simp only [Left.neg_neg_iff, zero_lt_one, if_true, Option.some.injEq] at hrun
    rw [← hrun]
    simp [List.filter, Ev.isWaitpid, start_profiling_app_no_waitpid]

/-- C9 (witness): the launch in which the application, the Recorder and the Converter exit with
code 0; the three children forked (pids 100, 101, 102) are reaped. -/
theorem forked_children_reaped_witness :
    (_run 1 launch_options launch_run_ok initial_globals one_file_fs).map
        (fun r => (r.out, forked r.trace)) = some (Outcome.returned 0, [100, 101, 102]) ∧
    ∃ r, _run 1 launch_options launch_run_ok initial_globals one_file_fs = some r ∧
      forked r.trace ≠ [] ∧ ∀ p ∈ forked r.trace, reaped p r.trace = true := by
  have h0 : (_run 1 launch_options launch_run_ok initial_globals one_file_fs).map
      (fun r => (r.out, forked r.trace)) = some (Outcome.returned 0, [100, 101, 102]) := by
    decide
  refine ⟨h0, ?_⟩
  cases hr : _run 1 launch_options launch_run_ok initial_globals one_file_fs with
  | none => rw [hr] at h0; simp at h0
  | some r =>
    rw [hr] at h0
    simp only [Option.map_some', Option.some.injEq, Prod.mk.injEq] at h0
    exact ⟨r, rfl, (forked_children_reaped 1 launch_options launch_run_ok initial_globals
      one_file_fs r 0 hr h0.1).1 (by decide) (by decide) (Or.inl ⟨by decide, 0, rfl⟩) rfl
      ⟨0, rfl⟩ rfl ⟨0, fun _ => rfl⟩⟩

/-! ### Rotation of the sample data -/

mutual
theorem nftw_node_done (deny : List String → Bool) :
    ∀ (n : Node) (path : List String),
      (nftw_node deny path n).2 = false → (nftw_node deny path n).1 = none
  | Node.file d, path => by
    intro h
    unfold nftw_node at h ⊢
    by_cases hd : deny path = true <;> simp [hd] at h ⊢
  | Node.dir es, path => by
    intro h
    unfold nftw_node at h ⊢
    have ih := nftw_entries_done deny es path
    cases hw : nftw_entries deny path es with
    | mk es1 stopped =>
      rw [hw] at h ih
      cases stopped
      · have h1 : es1 = Entries.nil := ih rfl
        subst h1
        by_cases hd : deny path = true <;> simp [hd] at h ⊢
      · cases es1 <;> simp at h
theorem nftw_entries_done (deny : List String → Bool) :
    ∀ (es : Entries) (path : List String),
      (nftw_entries deny path es).2 = false → (nftw_entries deny path es).1 = Entries.nil
  | Entries.nil, path => by
    intro _
    unfold nftw_entries
    rfl
  | Entries.cons n x rest, path => by
    intro h
    unfold nftw_entries at h ⊢
    cases hw : nftw_node deny (path ++ [n]) x with
    | mk x1 stopped =>
      rw [hw] at h
      cases x1 with
      | some x2 => simp at h
      | none =>
        simp only at h ⊢
        exact nftw_entries_done deny rest path h
end

mutual
theorem nftw_node_allowed (deny : List String → Bool) (hd : ∀ p, deny p = false) :
    ∀ (n : Node) (path : List String), nftw_node deny path n = (none, false)
  | Node.file d, path => by
    unfold nftw_node
    simp [hd path]
  | Node.dir es, path => by
    unfold nftw_node
    rw [nftw_entries_allowed deny hd es path]
    simp [hd path]
theorem nftw_entries_allowed (deny : List String → Bool) (hd : ∀ p, deny p = false) :
    ∀ (es : Entries) (path : List String), nftw_entries deny path es = (Entries.nil, false)
  | Entries.nil, path => by
    unfold nftw_entries
    rfl
  | Entries.cons n x rest, path => by
    unfold nftw_entries
    rw [nftw_node_allowed deny hd x (path ++ [n])]
    exact nftw_entries_allowed deny hd rest path
end

theorem fs_nftw_passed (deny : List String → Bool) (fs : SamplesDir)
    (h : ((fs_nftw deny fs).2.1 && (fs_nftw deny fs).2.2 != ENOENT) = false) :
    (fs_nftw deny fs).1 = none := by
  unfold fs_nftw at h ⊢
  cases hp : fs.previous with
  | none => rfl
  | some n =>
    simp only [hp] at h ⊢
    cases hs : (nftw_node deny [] n).2 with
    | false => exact nftw_node_done deny n [] hs
    | true => simp [hs, EACCES, ENOENT] at h

theorem fs_nftw_allowed (deny : List String → Bool) (hd : ∀ p, deny p = false)
    (fs : SamplesDir) :
    ((fs_nftw deny fs).2.1 && (fs_nftw deny fs).2.2 != ENOENT) = false := by
  unfold fs_nftw
  cases hp : fs.previous with
  | none => simp
  | some n => simp [nftw_node_allowed deny hd]

theorem make_current_trace (e : ConvEnv) (t : List Ev) (fs : SamplesDir) :
    ∃ x, (make_current e t fs).1 = t ++ [Ev.mkdir_current x] := by
  unfold make_current
  cases fs_mkdir e.deny_mkdir fs with
  | ok fs1 => exact ⟨_, rfl⟩
  | error n => by_cases h : n = EEXIST <;> simp [h]

theorem make_current_absent (e : ConvEnv) (t : List Ev) (fs : SamplesDir)
    (hc : fs.current = none) :
    ((make_current e t fs).2.2 = none →
      (make_current e t fs).2.1 = { fs with current := some (Node.dir Entries.nil) }) ∧
    (e.deny_mkdir = false → (make_current e t fs).2.2 = none) := by
  unfold make_current fs_mkdir
  cases hd : e.deny_mkdir <;> simp [hc, EACCES, EEXIST]

/-- The rotation part when the `nftw` step passed: what happens by cases on `current`. -/
theorem rotate_sample_data_passed (e : ConvEnv) (fs : SamplesDir)
    (hw : ((fs_nftw e.deny_remove fs).2.1 && (fs_nftw e.deny_remove fs).2.2 != ENOENT) = false) :
    rotate_sample_data false e fs =
      match fs.current with
      | none =>
        make_current e [Ev.nftw_previous (!(fs_nftw e.deny_remove fs).2.1),
          Ev.rename_current (some ENOENT)] { fs with previous := none }
      | some (Node.file _) =>
        ([Ev.nftw_previous (!(fs_nftw e.deny_remove fs).2.1), Ev.rename_current (some ENOTDIR)],
          { fs with previous := none }, some EXIT_FAILURE)
      | some (Node.dir es) =>
        if e.deny_rename then
          ([Ev.nftw_previous (!(fs_nftw e.deny_remove fs).2.1),
            Ev.rename_current (some EACCES)], { fs with previous := none }, some EXIT_FAILURE)
        else
          make_current e [Ev.nftw_previous (!(fs_nftw e.deny_remove fs).2.1),
            Ev.rename_current none] { current := none, previous := some (Node.dir es) } := by
  have hn := fs_nftw_passed _ _ hw
  unfold rotate_sample_data
  simp only [Bool.not_false, if_true, hw, Bool.false_eq_true, if_false, hn]
  cases hc : fs.current with
  | none => simp [fs_rename, hc, ENOENT]
  | some n =>
    cases n with
    | file d => simp [fs_rename, hc, ENOTDIR, ENOENT]
    | dir es =>
      cases hd : e.deny_rename <;> simp [fs_rename, hc, hd, EACCES, ENOENT]

theorem rotate_sample_data_trace (append : Bool) (e : ConvEnv) (fs : SamplesDir) :
    Ev.operfRead_init ∉ (rotate_sample_data append e fs).1 := by
  have hm : ∀ t fs1, Ev.operfRead_init ∉ t → Ev.operfRead_init ∉ (make_current e t fs1).1 := by
    intro t fs1 ht
    obtain ⟨x, hx⟩ := make_current_trace e t fs1
    rw [hx]
    simp [ht]
  cases append with
  | true =>
    unfold rotate_sample_data
    simp only [Bool.not_true, Bool.false_eq_true, if_false]
    exact hm _ _ (by simp)
  | false =>
    by_cases hw : ((fs_nftw e.deny_remove fs).2.1 &&
        (fs_nftw e.deny_remove fs).2.2 != ENOENT) = true
    · unfold rotate_sample_data
      simp [hw]
    · rw [rotate_sample_data_passed e fs (by simpa using hw)]
      cases hc : fs.current with
      | none => exact hm _ _ (by simp)
      | some n =>
        cases n with
        | file d => simp
        | dir es =>
          cases hd : e.deny_rename
          · simp only [Bool.false_eq_true, if_false]
            exact hm _ _ (by simp)
          · simp

/-- C10: rotation in `convert_sample_data`, not in append mode.  Whenever control reaches
`operfRead.init` (no step has ended the process), `current` is an empty directory and
`previous` is exactly what `current` was before: its former tree when it existed, and nothing
otherwise, the old `previous` tree being removed in both cases.  Control does reach
`operfRead.init` when no `remove`, `rename` or `mkdir` is refused and `current` is not a regular
file; and `operfRead.init` is called exactly when the rotation part ends without `_exit`. -/
theorem rotation_previous_is_former_current (e : ConvEnv) (fs : SamplesDir) :
    ((rotate_sample_data false e fs).2.2 = none →
      (rotate_sample_data false e fs).2.1.current = some (Node.dir Entries.nil) ∧
      (rotate_sample_data false e fs).2.1.previous = fs.current) ∧
    ((∀ p, e.deny_remove p = false) → e.deny_rename = false → e.deny_mkdir = false →
      (∀ d, fs.current ≠ some (Node.file d)) → (rotate_sample_data false e fs).2.2 = none) ∧
    (∀ o : Options, o.append = false →
      (Ev.operfRead_init ∈ (convert_sample_data o e fs).trace ↔
        (rotate_sample_data false e fs).2.2 = none) ∧
      (Ev.operfRead_init ∈ (convert_sample_data o e fs).trace →
        (convert_sample_data o e fs).fs = (rotate_sample_data false e fs).2.1)) := by
  refine ⟨?_, ?_, ?_⟩
  · intro h
    by_cases hw : ((fs_nftw e.deny_remove fs).2.1 &&
        (fs_nftw e.deny_remove fs).2.2 != ENOENT) = true
    · unfold rotate_sample_data at h
      simp [hw] at h
    · rw [rotate_sample_data_passed e fs (by simpa using hw)] at h ⊢
      cases hc : fs.current with
      | none =>
        simp only [hc] at h ⊢
        rw [(make_current_absent e _ { current := none, previous := none } rfl).1 h]
        exact ⟨rfl, rfl⟩
      | some n =>
        cases n with
        | file d => simp [hc] at h
        | dir es =>
          simp only [hc] at h ⊢
          cases hd : e.deny_rename
          · simp only [hd, Bool.false_eq_true, if_false] at h ⊢
            rw [(make_current_absent e _ { current := none, previous := some (Node.dir es) }
              rfl).1 h]
            exact ⟨rfl, rfl⟩
          · simp [hd] at h
  · intro h1 h2 h3 h4
    rw [rotate_sample_data_passed e fs (fs_nftw_allowed _ h1 fs)]
    cases hc : fs.current with
    | none => exact (make_current_absent e _ { current := none, previous := none } rfl).2 h3
    | some n =>
      cases n with
      | file d => exact absurd hc (h4 d)
      | dir es =>
        simp only [h2, Bool.false_eq_true, if_false]
        exact (make_current_absent e _ { current := none, previous := some (Node.dir es) }
          rfl).2 h3
  · intro o ho
    have hno := rotate_sample_data_trace false e fs
    unfold convert_sample_data
    rw [ho]
    dsimp only
    cases hx : (rotate_sample_data false e fs).2.2 with
    | some code => simp [hno]
    | none =>
      simp only [true_and, iff_true, implies_true, and_true]
      split_ifs <;> simp

/-- C10 (witness): `current` holding one file and no `previous`: after the rotation `previous`
holds that one file and `current` is an empty directory. -/
theorem rotation_previous_is_former_current_witness :
    (rotate_sample_data false conv_env_ok one_file_fs).2.2 = none ∧
    (rotate_sample_data false conv_env_ok one_file_fs).2.1.current =
      some (Node.dir Entries.nil) ∧
    (rotate_sample_data false conv_env_ok one_file_fs).2.1.previous =
      some (Node.dir (Entries.cons "sample" (Node.file 7) Entries.nil)) :=
  have h := (rotation_previous_is_former_current conv_env_ok one_file_fs).2.1
    (fun _ => rfl) rfl rfl (fun d hd => by simp [one_file_fs] at hd)
  ⟨h, (rotation_previous_is_former_current conv_env_ok one_file_fs).1 h⟩

/-! ### Append mode -/

theorem make_current_previous (e : ConvEnv) (t : List Ev) (fs : SamplesDir) :
    (make_current e t fs).2.1.previous = fs.previous := by
  unfold make_current fs_mkdir
  cases hc : fs.current <;> cases hd : e.deny_mkdir <;> simp [EACCES, EEXIST]

theorem make_current_present (e : ConvEnv) (t : List Ev) (fs : SamplesDir) (n : Node)
    (hc : fs.current = some n) :
    make_current e t fs = (t ++ [Ev.mkdir_current (some EEXIST)], fs, none) := by
  unfold make_current fs_mkdir
  simp [hc]

/-- C11: in append mode `convert_sample_data` makes one call on the samples directory, the
`mkdir` of `current`, and no `nftw` and no `rename`: `previous` is what it was, an existing
`current` is what it was (the `mkdir` fails with `EEXIST`, which is tolerated, and control
reaches `operfRead.init`), and that holds for the samples directory left by the whole function
as well. -/
theorem append_mode_only_mkdir (e : ConvEnv) (fs : SamplesDir) :
    (∃ x, (rotate_sample_data true e fs).1 = [Ev.mkdir_current x]) ∧
    (rotate_sample_data true e fs).2.1.previous = fs.previous ∧
    (∀ n, fs.current = some n →
      rotate_sample_data true e fs = ([Ev.mkdir_current (some EEXIST)], fs, none)) ∧
    (∀ o : Options, o.append = true →
      (∃ x, (convert_sample_data o e fs).trace.filter Ev.isFsStep = [Ev.mkdir_current x]) ∧
      (convert_sample_data o e fs).fs = (rotate_sample_data true e fs).2.1 ∧
      (Ev.operfRead_init ∈ (convert_sample_data o e fs).trace ↔
        (rotate_sample_data true e fs).2.2 = none)) := by
  have h0 : rotate_sample_data true e fs = make_current e [] fs := by
    unfold rotate_sample_data
    simp
  refine ⟨?_, ?_, ?_, ?_⟩
  · rw [h0]
    simpa using make_current_trace e [] fs
  · rw [h0]
    exact make_current_previous e [] fs
  · intro n hn
    rw [h0, make_current_present e [] fs n hn]
    simp
  · intro o ho
    obtain ⟨x, hx⟩ : ∃ x, (rotate_sample_data true e fs).1 = [Ev.mkdir_current x] := by
      rw [h0]
      simpa using make_current_trace e [] fs
    unfold convert_sample_data
    rw [ho]
    dsimp only
    rw [hx]
    cases hq : (rotate_sample_data true e fs).2.2 with
    | some code =>
      exact ⟨⟨x, by simp [List.filter, Ev.isFsStep]⟩, rfl, by simp⟩
    | none =>
      refine ⟨⟨x, ?_⟩, ?_, ?_⟩
      · have hj : ∀ a b, (jit_wait_loop e a b).filter Ev.isFsStep = [] := by
          intro a
          induction a with
          | zero => intro b; simp [jit_wait_loop]
          | succ k ih =>
            intro b
            unfold jit_wait_loop
            split_ifs <;> simp [List.filter, Ev.isFsStep, ih]
        split_ifs <;> simp [List.filter, Ev.isFsStep, hj]
      · split_ifs <;> rfl
      · simp only [iff_true]
        split_ifs <;> simp

/-- C11 (witness): append mode on a samples directory whose `current` and `previous` each hold
one file: both are unchanged and control reaches `operfRead.init`. -/
theorem append_mode_only_mkdir_witness :
    two_dirs_fs.current =
      some (Node.dir (Entries.cons "sample" (Node.file 7) Entries.nil)) ∧
    rotate_sample_data true conv_env_ok two_dirs_fs =
      ([Ev.mkdir_current (some EEXIST)], two_dirs_fs, none) ∧
    (convert_sample_data append_options conv_env_ok two_dirs_fs).fs =
      (rotate_sample_data true conv_env_ok two_dirs_fs).2.1 :=
  ⟨rfl, (append_mode_only_mkdir conv_env_ok two_dirs_fs).2.2.1 _ rfl,
    ((append_mode_only_mkdir conv_env_ok two_dirs_fs).2.2.2 append_options rfl).2.1⟩

/-! ### The JIT hand-off -/

theorem jit_wait_loop_sleeps (e : ConvEnv) :
    ∀ (remaining keep_waiting : Nat),
      (jit_wait_loop e remaining keep_waiting).length ≤ remaining ∧
      jit_wait_loop e remaining keep_waiting =
        List.replicate (jit_wait_loop e remaining keep_waiting).length Ev.sleep := by
  intro remaining
  induction remaining with
  | zero => intro k; simp [jit_wait_loop]
  | succ n ih =>
    intro k
    unfold jit_wait_loop
    by_cases h : jit_conversion_running e (k + 1) = true
    · simp only [h, if_true, List.length_cons, List.replicate_succ]
      exact ⟨by have := (ih (k + 1)).1; omega, by rw [← (ih (k + 1)).2]⟩
    · simp [h]

theorem jit_wait_loop_two (e : ConvEnv) :
    jit_wait_loop e 2 0 =
      if jit_conversion_running e 1 then
        (if jit_conversion_running e 2 then [Ev.sleep, Ev.sleep] else [Ev.sleep])
      else [] := by
  simp only [jit_wait_loop]
  split_ifs <;> rfl

theorem jit_conversion_running_fork_failed (e : ConvEnv) (p : Nat) (h : e.fork_jit = -1) :
    jit_conversion_running e p = false := by
  simp [jit_conversion_running, h]

/-- The calls of the Converter process from `operfRead.init` on, when the header is read, the
conversion does not throw, the handler installs and `fork` did not return 0. -/
theorem convert_sample_data_parent (o : Options) (e : ConvEnv) (fs : SamplesDir)
    (hr : (rotate_sample_data o.append e fs).2.2 = none) (hh : ¬ e.header_rc < 0)
    (hc : (e.is_valid && e.convert_throws) = false) (hs : e.sigaction_ok = true)
    (hf : e.fork_jit ≠ 0) :
    (convert_sample_data o e fs).out = Outcome.exited EXIT_SUCCESS ∧
    (convert_sample_data o e fs).trace =
      (Ev.convert_sample_data :: (rotate_sample_data o.append e fs).1 ++
        [Ev.operfRead_init, Ev.readPerfHeader e.header_rc] ++
        (if e.is_valid then [Ev.convertPerfData] else []) ++
        [Ev.sigaction_chld true, Ev.fork e.fork_jit]) ++
      jit_wait_loop e 2 0 ++
      (if jit_conversion_running e 4 then [Ev.kill e.fork_jit SIGKILL e.kill_jit_ok] else []) := by
  unfold convert_sample_data
  dsimp only
  rw [hr]
  simp only [hh, if_false, hc, Bool.false_eq_true, hs, Bool.not_true, beq_iff_eq, hf]
  by_cases hv : e.is_valid = true <;> by_cases hk : jit_conversion_running e 4 = true <;>
    simp [hv, hk]

theorem make_current_steps (e : ConvEnv) (t : List Ev) (fs : SamplesDir)
    (ht : ∀ x ∈ t, Ev.isFsStep x = true) : ∀ x ∈ (make_current e t fs).1, Ev.isFsStep x = true := by
  obtain ⟨y, hy⟩ := make_current_trace e t fs
  rw [hy]
  intro x hx
  rcases List.mem_append.mp hx with h | h
  · exact ht x h
  · simp only [List.mem_singleton] at h
    subst h
    rfl

/-- The rotation part only makes calls on the samples directory. -/
theorem rotate_sample_data_steps (append : Bool) (e : ConvEnv) (fs : SamplesDir) :
    ∀ x ∈ (rotate_sample_data append e fs).1, Ev.isFsStep x = true := by
  cases append with
  | true =>
    unfold rotate_sample_data
    simp only [Bool.not_true, Bool.false_eq_true, if_false]
    exact make_current_steps e [] fs (by simp)
  | false =>
    by_cases hw : ((fs_nftw e.deny_remove fs).2.1 &&
        (fs_nftw e.deny_remove fs).2.2 != ENOENT) = true
    · unfold rotate_sample_data
      simp [hw, Ev.isFsStep]
    · rw [rotate_sample_data_passed e fs (by simpa using hw)]
      cases hc : fs.current with
      | none => exact make_current_steps e _ _ (by simp [Ev.isFsStep])
      | some n =>
        cases n with
        | file d => simp [Ev.isFsStep]
        | dir es =>
          cases hd : e.deny_rename
          · simp only [Bool.false_eq_true, if_false]
            exact make_current_steps e _ _ (by simp [Ev.isFsStep])
          · simp [Ev.isFsStep]

theorem rotate_sample_data_filter (append : Bool) (e : ConvEnv) (fs : SamplesDir)
    (q : Ev → Bool) (hq : ∀ x, Ev.isFsStep x = true → q x = false) :
    (rotate_sample_data append e fs).1.filter q = [] := by
  rw [List.filter_eq_nil_iff]
  intro x hx
  simp [hq x (rotate_sample_data_steps append e fs x hx)]

/-- Outside the path of `convert_sample_data_parent` the Converter makes no call of `sleep` and
no call of `kill`. -/
theorem convert_sample_data_quiet (o : Options) (e : ConvEnv) (fs : SamplesDir)
    (h : ¬ ((rotate_sample_data o.append e fs).2.2 = none ∧ ¬ e.header_rc < 0 ∧
      (e.is_valid && e.convert_throws) = false ∧ e.sigaction_ok = true ∧ e.fork_jit ≠ 0)) :
    (convert_sample_data o e fs).trace.filter Ev.isSleep = [] ∧
    (convert_sample_data o e fs).trace.filter Ev.isKill = [] := by
  have r1 := rotate_sample_data_filter o.append e fs Ev.isSleep
    (by intro x hx; cases x <;> simp_all [Ev.isFsStep, Ev.isSleep])
  have r2 := rotate_sample_data_filter o.append e fs Ev.isKill
    (by intro x hx; cases x <;> simp_all [Ev.isFsStep, Ev.isKill])
  unfold convert_sample_data
  dsimp only
  cases hr : (rotate_sample_data o.append e fs).2.2 with
  | some code => simp [r1, r2, List.filter, Ev.isSleep, Ev.isKill]
  | none =>
    simp only [hr, true_and] at h
    by_cases hh : e.header_rc < 0
    · simp only [hh, if_true]
      by_cases hm : (e.header_rc != e.OP_PERF_HANDLED_ERROR) = true
      · simp only [hm, if_true]
        simp [r1, r2, List.filter, Ev.isSleep, Ev.isKill]
      · simp only [hm, if_false]
        simp [r1, r2, List.filter, Ev.isSleep, Ev.isKill]
    by_cases hv : e.is_valid = true <;> by_cases ht : e.convert_throws = true <;>
      by_cases hs : e.sigaction_ok = true <;> by_cases hf : e.fork_jit = 0 <;>
      by_cases hx : e.jit_exec_ok = true <;>
      first
      | (exfalso; apply h; refine ⟨hh, ?_, hs, hf⟩; simp [hv, ht]; done)
      | simp [hh, hv, ht, hs, hf, hx, r1, r2, List.filter, Ev.isSleep, Ev.isKill]

theorem convert_sample_data_sleeps_kills (o : Options) (e : ConvEnv) (fs : SamplesDir)
    (hr : (rotate_sample_data o.append e fs).2.2 = none) (hh : ¬ e.header_rc < 0)
    (hc : (e.is_valid && e.convert_throws) = false) (hs : e.sigaction_ok = true)
    (hf : e.fork_jit ≠ 0) :
    (convert_sample_data o e fs).trace.filter Ev.isSleep = jit_wait_loop e 2 0 ∧
    (convert_sample_data o e fs).trace.filter Ev.isKill =
      (if jit_conversion_running e 4 then [Ev.kill e.fork_jit SIGKILL e.kill_jit_ok] else []) := by
  have r1 := rotate_sample_data_filter o.append e fs Ev.isSleep
    (by intro x hx; cases x <;> simp_all [Ev.isFsStep, Ev.isSleep])
  have r2 := rotate_sample_data_filter o.append e fs Ev.isKill
    (by intro x hx; cases x <;> simp_all [Ev.isFsStep, Ev.isKill])
  have w1 : (jit_wait_loop e 2 0).filter Ev.isSleep = jit_wait_loop e 2 0 := by
    rw [jit_wait_loop_two]
    split_ifs <;> rfl
  have w2 : (jit_wait_loop e 2 0).filter Ev.isKill = [] := by
    rw [jit_wait_loop_two]
    split_ifs <;> rfl
  rw [(convert_sample_data_parent o e fs hr hh hc hs hf).2]
  constructor
  · by_cases hv : e.is_valid = true <;> by_cases hk : jit_conversion_running e 4 = true <;>
      simp [List.filter_append, r1, w1, hv, hk, List.filter, Ev.isSleep]
  · by_cases hv : e.is_valid = true <;> by_cases hk : jit_conversion_running e 4 = true <;>
      simp [List.filter_append, r2, w2, hv, hk, List.filter, Ev.isKill]

/-- C16: in `convert_sample_data` at most two calls of `sleep` are made; every `kill` is a
`SIGKILL` sent to `jitconv_pid`, which is not -1, with `jit_conversion_running` set at the last
test; when the `fork` of the helper returned -1 there is no `sleep` and no `kill`; and in the
Converter process past `_do_jitdump_convert`, the calls of `sleep` are those of the loop (none
when the flag is not set at its first test, one when it is cleared during the first `sleep`,
two otherwise), followed by the `kill` exactly when the flag is still set at the last test. -/
theorem jit_handoff_bounded (o : Options) (e : ConvEnv) (fs : SamplesDir) :
    ((convert_sample_data o e fs).trace.filter Ev.isSleep).length ≤ 2 ∧
    (∀ pid sig ok, Ev.kill pid sig ok ∈ (convert_sample_data o e fs).trace →
      pid = e.fork_jit ∧ sig = SIGKILL ∧ pid ≠ -1 ∧ jit_conversion_running e 4 = true) ∧
    (e.fork_jit = -1 →
      (convert_sample_data o e fs).trace.filter Ev.isSleep = [] ∧
      (convert_sample_data o e fs).trace.filter Ev.isKill = []) ∧
    ((rotate_sample_data o.append e fs).2.2 = none → ¬ e.header_rc < 0 →
      (e.is_valid && e.convert_throws) = false → e.sigaction_ok = true → e.fork_jit ≠ 0 →
      (∃ pre, (convert_sample_data o e fs).trace = pre ++ jit_wait_loop e 2 0 ++
          (if jit_conversion_running e 4 then [Ev.kill e.fork_jit SIGKILL e.kill_jit_ok]
            else []) ∧
        pre.filter Ev.isSleep = [] ∧ pre.filter Ev.isKill = []) ∧
      jit_wait_loop e 2 0 =
        (if jit_conversion_running e 1 then
          (if jit_conversion_running e 2 then [Ev.sleep, Ev.sleep] else [Ev.sleep])
        else []) ∧
      ((∃ ok, Ev.kill e.fork_jit SIGKILL ok ∈ (convert_sample_data o e fs).trace) ↔
        jit_conversion_running e 4 = true)) := by
  have r1 := rotate_sample_data_filter o.append e fs Ev.isSleep
    (by intro x hx; cases x <;> simp_all [Ev.isFsStep, Ev.isSleep])
  have r2 := rotate_sample_data_filter o.append e fs Ev.isKill
    (by intro x hx; cases x <;> simp_all [Ev.isFsStep, Ev.isKill])
  by_cases hp : (rotate_sample_data o.append e fs).2.2 = none ∧ ¬ e.header_rc < 0 ∧
      (e.is_valid && e.convert_throws) = false ∧ e.sigaction_ok = true ∧ e.fork_jit ≠ 0
  · obtain ⟨hr, hh, hc, hs, hf⟩ := hp
    obtain ⟨s1, s2⟩ := convert_sample_data_sleeps_kills o e fs hr hh hc hs hf
    have hmem : ∀ pid sig ok, Ev.kill pid sig ok ∈ (convert_sample_data o e fs).trace →
        pid = e.fork_jit ∧ sig = SIGKILL ∧ ok = e.kill_jit_ok ∧
          jit_conversion_running e 4 = true := by
      intro pid sig ok hm
      have hm2 : Ev.kill pid sig ok ∈ (convert_sample_data o e fs).trace.filter Ev.isKill :=
        List.mem_filter.mpr ⟨hm, rfl⟩
      rw [s2] at hm2
      by_cases hk : jit_conversion_running e 4 = true
      · simp only [hk, if_true, List.mem_singleton, Ev.kill.injEq] at hm2
        exact ⟨hm2.1, hm2.2.1, hm2.2.2, hk⟩
      · simp [hk] at hm2
    refine ⟨?_, ?_, ?_, ?_⟩
    · rw [s1]
      exact (jit_wait_loop_sleeps e 2 0).1
    · intro pid sig ok hm
      obtain ⟨a, b, _, d⟩ := hmem pid sig ok hm
      refine ⟨a, b, ?_, d⟩
      intro hneg
      rw [a] at hneg
      rw [jit_conversion_running_fork_failed e 4 hneg] at d
      exact absurd d (by simp)
    · intro hneg
      rw [s1, s2, jit_wait_loop_two, jit_conversion_running_fork_failed e 1 hneg,
        jit_conversion_running_fork_failed e 4 hneg]
      simp
    · intro _ _ _ _ _
      refine ⟨⟨_, (convert_sample_data_parent o e fs hr hh hc hs hf).2, ?_, ?_⟩,
        jit_wait_loop_two e, ?_⟩
      · by_cases hv : e.is_valid = true <;> simp [r1, hv, List.filter, Ev.isSleep]
      · by_cases hv : e.is_valid = true <;> simp [r2, hv, List.filter, Ev.isKill]
      · constructor
        · rintro ⟨ok, hm⟩
          exact (hmem _ _ _ hm).2.2.2
        · intro hk
          refine ⟨e.kill_jit_ok, ?_⟩
          rw [(convert_sample_data_parent o e fs hr hh hc hs hf).2]
          simp [hk]
  · obtain ⟨q1, q2⟩ := convert_sample_data_quiet o e fs hp
    refine ⟨by simp [q1], ?_, fun _ => ⟨q1, q2⟩, ?_⟩
    · intro pid sig ok hm
      have hm2 : Ev.kill pid sig ok ∈ (convert_sample_data o e fs).trace.filter Ev.isKill :=
        List.mem_filter.mpr ⟨hm, rfl⟩
      rw [q2] at hm2
      exact absurd hm2 (List.not_mem_nil _)
    · intro a b c d f
      exact absurd ⟨a, b, c, d, f⟩ hp

/-- C16 (witness): with a helper that never completes, the Converter sleeps twice and then
sends `SIGKILL` to pid 200; with a `fork` that returned -1 it neither sleeps nor kills. -/
theorem jit_handoff_bounded_witness :
    (convert_sample_data launch_options conv_env_helper_hangs one_file_fs).trace.filter
        (fun x => Ev.isSleep x || Ev.isKill x) =
      [Ev.sleep, Ev.sleep, Ev.kill 200 SIGKILL true] ∧
    ((∃ ok, Ev.kill conv_env_helper_hangs.fork_jit SIGKILL ok ∈
        (convert_sample_data launch_options conv_env_helper_hangs one_file_fs).trace) ↔
      jit_conversion_running conv_env_helper_hangs 4 = true) ∧
    ((convert_sample_data launch_options conv_env_fork_failed one_file_fs).trace.filter
        Ev.isSleep = [] ∧
      (convert_sample_data launch_options conv_env_fork_failed one_file_fs).trace.filter
        Ev.isKill = []) :=
  ⟨by decide,
    ((jit_handoff_bounded launch_options conv_env_helper_hangs one_file_fs).2.2.2
      (by decide) (by decide) (by decide) (by decide) (by decide)).2.2,
    (jit_handoff_bounded launch_options conv_env_fork_failed one_file_fs).2.2.1 (by decide)⟩

/-! ### The exit status of the Converter -/

/-- C17: in the Converter process, once control has reached `operfRead.init`: a negative value
of `readPerfHeader` ends it with `EXIT_FAILURE` before any conversion, the generic message
being printed exactly when the value is not `OP_PERF_HANDLED_ERROR`; a `runtime_error` thrown by
`convertPerfData` ends it with `EXIT_FAILURE`; otherwise, when the `SIGCHLD` handler installs,
it ends with `EXIT_SUCCESS` for every value of `fork` other than 0 (a failed `fork` included),
every moment at which the helper completes or fails to, and every outcome of the `kill`. -/
theorem converter_exit_status (o : Options) (e : ConvEnv) (fs : SamplesDir)
    (hr : (rotate_sample_data o.append e fs).2.2 = none) :
    (e.header_rc < 0 →
      (convert_sample_data o e fs).out = Outcome.exited EXIT_FAILURE ∧
      (Ev.cerr_header_error ∈ (convert_sample_data o e fs).trace ↔
        e.header_rc ≠ e.OP_PERF_HANDLED_ERROR) ∧
      Ev.convertPerfData ∉ (convert_sample_data o e fs).trace) ∧
    (¬ e.header_rc < 0 → e.is_valid = true → e.convert_throws = true →
      (convert_sample_data o e fs).out = Outcome.exited EXIT_FAILURE) ∧
    (¬ e.header_rc < 0 → (e.is_valid && e.convert_throws) = false → e.sigaction_ok = true →
      e.fork_jit ≠ 0 → (convert_sample_data o e fs).out = Outcome.exited EXIT_SUCCESS) := by
  have n1 : Ev.cerr_header_error ∉ (rotate_sample_data o.append e fs).1 := by
    intro hm
    have := rotate_sample_data_steps o.append e fs _ hm
    simp [Ev.isFsStep] at this
  have n2 : Ev.convertPerfData ∉ (rotate_sample_data o.append e fs).1 := by
    intro hm
    have := rotate_sample_data_steps o.append e fs _ hm
    simp [Ev.isFsStep] at this
  refine ⟨?_, ?_, ?_⟩
  · intro hh
    unfold convert_sample_data
    dsimp only
    rw [hr]
    simp only [hh, if_true]
    by_cases hm : (e.header_rc != e.OP_PERF_HANDLED_ERROR) = true
    · simp only [hm, if_true]
      have hne : e.header_rc ≠ e.OP_PERF_HANDLED_ERROR := by simpa using hm
      simp [n2, hne]
    · simp only [hm, if_false]
      have heq : e.header_rc = e.OP_PERF_HANDLED_ERROR := by simpa using hm
      simp [n1, n2, heq]
  · intro hh hv ht
    unfold convert_sample_data
    dsimp only
    rw [hr]
    simp [hh, hv, ht]
  · intro hh hc hs hf
    exact (convert_sample_data_parent o e fs hr hh hc hs hf).1

/-- C17 (witness): a header status of -1 ends the Converter with `EXIT_FAILURE` and the generic
message; a helper that never completes and is killed leaves the exit status `EXIT_SUCCESS`. -/
theorem converter_exit_status_witness :
    ((convert_sample_data launch_options conv_env_bad_header one_file_fs).out =
        Outcome.exited EXIT_FAILURE ∧
      (Ev.cerr_header_error ∈
          (convert_sample_data launch_options conv_env_bad_header one_file_fs).trace ↔
        conv_env_bad_header.header_rc ≠ conv_env_bad_header.OP_PERF_HANDLED_ERROR) ∧
      Ev.convertPerfData ∉
        (convert_sample_data launch_options conv_env_bad_header one_file_fs).trace) ∧
    (convert_sample_data launch_options conv_env_helper_hangs one_file_fs).out =
      Outcome.exited EXIT_SUCCESS :=
  ⟨(converter_exit_status launch_options conv_env_bad_header one_file_fs (by decide)).1
      (by decide),
    (converter_exit_status launch_options conv_env_helper_hangs one_file_fs (by decide)).2.2
      (by decide) (by decide) (by decide) (by decide)⟩

/-! ### The Recorder child -/

/-- The calls of the Recorder child in launch mode, by cases on the construction of
`operf_record`, the `write` of the ready value and `recordPerfData`. -/
theorem record_child_launch (o : Options) (e : SpaEnv) (g : Globals) (hs : g.startApp = true) :
    (record_child o e g).trace =
      [Ev.close Pipe.sample_data 0, Ev.operf_record_ctor,
        Ev.write Pipe.operf_record_ready (if e.rec_init = RecInit.valid then 1 else 0)
          e.rec_ready_write_ok] ++
      (if e.rec_init = RecInit.valid ∧ e.rec_ready_write_ok = true then [Ev.recordPerfData]
        else []) := by
  unfold record_child
  cases hi : e.rec_init
  · simp [Run.after, fail_out, hs]
  · simp [Run.after, fail_out, hs]
  · by_cases hw : e.rec_ready_write_ok = true <;> by_cases ht : e.rec_run_throws = true <;>
      simp [Run.after, fail_out, hs, hw, ht]

/-- C18: in the Recorder child of a launch, exactly one `write` is attempted on
`operf_record_ready_pipe`; its value is 1 when the `operf_record` object was constructed
without exception with `get_valid()` true and 0 otherwise; every call of `recordPerfData` comes
after a successful `write` of 1, and no `write` of 0 is made in a run that calls it. -/
theorem record_ready_written_once (o : Options) (e : SpaEnv) (g0 : Globals)
    (hpid : g0.app_PID ≠ o.pid) (hsw : o.system_wide = false)
    (hp1 : e.pipe_app_ready_ok = true) (hp2 : e.pipe_start_app_ok = true)
    (hp3 : e.pipe_record_ready_ok = true) (hfa : 0 < e.fork_app) (hfr : e.fork_record = 0) :
    (start_profiling_app o e g0).trace.filter Ev.isRecordReadyWrite =
      [Ev.write Pipe.operf_record_ready (if e.rec_init = RecInit.valid then 1 else 0)
        e.rec_ready_write_ok] ∧
    (∀ k : Nat, (start_profiling_app o e g0).trace[k]? = some Ev.recordPerfData →
      e.rec_init = RecInit.valid ∧
      ∃ j : Nat, j < k ∧
        (start_profiling_app o e g0).trace[j]? = some (Ev.write Pipe.operf_record_ready 1 true)) ∧
    (Ev.recordPerfData ∈ (start_profiling_app o e g0).trace →
      ∀ ok, Ev.write Pipe.operf_record_ready 0 ok ∉ (start_profiling_app o e g0).trace) := by
  rw [start_profiling_app_launch_parent o e g0 hpid hsw hp1 hp2 hp3 hfa,
    fork_record_child o e _ hfr]
  have hrc := record_child_launch o e
    { g0 with startApp := true, app_PID := e.fork_app, operf_pid := 0 } rfl
  simp only [Run.after, hrc]
  by_cases hv : e.rec_init = RecInit.valid
  · by_cases hw : e.rec_ready_write_ok = true
    · simp only [hv, hw, if_true, and_self]
      refine ⟨by simp [List.filter, Ev.isRecordReadyWrite], ?_, by simp⟩
      intro k hk
      refine ⟨trivial, 7, ?_, rfl⟩
      match k, hk with
      | 0, hk => simp at hk
      | 1, hk => simp at hk
      | 2, hk => simp at hk
      | 3, hk => simp at hk
      | 4, hk => simp at hk
      | 5, hk => simp at hk
      | 6, hk => simp at hk
      | 7, hk => simp at hk
      | (n + 8), _ => omega
    · simp only [hv, hw, if_true, and_false, if_false, Bool.false_eq_true]
      refine ⟨by simp [List.filter, Ev.isRecordReadyWrite], ?_, by simp⟩
      intro k hk
      have := List.getElem?_mem hk
      simp at this
  · simp only [hv, if_false, false_and]
    refine ⟨by simp [List.filter, Ev.isRecordReadyWrite], ?_, by simp⟩
    intro k hk
    have := List.getElem?_mem hk
    simp at this

/-- C18 (witness): the Recorder child of a launch with a valid `operf_record`: one `write`, of
the value 1, and `recordPerfData` right after it. -/
theorem record_ready_written_once_witness :
    (start_profiling_app launch_options record_child_env initial_globals).trace.filter
        Ev.isRecordReadyWrite = [Ev.write Pipe.operf_record_ready 1 true] ∧
    (start_profiling_app launch_options record_child_env initial_globals).trace[8]? =
      some Ev.recordPerfData ∧
    (start_profiling_app launch_options record_invalid_env initial_globals).trace.filter
        Ev.isRecordReadyWrite = [Ev.write Pipe.operf_record_ready 0 true] :=
  ⟨(record_ready_written_once launch_options record_child_env initial_globals (by decide)
      rfl rfl rfl rfl (by decide) rfl).1,
    by decide,
    (record_ready_written_once launch_options record_invalid_env initial_globals (by decide)
      rfl rfl rfl rfl (by decide) rfl).1⟩

/-- C19: four runs of the Recorder child (the `fork` returned 0) that leave
`start_profiling_app` through `return 0`: `get_valid()` false in a system-wide session and in a
session attached to a pid, a failed `write` of the ready value in a launch, and a
`runtime_error` thrown by `recordPerfData` in a launch.  In the first one the child goes on
inside `_run` and forks a Converter of its own (pid 102). -/
theorem record_child_returns :
    (start_profiling_app system_wide_options record_child_invalid_env initial_globals).out =
      Outcome.returned 0 ∧
    (start_profiling_app system_wide_options record_child_invalid_env initial_globals).trace =
      [Ev.fork 0, Ev.close Pipe.sample_data 0, Ev.operf_record_ctor] ∧
    (start_profiling_app attach_options record_child_invalid_env attach_globals).out =
      Outcome.returned 0 ∧
    (start_profiling_app launch_options record_child_write_fails_env initial_globals).out =
      Outcome.returned 0 ∧
    (start_profiling_app launch_options record_child_throws_env initial_globals).out =
      Outcome.returned 0 ∧
    (_run 1 system_wide_options record_child_invalid_run initial_globals one_file_fs).map
        (fun r => (r.out, r.trace.filter Ev.isFork)) =
      some (Outcome.returned PERF_RECORD_ERROR, [Ev.fork 0, Ev.fork 102]) := by
  decide

/-! ### The guard on the Converter fork -/

theorem guard_holds_after {o : Options} {r : Run} (h : GuardHolds o r) (t : List Ev) :
    GuardHolds o (r.after t) := h

theorem fail_out_guard (o : Options) (e : SpaEnv) (g : Globals) (ready : Int) :
    GuardHolds o (fail_out o e g ready) := by
  unfold GuardHolds fail_out
  by_cases h : (g.startApp && ready == 0) = true <;> cases hs : o.system_wide <;>
    simp [h, hs, EXIT_SUCCESS]

theorem record_child_guard (o : Options) (e : SpaEnv) (g : Globals) :
    GuardHolds o (record_child o e g) := by
  unfold record_child
  cases e.rec_init
  · exact guard_holds_after (fail_out_guard o e g 0) _
  · exact guard_holds_after (fail_out_guard o e g 0) _
  · dsimp only
    by_cases h1 : g.startApp = true <;> by_cases h2 : e.rec_ready_write_ok = true <;>
      by_cases h3 : e.rec_run_throws = true <;> simp only [h1, h2, h3, if_true, if_false,
        Bool.and_true, Bool.and_false, Bool.true_and, Bool.false_and, Bool.not_true,
        Bool.not_false, Bool.false_eq_true]
    all_goals first
      | exact guard_holds_after (fail_out_guard o e g _) _
      | (intro h; simp at h)

theorem coordinator_branch_guard (o : Options) (e : SpaEnv) (g : Globals) :
    GuardHolds o (coordinator_branch o e g) := by
  unfold GuardHolds coordinator_branch
  dsimp only
  by_cases h1 : g.startApp = true <;> by_cases h2 : e.app_ready_read.failed = true <;>
    by_cases h3 : e.app_ready_read.store e.startup_uninit = 1 <;>
    by_cases h4 : e.rec_ready_read.failed = true <;>
    by_cases h5 : e.rec_ready_read.store e.recorder_ready_uninit = 1 <;>
    by_cases h6 : e.start_write_ok = true <;> cases hs : o.system_wide <;>
    simp [h1, h2, h3, h4, h5, h6, hs]

theorem fork_record_guard (o : Options) (e : SpaEnv) (g : Globals) :
    GuardHolds o (fork_record o e g) := by
  unfold fork_record
  dsimp only
  by_cases h1 : e.fork_record < 0
  · intro h
    simp [h1] at h
  by_cases h2 : e.fork_record = 0
  · simp only [h1, h2, if_false, if_true, beq_self_eq_true, lt_self_iff_false]
    exact guard_holds_after (record_child_guard o e _) _
  · simp only [h1, if_false, beq_iff_eq, h2]
    exact guard_holds_after (coordinator_branch_guard o e _) _

theorem start_profiling_app_guard (o : Options) (e : SpaEnv) (g0 : Globals) :
    GuardHolds o (start_profiling_app o e g0) := by
  unfold start_profiling_app
  dsimp only
  by_cases h0 : ((g0.app_PID != o.pid) && (o.system_wide == false)) = true
  swap
  · simp only [h0, if_false, Bool.false_eq_true]
    exact fork_record_guard o e _
  simp only [h0, if_true]
  by_cases h1 : e.pipe_app_ready_ok = true
  swap
  · intro h; simp [h1] at h
  by_cases h2 : e.pipe_start_app_ok = true
  swap
  · intro h; simp [h1, h2] at h
  by_cases h3 : e.fork_app < 0
  · intro h; simp [h1, h2, h3] at h
  by_cases h4 : e.fork_app = 0
  · intro h
    simp [h1, h2, h4] at h
    exact absurd h (run_app_never_returns _ _)
  by_cases h5 : e.pipe_record_ready_ok = true
  swap
  · intro h; simp [h1, h2, h3, h4, h5] at h
  simp only [h1, h2, h3, h4, h5, if_false, if_true, Bool.not_true, Bool.false_eq_true,
    beq_iff_eq]
  exact guard_holds_after (fork_record_guard o e _) _

theorem run_wait_extends (fuel : Nat) (e : RunEnv) (g : Globals) (fs : SamplesDir)
    (t : List Ev) (r : RunResult) (h : run_wait fuel e g fs t = some r) :
    t <+: r.trace := by
  unfold run_wait at h
  dsimp only at h
  by_cases hsig : e.sigaction_ok = true
  swap
  · simp [hsig] at h
    rw [← h]; simp
  simp only [hsig, Bool.not_true, Bool.false_eq_true, if_false] at h
  by_cases hs : g.startApp = true
  · simp only [hs, if_true] at h
    cases hk : _kill_operf_pid fuel e.kill g with
    | none => simp [hk] at h
    | some k =>
      simp only [hk, Option.some.injEq] at h
      rw [← h]; simp [List.append_assoc]
  · simp only [hs, if_false, Bool.false_eq_true] at h
    cases hw : e.wait_primary with
    | error errno =>
      simp only [hw] at h
      by_cases he : errno = EINTR
      · simp only [he, beq_self_eq_true, if_true] at h
        cases hk : _kill_operf_pid fuel e.kill g with
        | none => simp [hk] at h
        | some k =>
          simp only [hk, Option.some.injEq] at h
          rw [← h]; simp [List.append_assoc]
      · simp [he] at h
        rw [← h]; simp [List.append_assoc]
    | pending =>
      simp only [hw, Option.some.injEq] at h
      rw [← h]; simp [List.append_assoc]
    | reaped s =>
      simp only [hw, Option.some.injEq] at h
      rw [← h]; simp [List.append_assoc]

/-- C20: whenever `start_profiling_app` returns 0, `app_started || system_wide` holds, so the
guard `!(!app_started && !system_wide)` of `_run` is true and `convert_pid = fork()` is
executed; in the coordinator (the `fork` returns a child pid) `_run` then closes both ends of
`sample_data_pipe` and goes on to `set_signals` with these calls made, and they are part of the
calls of every `_run` that returns. -/
theorem converter_guard_always_true (o : Options) (e : RunEnv) (g0 : Globals) :
    ((start_profiling_app o e.spa g0).out = Outcome.returned 0 →
      ((start_profiling_app o e.spa g0).g.app_started || o.system_wide) = true ∧
      (!(!(start_profiling_app o e.spa g0).g.app_started && !o.system_wide)) = true) ∧
    (∀ (fuel : Nat) (fs : SamplesDir), e.pipe_sample_data_ok = true →
      (start_profiling_app o e.spa g0).out = Outcome.returned 0 → 0 < e.fork_convert →
      _run fuel o e g0 fs =
        run_wait fuel e { (start_profiling_app o e.spa g0).g with convert_pid := e.fork_convert }
          fs (Ev.pipe Pipe.sample_data true :: (start_profiling_app o e.spa g0).trace ++
            [Ev.fork e.fork_convert] ++
            [Ev.close Pipe.sample_data 0, Ev.close Pipe.sample_data 1])) ∧
    (∀ (fuel : Nat) (fs : SamplesDir) (r : RunResult), e.pipe_sample_data_ok = true →
      (start_profiling_app o e.spa g0).out = Outcome.returned 0 → 0 < e.fork_convert →
      _run fuel o e g0 fs = some r →
      Ev.fork e.fork_convert ∈ r.trace ∧ Ev.close Pipe.sample_data 0 ∈ r.trace ∧
        Ev.close Pipe.sample_data 1 ∈ r.trace) := by
  have hguard : (start_profiling_app o e.spa g0).out = Outcome.returned 0 →
      ((start_profiling_app o e.spa g0).g.app_started || o.system_wide) = true :=
    start_profiling_app_guard o e.spa g0
  have hrun : ∀ (fuel : Nat) (fs : SamplesDir), e.pipe_sample_data_ok = true →
      (start_profiling_app o e.spa g0).out = Outcome.returned 0 → 0 < e.fork_convert →
      _run fuel o e g0 fs =
        run_wait fuel e { (start_profiling_app o e.spa g0).g with convert_pid := e.fork_convert }
          fs (Ev.pipe Pipe.sample_data true :: (start_profiling_app o e.spa g0).trace ++
            [Ev.fork e.fork_convert] ++
            [Ev.close Pipe.sample_data 0, Ev.close Pipe.sample_data 1]) := by
    intro fuel fs hp hout hfc
    have hg := hguard hout
    have h1 : ¬ e.fork_convert < 0 := by omega
    have h2 : ¬ e.fork_convert = 0 := by omega
    have hg2 : (!(!(start_profiling_app o e.spa g0).g.app_started && !o.system_wide)) = true := by
      cases ha : (start_profiling_app o e.spa g0).g.app_started <;> cases hs : o.system_wide <;>
        simp_all
    unfold _run
    simp only [hp, Bool.not_true, Bool.false_eq_true, if_false, hout, lt_self_iff_false, hg2,
      if_true, h1, beq_iff_eq, h2]
  refine ⟨?_, hrun, ?_⟩
  · intro hout
    have hg := hguard hout
    refine ⟨hg, ?_⟩
    cases ha : (start_profiling_app o e.spa g0).g.app_started <;> cases hs : o.system_wide <;>
      simp_all
  · intro fuel fs r hp hout hfc hr
    rw [hrun fuel fs hp hout hfc] at hr
    obtain ⟨suf, hsuf⟩ := run_wait_extends fuel e _ fs _ r hr
    rw [← hsuf]
    simp

/-- C20 (witness): a session attached to the pid 4242: `start_profiling_app` returns 0 with
`app_started` set, and `_run` forks the Converter and closes both ends of the pipe. -/
theorem converter_guard_always_true_witness :
    (start_profiling_app attach_options system_wide_self_end_run.spa attach_globals).out =
      Outcome.returned 0 ∧
    ((start_profiling_app attach_options system_wide_self_end_run.spa
        attach_globals).g.app_started || attach_options.system_wide) = true ∧
    ∃ r, _run 0 attach_options system_wide_self_end_run attach_globals one_file_fs = some r ∧
      Ev.fork system_wide_self_end_run.fork_convert ∈ r.trace ∧
      Ev.close Pipe.sample_data 0 ∈ r.trace ∧ Ev.close Pipe.sample_data 1 ∈ r.trace := by
  have h0 : (start_profiling_app attach_options system_wide_self_end_run.spa
      attach_globals).out = Outcome.returned 0 := by decide
  refine ⟨h0, ((converter_guard_always_true attach_options system_wide_self_end_run
    attach_globals).1 h0).1, ?_⟩
  have hs : (_run 0 attach_options system_wide_self_end_run attach_globals
      one_file_fs).isSome = true := by decide
  cases hr : _run 0 attach_options system_wide_self_end_run attach_globals one_file_fs with
  | none => rw [hr] at hs; simp at hs
  | some r =>
    exact ⟨r, rfl, (converter_guard_always_true attach_options system_wide_self_end_run
      attach_globals).2.2 0 one_file_fs r rfl h0 (by decide) hr⟩

/-! ### Selection of the target mode -/

/-- C12: `process_args` returns only when exactly one of a command, a non-zero `--pid` and
`--system-wide` is present; when none or at least two are present it ends the process with
`EXIT_FAILURE` (the usage error), and `main` then ends without having made any call: `_run` is
not entered, no pipe and no child exists.  When it returns, `app_PID` is the pid when `--pid`
is present, -1 when `--system-wide` is, and unchanged for a command; with only `--pid` or only
`--system-wide` the selection itself does not fail. -/
theorem target_mode_selection (o : Options) (a : ArgsEnv) (p0 : Int) :
    (∀ p, process_args o a p0 = Except.ok p →
      modes_present o a = 1 ∧ (o.pid ≠ 0 → p = o.pid) ∧ (o.system_wide = true → p = -1) ∧
      (a.non_options.isEmpty = false → p = p0)) ∧
    (modes_present o a ≠ 1 → process_args o a p0 = Except.error EXIT_FAILURE) ∧
    (modes_present o a = 1 → a.non_options.isEmpty = true → a.setup_ok = true →
      process_args o a p0 = Except.ok (if o.system_wide then -1 else o.pid)) ∧
    (∀ (fuel : Nat) (e : MainEnv) (fs : SamplesDir), e.args = a → e.perf_cap_rc = 0 →
      modes_present o a ≠ 1 →
      main fuel o e fs = some ⟨[], Outcome.exited EXIT_FAILURE, initial_globals, fs⟩) := by
  have hbad : modes_present o a ≠ 1 → process_args o a (-1) = Except.error EXIT_FAILURE ∧
      process_args o a p0 = Except.error EXIT_FAILURE := by
    intro h
    unfold modes_present at h
    unfold process_args
    cases hn : a.non_options.isEmpty <;> by_cases hp : o.pid = 0 <;>
      cases hs : o.system_wide <;> simp [hn, hp, hs] at h ⊢
  refine ⟨?_, fun h => (hbad h).2, ?_, ?_⟩
  · intro p hp
    unfold process_args at hp
    unfold modes_present
    cases hn : a.non_options.isEmpty <;> by_cases hpid : o.pid = 0 <;>
      cases hs : o.system_wide <;> cases hv : a.validate_ok <;> cases hu : a.setup_ok <;>
      simp [hn, hpid, hs, hv, hu] at hp ⊢ <;> exact hp.symm
  · intro h hn hu
    unfold modes_present at h
    unfold process_args
    by_cases hp : o.pid = 0 <;> cases hs : o.system_wide <;> simp [hn, hp, hs, hu] at h ⊢
  · intro fuel e fs he hc h
    subst he
    unfold main
    simp [hc, (hbad h).1, initial_globals]

/-- C12 (witness): a command line with a command and `--pid 4242` ends in the usage error
before `main` makes any call; a command line with only `--pid 4242` selects the pid. -/
theorem target_mode_selection_witness :
    modes_present attach_options args_command_and_pid ≠ 1 ∧
    main 0 attach_options (main_env args_command_and_pid) one_file_fs =
      some ⟨[], Outcome.exited EXIT_FAILURE, initial_globals, one_file_fs⟩ ∧
    process_args attach_options args_no_command (-1) = Except.ok 4242 :=
  ⟨by decide,
    (target_mode_selection attach_options args_command_and_pid (-1)).2.2.2 0
      (main_env args_command_and_pid) one_file_fs rfl rfl (by decide),
    (target_mode_selection attach_options args_no_command (-1)).2.2.1 (by decide) rfl rfl⟩

/-! ### Calls on descriptors -/

theorem fd_table_filter (t : List Ev) (p : Pipe) (side : Nat) :
    fd_table t p side = fd_table (t.filter Ev.isFdCall) p side := by
  unfold fd_table
  generalize false = b
  induction t generalizing b with
  | nil => rfl
  | cons x xs ih => cases x <;> simp [List.filter, Ev.isFdCall, fd_step, ih]

theorem filter_handshake_close (l : List Ev) (h : l.filter Ev.isFdCall = []) :
    l.filter Ev.isHandshakeClose = [] := by
  rw [List.filter_eq_nil_iff] at h ⊢
  intro x hx
  have := h x hx
  cases x <;> simp_all [Ev.isFdCall, Ev.isHandshakeClose]

theorem run_app_fd_calls (e : AppEnv) : (run_app e).1.filter Ev.isFdCall = [] := by
  unfold run_app
  dsimp only
  by_cases h1 : e.ready_write_ok = true <;> by_cases h2 : e.start_read.failed = true <;>
    by_cases h3 : e.start_read.store 0 = 1 <;> by_cases h4 : e.exec_ok = true <;>
    simp [h1, h2, h3, h4, List.filter, Ev.isFdCall]

theorem fail_out_fd_calls (o : Options) (e : SpaEnv) (g : Globals) (ready : Int) :
    (fail_out o e g ready).trace.filter Ev.isFdCall = [] := by
  unfold fail_out
  by_cases h : (g.startApp && ready == 0) = true <;> simp [h, List.filter, Ev.isFdCall]

/-- The Recorder child closes `sample_data_pipe[0]` and makes no other call on a descriptor
table. -/
theorem record_child_fd_calls (o : Options) (e : SpaEnv) (g : Globals) :
    (record_child o e g).trace.filter Ev.isFdCall = [Ev.close Pipe.sample_data 0] := by
  unfold record_child
  cases e.rec_init
  · simp [Run.after_filter, fail_out_fd_calls, List.filter, Ev.isFdCall]
  · simp [Run.after_filter, fail_out_fd_calls, List.filter, Ev.isFdCall]
  · dsimp only
    by_cases h1 : g.startApp = true <;> by_cases h2 : e.rec_ready_write_ok = true <;>
      by_cases h3 : e.rec_run_throws = true <;>
      simp [h1, h2, h3, Run.after_filter, fail_out_fd_calls, List.filter, Ev.isFdCall]

theorem coordinator_branch_fd_calls (o : Options) (e : SpaEnv) (g : Globals) :
    (coordinator_branch o e g).trace.filter Ev.isFdCall = [] := by
  unfold coordinator_branch
  dsimp only
  by_cases h1 : g.startApp = true <;> by_cases h2 : e.app_ready_read.failed = true <;>
    by_cases h3 : e.app_ready_read.store e.startup_uninit = 1 <;>
    by_cases h4 : e.rec_ready_read.failed = true <;>
    by_cases h5 : e.rec_ready_read.store e.recorder_ready_uninit = 1 <;>
    by_cases h6 : e.start_write_ok = true <;>
    simp [h1, h2, h3, h4, h5, h6, List.filter, Ev.isFdCall]

theorem fork_record_fd_calls (o : Options) (e : SpaEnv) (g : Globals) :
    (fork_record o e g).trace.filter Ev.isFdCall =
      if e.fork_record = 0 then [Ev.close Pipe.sample_data 0] else [] := by
  unfold fork_record
  dsimp only
  by_cases h2 : e.fork_record = 0
  · simp [h2, Run.after_filter, record_child_fd_calls, List.filter, Ev.isFdCall]
  by_cases h1 : e.fork_record < 0
  · simp [h1, h2, List.filter, Ev.isFdCall]
  · simp [h1, h2, Run.after_filter, coordinator_branch_fd_calls, List.filter, Ev.isFdCall]

theorem jit_wait_loop_fd_calls (e : ConvEnv) :
    (jit_wait_loop e 2 0).filter Ev.isFdCall = [] := by
  rw [jit_wait_loop_two]
  split_ifs <;> rfl

/-- The Converter makes no call of `pipe` and no call of `close`. -/
theorem convert_sample_data_fd_calls (o : Options) (e : ConvEnv) (fs : SamplesDir) :
    (convert_sample_data o e fs).trace.filter Ev.isFdCall = [] := by
  have r1 := rotate_sample_data_filter o.append e fs Ev.isFdCall
    (by intro x hx; cases x <;> simp_all [Ev.isFsStep, Ev.isFdCall])
  have w1 := jit_wait_loop_fd_calls e
  unfold convert_sample_data
  dsimp only
  cases hr : (rotate_sample_data o.append e fs).2.2 with
  | some code => simp [r1, List.filter, Ev.isFdCall]
  | none =>
    by_cases hh : e.header_rc < 0
    · simp only [hh, if_true]
      by_cases hm : (e.header_rc != e.OP_PERF_HANDLED_ERROR) = true
      · simp only [hm, if_true]
        simp [r1, List.filter, Ev.isFdCall]
      · simp only [hm, if_false]
        simp [r1, List.filter, Ev.isFdCall]
    by_cases hv : e.is_valid = true <;> by_cases ht : e.convert_throws = true <;>
      by_cases hs : e.sigaction_ok = true <;> by_cases hf : e.fork_jit = 0 <;>
      by_cases hx : e.jit_exec_ok = true <;>
      by_cases hk : jit_conversion_running e 4 = true <;>
      simp [hh, hv, ht, hs, hf, hx, hk, r1, w1, List.filter, Ev.isFdCall]

theorem classify_convert_fd_calls (rc : Int) (st : Nat) (kt : Bool) (r : WaitResult) :
    (classify_convert rc st kt r).message.filter Ev.isFdCall = [] := by
  rcases classify_convert_spec rc st kt r with ⟨_, h⟩ | ⟨_, h, _⟩ <;>
    simp [h, List.filter, Ev.isFdCall]

theorem stop_record_fd_calls (e : KillEnv) (g : Globals) :
    (stop_record e g).1.filter Ev.isFdCall = [] := by
  unfold stop_record
  dsimp only
  by_cases h1 : e.kill_record_ok = true <;> by_cases h2 : e.wait_record.failed = true <;>
    by_cases h3 : (WIFEXITED (e.wait_record.store 0) &&
      WEXITSTATUS (e.wait_record.store 0) == 0) = true <;>
    simp [h1, h2, h3, List.filter, Ev.isFdCall]

theorem wait_loop_fd_calls (e : KillEnv) (g : Globals) (st : Nat) :
    ∀ (fuel : Nat) (s : LoopState) (t : List Ev) (rc : Int),
      wait_loop e g st fuel s = some (t, rc) →
      t.filter Ev.isFdCall = s.trace.filter Ev.isFdCall := by
  intro fuel
  induction fuel with
  | zero => intro s t rc h; simp [wait_loop] at h
  | succ n ih =>
    intro s t rc h
    unfold wait_loop at h
    dsimp only at h
    by_cases hd : (e.clock s.nclock).tv_sec > st + 5
    · simp only [hd, if_true] at h
      by_cases hk : e.kill_convert_ok = true
      · simp only [hk, Bool.not_true, Bool.false_eq_true, if_false, Option.some.injEq,
          Prod.mk.injEq] at h
        rw [← h.1]
        simp [List.filter_append, classify_convert_fd_calls, List.filter, Ev.isFdCall]
      · simp only [hk, Bool.not_false, if_true, Option.some.injEq, Prod.mk.injEq] at h
        rw [← h.1]
        simp [List.filter_append, List.filter, Ev.isFdCall]
    · simp only [hd, if_false] at h
      by_cases hp : (decide ((e.clock s.nclock).tv_usec % 1000000 > s.usec_timer + 100000)
          || decide ((e.clock s.nclock).tv_usec < s.usec_timer)) = true
      · simp only [hp, if_true] at h
        by_cases hkt : (classify_convert s.rc s.waitpid_status true
              (e.wait_convert s.nwait true)).keep_trying = true
        · simp only [hkt, if_true] at h
          rw [ih _ t rc h]
          simp [List.filter_append, classify_convert_fd_calls, List.filter, Ev.isFdCall]
        · simp only [hkt, if_false, Option.some.injEq, Prod.mk.injEq,
            Bool.false_eq_true] at h
          rw [← h.1]
          simp [List.filter_append, classify_convert_fd_calls, List.filter, Ev.isFdCall]
      · simp only [hp, if_false, Bool.false_eq_true] at h
        rw [ih { s with nclock := s.nclock + 1,
                          trace := s.trace ++ [Ev.gettimeofday (e.clock s.nclock)] } t rc h]
        simp [List.filter_append, List.filter, Ev.isFdCall]

/-- The function `_kill_operf_pid` makes no call of `pipe` and no call of `close`. -/
theorem kill_operf_pid_fd_calls (fuel : Nat) (e : KillEnv) (g : Globals) (k : List Ev × Int)
    (h : _kill_operf_pid fuel e g = some k) : k.1.filter Ev.isFdCall = [] := by
  unfold _kill_operf_pid at h
  dsimp only at h
  rw [wait_loop_fd_calls e g _ fuel _ k.1 k.2 h]
  simp [List.filter_append, stop_record_fd_calls, List.filter, Ev.isFdCall]

/-- From `set_signals` on, `_run` makes no call of `pipe` and no call of `close`. -/
theorem run_wait_fd_calls (fuel : Nat) (e : RunEnv) (g : Globals) (fs : SamplesDir)
    (t : List Ev) (r : RunResult) (h : run_wait fuel e g fs t = some r) :
    r.trace.filter Ev.isFdCall = t.filter Ev.isFdCall := by
  unfold run_wait at h
  dsimp only at h
  by_cases hsig : e.sigaction_ok = true
  swap
  · simp [hsig] at h
    rw [← h]; simp [List.filter_append, List.filter, Ev.isFdCall]
  simp only [hsig, Bool.not_true, Bool.false_eq_true, if_false] at h
  by_cases hs : g.startApp = true
  · simp only [hs, if_true] at h
    cases hk : _kill_operf_pid fuel e.kill g with
    | none => simp [hk] at h
    | some k =>
      simp only [hk, Option.some.injEq] at h
      rw [← h]
      simp [List.filter_append, kill_operf_pid_fd_calls fuel e.kill g k hk, List.filter,
        Ev.isFdCall]
  · simp only [hs, if_false, Bool.false_eq_true] at h
    cases hw : e.wait_primary with
    | error errno =>
      simp only [hw] at h
      by_cases he : errno = EINTR
      · simp only [he, beq_self_eq_true, if_true] at h
        cases hk : _kill_operf_pid fuel e.kill g with
        | none => simp [hk] at h
        | some k =>
          simp only [hk, Option.some.injEq] at h
          rw [← h]
          simp [List.filter_append, kill_operf_pid_fd_calls fuel e.kill g k hk, List.filter,
            Ev.isFdCall]
      · simp [he] at h
        rw [← h]; simp [List.filter_append, List.filter, Ev.isFdCall]
    | pending =>
      simp only [hw, Option.some.injEq] at h
      rw [← h]; simp [List.filter_append, List.filter, Ev.isFdCall]
    | reaped s =>
      simp only [hw, Option.some.injEq] at h
      rw [← h]; simp [List.filter_append, List.filter, Ev.isFdCall]

/-! ### The paths of `_run` by process -/

/-- The AppLauncher child inside `start_profiling_app`: it closes both ends of
`sample_data_pipe` and calls `run_app`. -/
theorem start_profiling_app_app_child (o : Options) (e : SpaEnv) (g0 : Globals)
    (hL : ((g0.app_PID != o.pid) && (o.system_wide == false)) = true)
    (hp1 : e.pipe_app_ready_ok = true) (hp2 : e.pipe_start_app_ok = true)
    (hfa : e.fork_app = 0) :
    start_profiling_app o e g0 =
      ⟨[Ev.pipe Pipe.app_ready true, Ev.pipe Pipe.start_app true, Ev.fork 0,
          Ev.close Pipe.sample_data 0, Ev.close Pipe.sample_data 1] ++ (run_app e.app).1,
        (run_app e.app).2, { g0 with startApp := true, app_PID := 0 }⟩ := by
  unfold start_profiling_app
  dsimp only
  simp only [hL, if_true]
  simp [hp1, hp2, hfa]

/-- A process that does not return from `start_profiling_app` ends `_run` there. -/
theorem run_start_not_returned (fuel : Nat) (o : Options) (e : RunEnv) (g0 : Globals)
    (fs : SamplesDir) (hp : e.pipe_sample_data_ok = true)
    (hout : ∀ rc, (start_profiling_app o e.spa g0).out ≠ Outcome.returned rc) :
    _run fuel o e g0 fs =
      some ⟨Ev.pipe Pipe.sample_data true :: (start_profiling_app o e.spa g0).trace,
        (start_profiling_app o e.spa g0).out, (start_profiling_app o e.spa g0).g, fs⟩ := by
  unfold _run
  simp only [hp, Bool.not_true, Bool.false_eq_true, if_false]

/-- The Converter child inside `_run`: it closes `sample_data_pipe[1]` and calls
`convert_sample_data`. -/
theorem run_convert_child (fuel : Nat) (o : Options) (e : RunEnv) (g0 : Globals)
    (fs : SamplesDir) (hp : e.pipe_sample_data_ok = true)
    (hout : (start_profiling_app o e.spa g0).out = Outcome.returned 0)
    (hfc : e.fork_convert = 0) :
    _run fuel o e g0 fs =
      some ⟨Ev.pipe Pipe.sample_data true :: (start_profiling_app o e.spa g0).trace ++
          [Ev.fork 0] ++ [Ev.close Pipe.sample_data 1] ++
          (convert_sample_data o e.conv fs).trace,
        (convert_sample_data o e.conv fs).out,
        { (start_profiling_app o e.spa g0).g with convert_pid := 0 },
        (convert_sample_data o e.conv fs).fs⟩ := by
  have hg := start_profiling_app_guard o e.spa g0 hout
  have hg2 : (!(!(start_profiling_app o e.spa g0).g.app_started && !o.system_wide)) = true := by
    cases ha : (start_profiling_app o e.spa g0).g.app_started <;> cases hs : o.system_wide <;>
      simp_all
  unfold _run
  simp only [hp, Bool.not_true, Bool.false_eq_true, if_false, hout, lt_self_iff_false, hg2,
    if_true, hfc, beq_self_eq_true]

/-- The coordinator inside `_run` after a successful start: it forks the Converter, closes both
ends of `sample_data_pipe` and goes on to `set_signals`. -/
theorem run_coordinator (fuel : Nat) (o : Options) (e : RunEnv) (g0 : Globals)
    (fs : SamplesDir) (hp : e.pipe_sample_data_ok = true)
    (hout : (start_profiling_app o e.spa g0).out = Outcome.returned 0)
    (hfc : 0 < e.fork_convert) :
    _run fuel o e g0 fs =
      run_wait fuel e { (start_profiling_app o e.spa g0).g with convert_pid := e.fork_convert }
        fs (Ev.pipe Pipe.sample_data true :: (start_profiling_app o e.spa g0).trace ++
          [Ev.fork e.fork_convert] ++
          [Ev.close Pipe.sample_data 0, Ev.close Pipe.sample_data 1]) := by
  have hg := start_profiling_app_guard o e.spa g0 hout
  have h1 : ¬ e.fork_convert < 0 := by omega
  have h2 : ¬ e.fork_convert = 0 := by omega
  have hg2 : (!(!(start_profiling_app o e.spa g0).g.app_started && !o.system_wide)) = true := by
    cases ha : (start_profiling_app o e.spa g0).g.app_started <;> cases hs : o.system_wide <;>
      simp_all
  unfold _run
  simp only [hp, Bool.not_true, Bool.false_eq_true, if_false, hout, lt_self_iff_false, hg2,
    if_true, h1, beq_iff_eq, h2]

/-- The calls on descriptors made inside `start_profiling_app` by the process that returns 0
from it with the Recorder forked: the three `pipe` calls of a launch, none otherwise. -/
theorem start_profiling_app_success_fd_calls (o : Options) (e : SpaEnv) (g0 : Globals)
    (hout : (start_profiling_app o e g0).out = Outcome.returned 0) (hfr : 0 < e.fork_record) :
    (start_profiling_app o e g0).trace.filter Ev.isFdCall =
      if ((g0.app_PID != o.pid) && (o.system_wide == false)) = true then
        [Ev.pipe Pipe.app_ready true, Ev.pipe Pipe.start_app true,
          Ev.pipe Pipe.operf_record_ready true]
      else [] := by
  by_cases hL : ((g0.app_PID != o.pid) && (o.system_wide == false)) = true
  · rw [(start_profiling_app_success_launch o e g0 hL hout hfr).2, if_pos hL]
    simp [List.filter, Ev.isFdCall]
  · rw [start_profiling_app_success_attach o e g0 (Bool.eq_false_iff.mpr hL) hfr, if_neg hL]
    simp [List.filter, Ev.isFdCall]

/-- The calls on descriptors made inside `start_profiling_app` by the Recorder child. -/
theorem start_profiling_app_record_fd_calls (o : Options) (e : SpaEnv) (g0 : Globals)
    (hpre : ((g0.app_PID != o.pid) && (o.system_wide == false)) = true →
      e.pipe_app_ready_ok = true ∧ e.pipe_start_app_ok = true ∧ 0 < e.fork_app ∧
      e.pipe_record_ready_ok = true)
    (hfr : e.fork_record = 0) :
    (start_profiling_app o e g0).trace.filter Ev.isFdCall =
      (if ((g0.app_PID != o.pid) && (o.system_wide == false)) = true then
        [Ev.pipe Pipe.app_ready true, Ev.pipe Pipe.start_app true,
          Ev.pipe Pipe.operf_record_ready true]
      else []) ++ [Ev.close Pipe.sample_data 0] := by
  by_cases hL : ((g0.app_PID != o.pid) && (o.system_wide == false)) = true
  · obtain ⟨h1, h2, h3, h4⟩ := hpre hL
    have hL2 := hL
    simp only [Bool.and_eq_true, bne_iff_ne, ne_eq, beq_iff_eq] at hL2
    rw [start_profiling_app_launch_parent o e g0 hL2.1 hL2.2 h1 h2 h4 h3, if_pos hL]
    simp [Run.after_filter, fork_record_fd_calls, hfr, List.filter, Ev.isFdCall]
  · rw [if_neg hL]
    unfold start_profiling_app
    dsimp only
    simp only [hL, if_false, Bool.false_eq_true]
    simp [fork_record_fd_calls, hfr]

/-! ### Ownership of the sample stream pipe -/

/-- C13: descriptor tables for `sample_data_pipe`, with `pipe(sample_data_pipe)` successful.
The AppLauncher child ends `_run` holding neither end.  The Recorder child, through its
branch of `start_profiling_app`, holds the write end `[1]` and not the read end `[0]`.  The
Converter child (forked by the coordinator after a successful start) ends `_run` holding the
read end and not the write end.  The coordinator, whenever `_run` returns a result after a
successful start and the `fork` of the Converter, holds neither end. -/
theorem sample_pipe_ownership (o : Options) (e : RunEnv) (g0 : Globals)
    (hp : e.pipe_sample_data_ok = true) :
    (((g0.app_PID != o.pid) && (o.system_wide == false)) = true →
      e.spa.pipe_app_ready_ok = true → e.spa.pipe_start_app_ok = true → e.spa.fork_app = 0 →
      ∀ (fuel : Nat) (fs : SamplesDir), ∃ r, _run fuel o e g0 fs = some r ∧
        fd_table r.trace Pipe.sample_data 0 = false ∧
        fd_table r.trace Pipe.sample_data 1 = false) ∧
    ((((g0.app_PID != o.pid) && (o.system_wide == false)) = true →
        e.spa.pipe_app_ready_ok = true ∧ e.spa.pipe_start_app_ok = true ∧
        0 < e.spa.fork_app ∧ e.spa.pipe_record_ready_ok = true) →
      e.spa.fork_record = 0 →
      fd_table (Ev.pipe Pipe.sample_data true :: (start_profiling_app o e.spa g0).trace)
        Pipe.sample_data 0 = false ∧
      fd_table (Ev.pipe Pipe.sample_data true :: (start_profiling_app o e.spa g0).trace)
        Pipe.sample_data 1 = true) ∧
    (0 < e.spa.fork_record → (start_profiling_app o e.spa g0).out = Outcome.returned 0 →
      e.fork_convert = 0 →
      ∀ (fuel : Nat) (fs : SamplesDir), ∃ r, _run fuel o e g0 fs = some r ∧
        fd_table r.trace Pipe.sample_data 0 = true ∧
        fd_table r.trace Pipe.sample_data 1 = false) ∧
    (0 < e.spa.fork_record → (start_profiling_app o e.spa g0).out = Outcome.returned 0 →
      0 < e.fork_convert →
      ∀ (fuel : Nat) (fs : SamplesDir) (r : RunResult), _run fuel o e g0 fs = some r →
        fd_table r.trace Pipe.sample_data 0 = false ∧
        fd_table r.trace Pipe.sample_data 1 = false) := by
  refine ⟨?_, ?_, ?_, ?_⟩
  · intro hL h1 h2 hfa fuel fs
    have hs := start_profiling_app_app_child o e.spa g0 hL h1 h2 hfa
    have hnr : ∀ rc, (start_profiling_app o e.spa g0).out ≠ Outcome.returned rc := by
      intro rc
      rw [hs]
      exact run_app_never_returns _ _
    refine ⟨_, run_start_not_returned fuel o e g0 fs hp hnr, ?_, ?_⟩ <;>
    · rw [fd_table_filter]
      simp only [hs]
      simp [List.filter_append, run_app_fd_calls, List.filter, Ev.isFdCall, fd_table, fd_step]
  · intro hpre hfr
    have hf := start_profiling_app_record_fd_calls o e.spa g0 hpre hfr
    constructor <;>
    · rw [fd_table_filter]
      simp only [List.filter, Ev.isFdCall, hf]
      split_ifs <;> simp [fd_table, fd_step]
  · intro hfr hout hfc fuel fs
    have hf := start_profiling_app_success_fd_calls o e.spa g0 hout hfr
    have key : (Ev.pipe Pipe.sample_data true :: (start_profiling_app o e.spa g0).trace ++
        [Ev.fork 0] ++ [Ev.close Pipe.sample_data 1] ++
        (convert_sample_data o e.conv fs).trace).filter Ev.isFdCall =
        Ev.pipe Pipe.sample_data true :: ((start_profiling_app o e.spa g0).trace.filter
          Ev.isFdCall ++ [Ev.close Pipe.sample_data 1]) := by
      simp [List.filter_append, convert_sample_data_fd_calls, Ev.isFdCall]
    refine ⟨_, run_convert_child fuel o e g0 fs hp hout hfc, ?_, ?_⟩ <;>
    · dsimp only
      rw [fd_table_filter, key, hf]
      split_ifs <;> rfl
  · intro hfr hout hfc fuel fs r hr
    have hf := start_profiling_app_success_fd_calls o e.spa g0 hout hfr
    rw [run_coordinator fuel o e g0 fs hp hout hfc] at hr
    have hw := run_wait_fd_calls fuel e _ fs _ r hr
    have key : (Ev.pipe Pipe.sample_data true :: (start_profiling_app o e.spa g0).trace ++
        [Ev.fork e.fork_convert] ++
        [Ev.close Pipe.sample_data 0, Ev.close Pipe.sample_data 1]).filter Ev.isFdCall =
        Ev.pipe Pipe.sample_data true :: ((start_profiling_app o e.spa g0).trace.filter
          Ev.isFdCall ++ [Ev.close Pipe.sample_data 0, Ev.close Pipe.sample_data 1]) := by
      simp [List.filter_append, Ev.isFdCall]
    constructor <;>
    · rw [fd_table_filter, hw, key, hf]
      split_ifs <;> rfl

/-- C13 (witness): the four processes of a launch: the AppLauncher child holds no end of
`sample_data_pipe`, the Recorder child holds the write end only, the Converter child holds the
read end only, and the coordinator, whose `_run` returns, holds none. -/
theorem sample_pipe_ownership_witness :
    (∃ r, _run 0 launch_options app_child_run initial_globals one_file_fs = some r ∧
      fd_table r.trace Pipe.sample_data 0 = false ∧
      fd_table r.trace Pipe.sample_data 1 = false) ∧
    (fd_table (Ev.pipe Pipe.sample_data true ::
        (start_profiling_app launch_options record_child_run.spa initial_globals).trace)
        Pipe.sample_data 0 = false ∧
      fd_table (Ev.pipe Pipe.sample_data true ::
        (start_profiling_app launch_options record_child_run.spa initial_globals).trace)
        Pipe.sample_data 1 = true) ∧
    (∃ r, _run 0 launch_options convert_child_run initial_globals one_file_fs = some r ∧
      fd_table r.trace Pipe.sample_data 0 = true ∧
      fd_table r.trace Pipe.sample_data 1 = false) ∧
    (∃ r, _run 50 launch_options launch_run_ok initial_globals one_file_fs = some r ∧
      fd_table r.trace Pipe.sample_data 0 = false ∧
      fd_table r.trace Pipe.sample_data 1 = false) := by
  refine ⟨?_, ?_, ?_, ?_⟩
  · exact (sample_pipe_ownership launch_options app_child_run initial_globals rfl).1
      (by decide) rfl rfl rfl 0 one_file_fs
  · exact (sample_pipe_ownership launch_options record_child_run initial_globals rfl).2.1
      (fun _ => ⟨rfl, rfl, by decide, rfl⟩) rfl
  · exact (sample_pipe_ownership launch_options convert_child_run initial_globals rfl).2.2.1
      (by decide) (by decide) rfl 0 one_file_fs
  · have hs : (_run 50 launch_options launch_run_ok initial_globals one_file_fs).isSome = true := by
      decide
    cases hr : _run 50 launch_options launch_run_ok initial_globals one_file_fs with
    | none => rw [hr] at hs; simp at hs
    | some r =>
      exact ⟨r, rfl, (sample_pipe_ownership launch_options launch_run_ok initial_globals
        rfl).2.2.2 (by decide) (by decide) (by decide) 50 one_file_fs r hr⟩

/-! ### The handshake pipes -/

/-- C14 (counterexample): in a launch whose steps all succeed, the coordinator ends `_run`
with the write ends of `app_ready_pipe` and `operf_record_ready_pipe` still open, the
AppLauncher child holds both ends of `app_ready_pipe` and of `start_app_pipe`, the Recorder
child holds both ends of `start_app_pipe`, and the Converter child holds the read end of
`app_ready_pipe`: the write end of `app_ready_pipe` is open in all four processes. -/
theorem handshake_ends_left_open :
    (_run 50 launch_options launch_run_ok initial_globals one_file_fs).map
        (fun r => (fd_table r.trace Pipe.app_ready 1,
          fd_table r.trace Pipe.operf_record_ready 1)) = some (true, true) ∧
    (_run 0 launch_options app_child_run initial_globals one_file_fs).map
        (fun r => (fd_table r.trace Pipe.app_ready 0, fd_table r.trace Pipe.app_ready 1,
          fd_table r.trace Pipe.start_app 0, fd_table r.trace Pipe.start_app 1)) =
      some (true, true, true, true) ∧
    (_run 0 launch_options record_child_run initial_globals one_file_fs).map
        (fun r => (fd_table r.trace Pipe.app_ready 1, fd_table r.trace Pipe.start_app 0,
          fd_table r.trace Pipe.start_app 1)) = some (true, true, true) ∧
    (_run 0 launch_options convert_child_run initial_globals one_file_fs).map
        (fun r => (fd_table r.trace Pipe.app_ready 0, fd_table r.trace Pipe.app_ready 1)) =
      some (true, true) := by
  decide

theorem filter_handshake_fd (l : List Ev) :
    l.filter Ev.isHandshakeClose = (l.filter Ev.isFdCall).filter Ev.isHandshakeClose := by
  induction l with
  | nil => rfl
  | cons x xs ih => cases x <;> simp [List.filter_cons, Ev.isFdCall, Ev.isHandshakeClose, ih]

theorem fork_record_no_handshake_close (o : Options) (e : SpaEnv) (g : Globals) :
    (fork_record o e g).trace.filter Ev.isHandshakeClose = [] := by
  rw [filter_handshake_fd, fork_record_fd_calls]
  split_ifs <;> rfl

theorem start_profiling_app_no_handshake_close (o : Options) (e : SpaEnv) (g0 : Globals) :
    (start_profiling_app o e g0).trace.filter Ev.isHandshakeClose = [] := by
  have ha := filter_handshake_close _ (run_app_fd_calls e.app)
  unfold start_profiling_app
  dsimp only
  by_cases h0 : ((g0.app_PID != o.pid) && (o.system_wide == false)) = true
  swap
  · simp only [h0, if_false, Bool.false_eq_true]
    exact fork_record_no_handshake_close o e _
  simp only [h0, if_true]
  by_cases h1 : e.pipe_app_ready_ok = true
  swap
  · simp [h1, List.filter, Ev.isHandshakeClose]
  by_cases h2 : e.pipe_start_app_ok = true
  swap
  · simp [h1, h2, List.filter, Ev.isHandshakeClose]
  by_cases h3 : e.fork_app < 0
  · simp [h1, h2, h3, List.filter, Ev.isHandshakeClose]
  by_cases h4 : e.fork_app = 0
  · simp [h1, h2, h4, List.filter, Ev.isHandshakeClose, ha]
  by_cases h5 : e.pipe_record_ready_ok = true
  swap
  · simp [h1, h2, h3, h4, h5, List.filter, Ev.isHandshakeClose]
  simp [h1, h2, h3, h4, h5, Run.after_filter, fork_record_no_handshake_close, List.filter,
    Ev.isHandshakeClose]

theorem run_wait_no_handshake_close (fuel : Nat) (e : RunEnv) (g : Globals) (fs : SamplesDir)
    (t : List Ev) (r : RunResult) (h : run_wait fuel e g fs t = some r) :
    r.trace.filter Ev.isHandshakeClose = t.filter Ev.isHandshakeClose := by
  rw [filter_handshake_fd, run_wait_fd_calls fuel e g fs t r h, ← filter_handshake_fd]

/-- No process closes an end of a handshake pipe inside `_run`. -/
theorem run_no_handshake_close (fuel : Nat) (o : Options) (e : RunEnv) (g0 : Globals)
    (fs : SamplesDir) (r : RunResult) (h : _run fuel o e g0 fs = some r) :
    r.trace.filter Ev.isHandshakeClose = [] := by
  have hs := start_profiling_app_no_handshake_close o e.spa g0
  have hc := filter_handshake_close _ (convert_sample_data_fd_calls o e.conv fs)
  unfold _run at h
  by_cases hp : e.pipe_sample_data_ok = true
  swap
  · simp [hp] at h
    rw [← h]
    simp [Ev.isHandshakeClose]
  simp only [hp, Bool.not_true, Bool.false_eq_true, if_false] at h
  cases hout : (start_profiling_app o e.spa g0).out with
  | returned rc =>
    simp only [hout] at h
    by_cases h1 : rc < 0
    · simp only [h1, if_true, Option.some.injEq] at h
      rw [← h]
      simp [hs, Ev.isHandshakeClose]
    simp only [h1, if_false] at h
    by_cases h2 : (!(!(start_profiling_app o e.spa g0).g.app_started && !o.system_wide)) = true
    · simp only [h2, if_true] at h
      by_cases h3 : e.fork_convert < 0
      · simp only [h3, if_true, Option.some.injEq] at h
        rw [← h]
        simp [hs, Ev.isHandshakeClose]
      simp only [h3, if_false] at h
      by_cases h4 : e.fork_convert = 0
      · simp only [h4, beq_self_eq_true, if_true, Option.some.injEq] at h
        rw [← h]
        simp [hs, hc, Ev.isHandshakeClose]
      · simp only [beq_iff_eq, h4, if_false] at h
        rw [run_wait_no_handshake_close fuel e _ fs _ r h]
        simp [hs, Ev.isHandshakeClose]
    · simp only [h2, if_false, Bool.false_eq_true] at h
      rw [run_wait_no_handshake_close fuel e _ fs _ r h]
      simp [hs, Ev.isHandshakeClose]
  | exited c =>
    simp only [hout, Option.some.injEq] at h
    rw [← h]
    simp [hs, Ev.isHandshakeClose]
  | execd =>
    simp only [hout, Option.some.injEq] at h
    rw [← h]
    simp [hs, Ev.isHandshakeClose]

theorem fd_table_stays_open (p : Pipe) (side : Nat) (t : List Ev)
    (hc : Ev.close p side ∉ t) : t.foldl (fd_step p side) true = true := by
  induction t with
  | nil => rfl
  | cons x xs ih =>
    have hx : fd_step p side true x = true := by
      cases x <;> simp [fd_step]
      next q s =>
        by_contra hn
        push_neg at hn
        obtain ⟨hq, hs⟩ := hn
        subst hq; subst hs
        simp at hc
    simp only [List.foldl_cons, hx]
    exact ih (fun hm => hc (List.mem_cons_of_mem _ hm))

/-- An end created by a successful `pipe` and never closed since is open. -/
theorem fd_table_open (p : Pipe) (side : Nat) (hside : side < 2) (t : List Ev)
    (hp : Ev.pipe p true ∈ t) (hc : Ev.close p side ∉ t) : fd_table t p side = true := by
  unfold fd_table
  generalize false = b
  induction t generalizing b with
  | nil => simp at hp
  | cons x xs ih =>
    simp only [List.foldl_cons]
    have hc2 : Ev.close p side ∉ xs := fun hm => hc (List.mem_cons_of_mem _ hm)
    rcases List.mem_cons.mp hp with h | h
    · subst h
      simp only [fd_step, hside, and_self, if_true]
      exact fd_table_stays_open p side xs hc2
    · exact ih h hc2 _

/-- C14 (amended): no process closes an end of `app_ready_pipe`, `start_app_pipe` or
`operf_record_ready_pipe`: in every process that ends `_run` (coordinator, AppLauncher,
Recorder, Converter), every `close` made is on `sample_data_pipe`, so both ends of every
handshake pipe created by the process or by an ancestor before the `fork` are still open
in it. -/
theorem handshake_ends_never_closed (fuel : Nat) (o : Options) (e : RunEnv) (g0 : Globals)
    (fs : SamplesDir) (r : RunResult) (h : _run fuel o e g0 fs = some r) :
    (∀ (p : Pipe) (side : Nat), Ev.close p side ∈ r.trace → p = Pipe.sample_data) ∧
    (∀ (p : Pipe) (side : Nat), p ≠ Pipe.sample_data → side < 2 →
      Ev.pipe p true ∈ r.trace → fd_table r.trace p side = true) := by
  have hn := run_no_handshake_close fuel o e g0 fs r h
  rw [List.filter_eq_nil_iff] at hn
  have h1 : ∀ (p : Pipe) (side : Nat), Ev.close p side ∈ r.trace → p = Pipe.sample_data := by
    intro p side hm
    have := hn _ hm
    simpa [Ev.isHandshakeClose] using this
  refine ⟨h1, ?_⟩
  intro p side hp hside hm
  exact fd_table_open p side hside r.trace hm (fun hcl => hp (h1 p side hcl))

/-- C14 (amended, witness): the coordinator of a launch whose steps all succeed ends `_run`
with the write end of `app_ready_pipe` open. -/
theorem handshake_ends_never_closed_witness :
    ∃ r, _run 50 launch_options launch_run_ok initial_globals one_file_fs = some r ∧
      Ev.pipe Pipe.app_ready true ∈ r.trace ∧ fd_table r.trace Pipe.app_ready 1 = true := by
  have hs : (_run 50 launch_options launch_run_ok initial_globals one_file_fs).map
      (fun r => decide (Ev.pipe Pipe.app_ready true ∈ r.trace)) = some true := by decide
  cases hr : _run 50 launch_options launch_run_ok initial_globals one_file_fs with
  | none => rw [hr] at hs; simp at hs
  | some r =>
    rw [hr] at hs
    have hm : Ev.pipe Pipe.app_ready true ∈ r.trace := by simpa using hs
    exact ⟨r, rfl, hm, (handshake_ends_never_closed 50 launch_options launch_run_ok
      initial_globals one_file_fs r hr).2 Pipe.app_ready 1 (by decide) (by decide) hm⟩

/-! ### Failures of `pipe` and `fork` -/

/-- C15 (counterexample): three launches in which a `pipe` or a `fork` fails with children
already forked.  When `pipe(operf_record_ready_pipe)` fails, the AppLauncher (pid 100) exists
and `_run` returns `PERF_RECORD_ERROR`; so it does when the `fork` of the Recorder fails; when
the `fork` of the Converter fails, the AppLauncher and the Recorder (pid 101) exist and the
coordinator exits. -/
theorem setup_failure_after_fork :
    (_run 0 launch_options record_pipe_fails_run initial_globals one_file_fs).map
        (fun r => (r.out, r.trace, forked r.trace)) =
      some (Outcome.returned PERF_RECORD_ERROR,
        [Ev.pipe Pipe.sample_data true, Ev.pipe Pipe.app_ready true,
          Ev.pipe Pipe.start_app true, Ev.fork 100, Ev.pipe Pipe.operf_record_ready false],
        [100]) ∧
    (_run 0 launch_options record_fork_fails_run initial_globals one_file_fs).map
        (fun r => (r.out, r.trace, forked r.trace)) =
      some (Outcome.returned PERF_RECORD_ERROR,
        [Ev.pipe Pipe.sample_data true, Ev.pipe Pipe.app_ready true,
          Ev.pipe Pipe.start_app true, Ev.fork 100, Ev.pipe Pipe.operf_record_ready true,
          Ev.fork (-1)],
        [100]) ∧
    (_run 0 launch_options convert_fork_fails_run initial_globals one_file_fs).map
        (fun r => (r.out, r.trace.filter Ev.isFork, forked r.trace)) =
      some (Outcome.exited EXIT_FAILURE, [Ev.fork 100, Ev.fork 101, Ev.fork (-1)],
        [100, 101]) := by
  decide

/-- A process in which `start_profiling_app` returns -1 returns `PERF_RECORD_ERROR` from
`_run` without any further call. -/
theorem run_start_failed (fuel : Nat) (o : Options) (e : RunEnv) (g0 : Globals)
    (fs : SamplesDir) (hp : e.pipe_sample_data_ok = true)
    (hout : (start_profiling_app o e.spa g0).out = Outcome.returned (-1)) :
    _run fuel o e g0 fs =
      some ⟨Ev.pipe Pipe.sample_data true :: (start_profiling_app o e.spa g0).trace,
        Outcome.returned PERF_RECORD_ERROR, (start_profiling_app o e.spa g0).g, fs⟩ := by
  unfold _run
  simp [hp, hout]

/-- A launch whose `pipe(app_ready_pipe)`, `pipe(start_app_pipe)` or `fork` of the AppLauncher
fails: `start_profiling_app` ends the process with no child forked. -/
theorem start_profiling_app_early_failure (o : Options) (e : SpaEnv) (g0 : Globals)
    (hL : ((g0.app_PID != o.pid) && (o.system_wide == false)) = true)
    (hf : e.pipe_app_ready_ok = false ∨ e.pipe_start_app_ok = false ∨ e.fork_app < 0) :
    (start_profiling_app o e g0).out = Outcome.exited EXIT_FAILURE ∧
    forked (start_profiling_app o e g0).trace = [] ∧
    ((e.pipe_app_ready_ok = false ∨ e.pipe_start_app_ok = false) →
      (start_profiling_app o e g0).trace.filter Ev.isFork = []) := by
  unfold start_profiling_app
  dsimp only
  simp only [hL, if_true]
  by_cases h1 : e.pipe_app_ready_ok = true
  swap
  · simp [h1, forked, Ev.isFork]
  by_cases h2 : e.pipe_start_app_ok = true
  swap
  · simp [h1, h2, forked, Ev.isFork]
  have h3 : e.fork_app < 0 := by
    rcases hf with h | h | h
    · simp [h1] at h
    · simp [h2] at h
    · exact h
  have h4 : ¬ 0 < e.fork_app := by omega
  simp [h1, h2, h3, h4, forked]

/-- A launch whose `pipe(operf_record_ready_pipe)` or `fork` of the Recorder fails with the
AppLauncher forked: `start_profiling_app` returns -1 and the AppLauncher is the one child. -/
theorem start_profiling_app_late_failure (o : Options) (e : SpaEnv) (g0 : Globals)
    (hL : ((g0.app_PID != o.pid) && (o.system_wide == false)) = true)
    (h1 : e.pipe_app_ready_ok = true) (h2 : e.pipe_start_app_ok = true) (hfa : 0 < e.fork_app)
    (hf : e.pipe_record_ready_ok = false ∨ e.fork_record < 0) :
    (start_profiling_app o e g0).out = Outcome.returned (-1) ∧
    forked (start_profiling_app o e g0).trace = [e.fork_app] := by
  have h3 : ¬ e.fork_app < 0 := by omega
  have h4 : ¬ e.fork_app = 0 := by omega
  unfold start_profiling_app
  dsimp only
  simp only [hL, if_true]
  by_cases h5 : e.pipe_record_ready_ok = true
  swap
  · simp [h1, h2, h3, h4, h5, hfa, forked]
  have h6 : e.fork_record < 0 := by
    rcases hf with h | h
    · simp [h5] at h
    · exact h
  have h7 : ¬ 0 < e.fork_record := by omega
  simp [h1, h2, h3, h4, h5, h6, h7, hfa, forked, fork_record, Run.after]

/-- A session without launch whose `fork` of the Recorder fails: `start_profiling_app` returns
-1 with no child forked. -/
theorem start_profiling_app_attach_failure (o : Options) (e : SpaEnv) (g0 : Globals)
    (hL : ((g0.app_PID != o.pid) && (o.system_wide == false)) = false)
    (hf : e.fork_record < 0) :
    (start_profiling_app o e g0).out = Outcome.returned (-1) ∧
    forked (start_profiling_app o e g0).trace = [] := by
  have h7 : ¬ 0 < e.fork_record := by omega
  unfold start_profiling_app
  dsimp only
  simp only [hL, if_false, Bool.false_eq_true]
  simp [hf, h7, forked, fork_record]

theorem forked_cons_pipe (p : Pipe) (ok : Bool) (t : List Ev) :
    forked (Ev.pipe p ok :: t) = forked t := by
  simp [forked]

/-- C15 (amended): a failure of `pipe(sample_data_pipe)`, and in a launch a failure of
`pipe(app_ready_pipe)`, of `pipe(start_app_pipe)` or of the `fork` of the AppLauncher, ends
the process with `EXIT_FAILURE` before any child exists (before any `fork` at all for the
`pipe` failures); in a session without launch a failed `fork` of the Recorder makes `_run`
return `PERF_RECORD_ERROR` with no child forked.  In a launch, `operf_record_ready_pipe` is
created and the Recorder forked after the AppLauncher: when one of these two calls fails,
`_run` returns `PERF_RECORD_ERROR` with the AppLauncher as the one child forked.  When the
`fork` of the Converter fails, the coordinator exits with `EXIT_FAILURE` and the Recorder has
been forked. -/
theorem setup_failures_and_children (fuel : Nat) (o : Options) (e : RunEnv) (g0 : Globals)
    (fs : SamplesDir) :
    (e.pipe_sample_data_ok = false →
      ∃ r, _run fuel o e g0 fs = some r ∧ r.out = Outcome.exited EXIT_FAILURE ∧
        r.trace.filter Ev.isFork = []) ∧
    (e.pipe_sample_data_ok = true →
      ((g0.app_PID != o.pid) && (o.system_wide == false)) = true →
      (e.spa.pipe_app_ready_ok = false ∨ e.spa.pipe_start_app_ok = false ∨
        e.spa.fork_app < 0) →
      ∃ r, _run fuel o e g0 fs = some r ∧ r.out = Outcome.exited EXIT_FAILURE ∧
        forked r.trace = [] ∧
        ((e.spa.pipe_app_ready_ok = false ∨ e.spa.pipe_start_app_ok = false) →
          r.trace.filter Ev.isFork = [])) ∧
    (e.pipe_sample_data_ok = true →
      ((g0.app_PID != o.pid) && (o.system_wide == false)) = false →
      e.spa.fork_record < 0 →
      ∃ r, _run fuel o e g0 fs = some r ∧ r.out = Outcome.returned PERF_RECORD_ERROR ∧
        forked r.trace = []) ∧
    (e.pipe_sample_data_ok = true →
      ((g0.app_PID != o.pid) && (o.system_wide == false)) = true →
      e.spa.pipe_app_ready_ok = true → e.spa.pipe_start_app_ok = true → 0 < e.spa.fork_app →
      (e.spa.pipe_record_ready_ok = false ∨ e.spa.fork_record < 0) →
      ∃ r, _run fuel o e g0 fs = some r ∧ r.out = Outcome.returned PERF_RECORD_ERROR ∧
        forked r.trace = [e.spa.fork_app]) ∧
    (e.pipe_sample_data_ok = true → 0 < e.spa.fork_record →
      (start_profiling_app o e.spa g0).out = Outcome.returned 0 → e.fork_convert < 0 →
      ∃ r, _run fuel o e g0 fs = some r ∧ r.out = Outcome.exited EXIT_FAILURE ∧
        e.spa.fork_record ∈ forked r.trace) := by
  refine ⟨?_, ?_, ?_, ?_, ?_⟩
  · intro hp
    refine ⟨⟨[Ev.pipe Pipe.sample_data false], Outcome.exited EXIT_FAILURE, g0, fs⟩, ?_, rfl, rfl⟩
    unfold _run
    simp [hp]
  · intro hp hL hf
    obtain ⟨ho, hk, hn⟩ := start_profiling_app_early_failure o e.spa g0 hL hf
    refine ⟨_, run_start_not_returned fuel o e g0 fs hp (by rw [ho]; simp), ho, ?_, ?_⟩
    · dsimp only
      rw [forked_cons_pipe, hk]
    · intro h
      dsimp only
      simp [List.filter_cons, Ev.isFork, hn h]
  · intro hp hL hf
    obtain ⟨ho, hk⟩ := start_profiling_app_attach_failure o e.spa g0 hL hf
    refine ⟨_, run_start_failed fuel o e g0 fs hp ho, rfl, ?_⟩
    dsimp only
    rw [forked_cons_pipe, hk]
  · intro hp hL h1 h2 hfa hf
    obtain ⟨ho, hk⟩ := start_profiling_app_late_failure o e.spa g0 hL h1 h2 hfa hf
    refine ⟨_, run_start_failed fuel o e g0 fs hp ho, rfl, ?_⟩
    dsimp only
    rw [forked_cons_pipe, hk]
  · intro hp hfr hout hfc
    have hg := start_profiling_app_guard o e.spa g0 hout
    have hg2 : (!(!(start_profiling_app o e.spa g0).g.app_started && !o.system_wide)) = true := by
      cases ha : (start_profiling_app o e.spa g0).g.app_started <;> cases hs : o.system_wide <;>
        simp_all
    have hrun : _run fuel o e g0 fs =
        some ⟨Ev.pipe Pipe.sample_data true :: (start_profiling_app o e.spa g0).trace ++
            [Ev.fork e.fork_convert], Outcome.exited EXIT_FAILURE,
          { (start_profiling_app o e.spa g0).g with convert_pid := e.fork_convert }, fs⟩ := by
      unfold _run
      simp only [hp, Bool.not_true, Bool.false_eq_true, if_false, hout, lt_self_iff_false, hg2,
        if_true, hfc]
    refine ⟨_, hrun, rfl, ?_⟩
    dsimp only
    have hmem : e.spa.fork_record ∈ forked (start_profiling_app o e.spa g0).trace := by
      by_cases hL : ((g0.app_PID != o.pid) && (o.system_wide == false)) = true
      · rw [(start_profiling_app_success_launch o e.spa g0 hL hout hfr).2]
        simp [forked, hfr]
      · rw [start_profiling_app_success_attach o e.spa g0 (Bool.eq_false_iff.mpr hL) hfr]
        simp [forked, hfr]
    rw [List.cons_append, forked_cons_pipe, forked_append]
    exact List.mem_append_left _ hmem

/-- C15 (amended, witness): the failing sessions: `pipe(sample_data_pipe)`; in a launch,
`pipe(start_app_pipe)` and the `fork` of the AppLauncher; the `fork` of the Recorder in a
system-wide session; in a launch, `pipe(operf_record_ready_pipe)` with the AppLauncher (pid 100)
forked; and the `fork` of the Converter. -/
theorem setup_failures_and_children_witness :
    (∃ r, _run 0 launch_options sample_pipe_fails_run initial_globals one_file_fs = some r ∧
      r.out = Outcome.exited EXIT_FAILURE ∧ r.trace.filter Ev.isFork = []) ∧
    (∃ r, _run 0 launch_options start_pipe_fails_run initial_globals one_file_fs = some r ∧
      r.out = Outcome.exited EXIT_FAILURE ∧ forked r.trace = [] ∧
      ((start_pipe_fails_run.spa.pipe_app_ready_ok = false ∨
          start_pipe_fails_run.spa.pipe_start_app_ok = false) →
        r.trace.filter Ev.isFork = [])) ∧
    (∃ r, _run 0 system_wide_options record_fork_fails_run initial_globals one_file_fs =
        some r ∧ r.out = Outcome.returned PERF_RECORD_ERROR ∧ forked r.trace = []) ∧
    (∃ r, _run 0 launch_options record_pipe_fails_run initial_globals one_file_fs = some r ∧
      r.out = Outcome.returned PERF_RECORD_ERROR ∧ forked r.trace = [100]) ∧
    (∃ r, _run 0 launch_options convert_fork_fails_run initial_globals one_file_fs = some r ∧
      r.out = Outcome.exited EXIT_FAILURE ∧ (101 : Int) ∈ forked r.trace) :=
  ⟨(setup_failures_and_children 0 launch_options sample_pipe_fails_run initial_globals
      one_file_fs).1 rfl,
    (setup_failures_and_children 0 launch_options start_pipe_fails_run initial_globals
      one_file_fs).2.1 rfl (by decide) (Or.inr (Or.inl rfl)),
    (setup_failures_and_children 0 system_wide_options record_fork_fails_run initial_globals
      one_file_fs).2.2.1 rfl (by decide) (by decide),
    (setup_failures_and_children 0 launch_options record_pipe_fails_run initial_globals
      one_file_fs).2.2.2.1 rfl (by decide) rfl rfl (by decide) (Or.inl rfl),
    (setup_failures_and_children 0 launch_options convert_fork_fails_run initial_globals
      one_file_fs).2.2.2.2 rfl (by decide) (by decide) (by decide)⟩

/-! ### The cleanup of `main` -/

theorem run_wait_globals (fuel : Nat) (e : RunEnv) (g : Globals) (fs : SamplesDir)
    (t : List Ev) (r : RunResult) (h : run_wait fuel e g fs t = some r) : r.g = g := by
  unfold run_wait at h
  dsimp only at h
  by_cases hsig : e.sigaction_ok = true
  swap
  · simp [hsig] at h
    rw [← h]
  simp only [hsig, Bool.not_true, Bool.false_eq_true, if_false] at h
  by_cases hs : g.startApp = true
  · simp only [hs, if_true] at h
    cases hk : _kill_operf_pid fuel e.kill g with
    | none => simp [hk] at h
    | some k =>
      simp only [hk, Option.some.injEq] at h
      rw [← h]
  · simp only [hs, if_false, Bool.false_eq_true] at h
    cases hw : e.wait_primary with
    | error errno =>
      simp only [hw] at h
      by_cases he : errno = EINTR
      · simp only [he, beq_self_eq_true, if_true] at h
        cases hk : _kill_operf_pid fuel e.kill g with
        | none => simp [hk] at h
        | some k =>
          simp only [hk, Option.some.injEq] at h
          rw [← h]
      · simp [he] at h
        rw [← h]
    | pending =>
      simp only [hw, Option.some.injEq] at h
      rw [← h]
    | reaped s =>
      simp only [hw, Option.some.injEq] at h
      rw [← h]

theorem fail_out_system_wide (o : Options) (e : SpaEnv) (g : Globals) (ready : Int)
    (hs : o.system_wide = true) : (fail_out o e g ready).g.app_started = g.app_started := by
  unfold fail_out
  by_cases h : (g.startApp && ready == 0) = true <;> simp [h, hs]

theorem record_child_system_wide (o : Options) (e : SpaEnv) (g : Globals)
    (hs : o.system_wide = true) : (record_child o e g).g.app_started = g.app_started := by
  unfold record_child
  cases e.rec_init
  · exact fail_out_system_wide o e g 0 hs
  · exact fail_out_system_wide o e g 0 hs
  · dsimp only
    by_cases h1 : g.startApp = true <;> by_cases h2 : e.rec_ready_write_ok = true <;>
      by_cases h3 : e.rec_run_throws = true <;>
      simp [h1, h2, h3, Run.after, fail_out_system_wide o e g _ hs]

theorem coordinator_branch_system_wide (o : Options) (e : SpaEnv) (g : Globals)
    (hs : o.system_wide = true) :
    (coordinator_branch o e g).g.app_started = g.app_started := by
  unfold coordinator_branch
  dsimp only
  by_cases h1 : g.startApp = true <;> by_cases h2 : e.app_ready_read.failed = true <;>
    by_cases h3 : e.app_ready_read.store e.startup_uninit = 1 <;>
    by_cases h4 : e.rec_ready_read.failed = true <;>
    by_cases h5 : e.rec_ready_read.store e.recorder_ready_uninit = 1 <;>
    by_cases h6 : e.start_write_ok = true <;>
    simp [h1, h2, h3, h4, h5, h6, hs]

theorem fork_record_system_wide (o : Options) (e : SpaEnv) (g : Globals)
    (hs : o.system_wide = true) : (fork_record o e g).g.app_started = g.app_started := by
  unfold fork_record
  dsimp only
  by_cases h1 : e.fork_record < 0
  · simp [h1]
  by_cases h2 : e.fork_record = 0
  · simp only [h1, h2, if_false, if_true, beq_self_eq_true, lt_self_iff_false]
    exact record_child_system_wide o e _ hs
  · simp only [h1, if_false, beq_iff_eq, h2]
    exact coordinator_branch_system_wide o e _ hs

/-- In a system-wide session `start_profiling_app` leaves `app_started` as it was, in every
process. -/
theorem start_profiling_app_system_wide (o : Options) (e : SpaEnv) (g0 : Globals)
    (hs : o.system_wide = true) :
    (start_profiling_app o e g0).g.app_started = g0.app_started := by
  have h0 : ((g0.app_PID != o.pid) && (o.system_wide == false)) = false := by simp [hs]
  unfold start_profiling_app
  dsimp only
  simp only [h0, if_false, Bool.false_eq_true]
  exact fork_record_system_wide o e _ hs

/-- In a system-wide session `_run` leaves `app_started` as it was, in every process. -/
theorem run_system_wide (fuel : Nat) (o : Options) (e : RunEnv) (g0 : Globals)
    (fs : SamplesDir) (r : RunResult) (hs : o.system_wide = true)
    (h : _run fuel o e g0 fs = some r) : r.g.app_started = g0.app_started := by
  have hspa := start_profiling_app_system_wide o e.spa g0 hs
  unfold _run at h
  by_cases hp : e.pipe_sample_data_ok = true
  swap
  · simp [hp] at h
    rw [← h]
  simp only [hp, Bool.not_true, Bool.false_eq_true, if_false] at h
  cases hout : (start_profiling_app o e.spa g0).out with
  | returned rc =>
    simp only [hout] at h
    by_cases h1 : rc < 0
    · simp only [h1, if_true, Option.some.injEq] at h
      rw [← h]
      exact hspa
    simp only [h1, if_false] at h
    by_cases h2 : (!(!(start_profiling_app o e.spa g0).g.app_started && !o.system_wide)) = true
    · simp only [h2, if_true] at h
      by_cases h3 : e.fork_convert < 0
      · simp only [h3, if_true, Option.some.injEq] at h
        rw [← h]
        exact hspa
      simp only [h3, if_false] at h
      by_cases h4 : e.fork_convert = 0
      · simp only [h4, beq_self_eq_true, if_true, Option.some.injEq] at h
        rw [← h]
        exact hspa
      · simp only [beq_iff_eq, h4, if_false] at h
        rw [run_wait_globals fuel e _ fs _ r h]
        exact hspa
    · simp only [h2, if_false, Bool.false_eq_true] at h
      rw [run_wait_globals fuel e _ fs _ r h]
      exact hspa
  | exited c =>
    simp only [hout, Option.some.injEq] at h
    rw [← h]
    exact hspa
  | execd =>
    simp only [hout, Option.some.injEq] at h
    rw [← h]
    exact hspa

/-- Past its checks, `main` is `_run` followed by the cleanup. -/
theorem main_after_run (fuel : Nat) (o : Options) (e : MainEnv) (fs : SamplesDir) (p : Int)
    (r : RunResult) (hcap : e.perf_cap_rc = 0)
    (hargs : process_args o e.args (-1) = Except.ok p)
    (hroot : (o.system_wide && e.my_uid != 0) = false) (hcpu : e.cpu_ok = true)
    (hpre : (e.my_uid != 0 && !e.precheck_ok) = false)
    (hrun : _run fuel o e.run { initial_globals with app_PID := p } fs = some r) :
    main fuel o e fs =
      match r.out with
      | Outcome.returned run_result =>
        if (run_result != 0 && r.g.app_started && run_result != APP_ABNORMAL_END) = true then
          some { r with trace := r.trace ++ [Ev.kill r.g.app_PID SIGKILL e.kill_app_ok] }
        else some r
      | _ => some r := by
  dsimp only [initial_globals] at hrun
  unfold main
  dsimp only
  simp only [hcap, bne_self_eq_false, Bool.false_eq_true, if_false, hargs, hroot, hcpu,
    Bool.not_true, hpre, hrun]

/-- In the coordinator of a session attached to a pid, a `_run` that returns has started
successfully: `app_started` is set, `startApp` is not, and `app_PID` is the pid. -/
theorem run_attach_globals (fuel : Nat) (o : Options) (e : RunEnv) (g0 : Globals)
    (fs : SamplesDir) (r : RunResult) (rc : Int) (hsw : o.system_wide = false)
    (hpid : g0.app_PID = o.pid) (hfr : 0 < e.spa.fork_record)
    (hrun : _run fuel o e g0 fs = some r) (hret : r.out = Outcome.returned rc) :
    r.g.app_started = true ∧ r.g.startApp = false ∧ r.g.app_PID = o.pid := by
  have hL : ((g0.app_PID != o.pid) && (o.system_wide == false)) = false := by simp [hpid]
  have hspa := start_profiling_app_success_attach o e.spa g0 hL hfr
  have hw := (run_after_start fuel o e g0 fs r rc _ _ hrun hret hspa (by simp [hsw])).2
  rw [run_wait_globals fuel e _ fs _ r hw]
  simp [hsw, hpid]

theorem main_run_pending (fuel : Nat) (o : Options) (e : MainEnv) (fs : SamplesDir) (p : Int)
    (hcap : e.perf_cap_rc = 0) (hargs : process_args o e.args (-1) = Except.ok p)
    (hroot : (o.system_wide && e.my_uid != 0) = false) (hcpu : e.cpu_ok = true)
    (hpre : (e.my_uid != 0 && !e.precheck_ok) = false)
    (hrun : _run fuel o e.run { initial_globals with app_PID := p } fs = none) :
    main fuel o e fs = none := by
  dsimp only [initial_globals] at hrun
  unfold main
  dsimp only
  simp only [hcap, bne_self_eq_false, Bool.false_eq_true, if_false, hargs, hroot, hcpu,
    Bool.not_true, hpre, hrun]

/-- When `main` ends before `_run` it has made no call. -/
theorem main_early_exit (fuel : Nat) (o : Options) (e : MainEnv) (fs : SamplesDir)
    (m : RunResult) (hm : main fuel o e fs = some m)
    (h : e.perf_cap_rc ≠ 0 ∨ (∃ c, process_args o e.args (-1) = Except.error c) ∨
      (o.system_wide && e.my_uid != 0) = true ∨ e.cpu_ok = false ∨
      (e.my_uid != 0 && !e.precheck_ok) = true) : m.trace = [] := by
  unfold main at hm
  dsimp only at hm
  by_cases hcap : e.perf_cap_rc = 0
  swap
  · simp [hcap] at hm
    rw [← hm]
  simp only [hcap, bne_self_eq_false, Bool.false_eq_true, if_false] at hm
  cases hargs : process_args o e.args (-1) with
  | error c =>
    simp only [hargs, Option.some.injEq] at hm
    rw [← hm]
  | ok p =>
    simp only [hargs] at hm
    by_cases hroot : (o.system_wide && e.my_uid != 0) = true
    · simp only [hroot, if_true, Option.some.injEq] at hm
      rw [← hm]
    simp only [hroot, if_false, Bool.false_eq_true] at hm
    by_cases hcpu : e.cpu_ok = true
    swap
    · simp [hcpu] at hm
      rw [← hm]
    simp only [hcpu, Bool.not_true, Bool.false_eq_true, if_false] at hm
    by_cases hpre : (e.my_uid != 0 && !e.precheck_ok) = true
    · simp only [hpre, if_true, Option.some.injEq] at hm
      rw [← hm]
    rcases h with h | ⟨c, h⟩ | h | h | h
    · exact absurd hcap h
    · rw [hargs] at h
      cases h
    · exact absurd h hroot
    · rw [hcpu] at h
      cases h
    · exact absurd h hpre

/-- C21: past its checks, `main` sends `SIGKILL` to `app_PID` after `_run` exactly when `_run`
returned a value other than 0 and other than `APP_ABNORMAL_END` with `app_started` set, and
makes no further call otherwise.  In the coordinator of a session attached to a pid, a `_run`
that returns such a value is followed by `kill(pid, SIGKILL)` on the attached process, although
`startApp` is not set and the handler `op_sig_stop` would send nothing.  In a system-wide
session `app_started` is not set when `_run` ends, in any process, and `main` makes no call
besides those of `_run`.  The handler `op_sig_stop` sends `SIGKILL` to `app_PID` when
`startApp` is set and makes no call otherwise. -/
theorem cleanup_kill_in_main (fuel : Nat) (o : Options) (e : MainEnv) (fs : SamplesDir) :
    (∀ (p : Int) (r : RunResult), e.perf_cap_rc = 0 →
      process_args o e.args (-1) = Except.ok p →
      (o.system_wide && e.my_uid != 0) = false → e.cpu_ok = true →
      (e.my_uid != 0 && !e.precheck_ok) = false →
      _run fuel o e.run { initial_globals with app_PID := p } fs = some r →
      (∀ rc, r.out = Outcome.returned rc → rc ≠ 0 → rc ≠ APP_ABNORMAL_END →
        r.g.app_started = true →
        main fuel o e fs =
          some { r with trace := r.trace ++ [Ev.kill r.g.app_PID SIGKILL e.kill_app_ok] }) ∧
      ((∀ rc, r.out = Outcome.returned rc →
          rc = 0 ∨ rc = APP_ABNORMAL_END ∨ r.g.app_started = false) →
        main fuel o e fs = some r)) ∧
    (∀ (r : RunResult) (rc : Int), e.perf_cap_rc = 0 → e.args.non_options = [] →
      e.args.setup_ok = true → o.pid ≠ 0 → o.system_wide = false → e.cpu_ok = true →
      (e.my_uid != 0 && !e.precheck_ok) = false → 0 < e.run.spa.fork_record →
      _run fuel o e.run { initial_globals with app_PID := o.pid } fs = some r →
      r.out = Outcome.returned rc → rc ≠ 0 → rc ≠ APP_ABNORMAL_END →
      main fuel o e fs =
        some { r with trace := r.trace ++ [Ev.kill o.pid SIGKILL e.kill_app_ok] } ∧
      r.g.startApp = false ∧ ∀ ok, op_sig_stop r.g ok = []) ∧
    (o.system_wide = true →
      (∀ (p : Int) (r : RunResult),
        _run fuel o e.run { initial_globals with app_PID := p } fs = some r →
        r.g.app_started = false) ∧
      (∀ m, main fuel o e fs = some m →
        m.trace = [] ∨
        _run fuel o e.run { initial_globals with app_PID := -1 } fs = some m)) ∧
    (∀ (g : Globals) (ok : Bool),
      (g.startApp = true ∧ op_sig_stop g ok = [Ev.kill g.app_PID SIGKILL ok]) ∨
      (g.startApp = false ∧ op_sig_stop g ok = [])) := by
  have hA : ∀ (p : Int) (r : RunResult), e.perf_cap_rc = 0 →
      process_args o e.args (-1) = Except.ok p →
      (o.system_wide && e.my_uid != 0) = false → e.cpu_ok = true →
      (e.my_uid != 0 && !e.precheck_ok) = false →
      _run fuel o e.run { initial_globals with app_PID := p } fs = some r →
      (∀ rc, r.out = Outcome.returned rc → rc ≠ 0 → rc ≠ APP_ABNORMAL_END →
        r.g.app_started = true →
        main fuel o e fs =
          some { r with trace := r.trace ++ [Ev.kill r.g.app_PID SIGKILL e.kill_app_ok] }) ∧
      ((∀ rc, r.out = Outcome.returned rc →
          rc = 0 ∨ rc = APP_ABNORMAL_END ∨ r.g.app_started = false) →
        main fuel o e fs = some r) := by
    intro p r hcap hargs hroot hcpu hpre hrun
    have hm := main_after_run fuel o e fs p r hcap hargs hroot hcpu hpre hrun
    constructor
    · intro rc hout h0 h1 hs
      rw [hm]
      simp [hout, h0, h1, hs]
    · intro h
      rw [hm]
      cases hout : r.out with
      | returned rc =>
        rcases h rc hout with h0 | h1 | hs
        · simp [h0]
        · simp [h1]
        · simp [hs]
      | exited c => rfl
      | execd => rfl
  refine ⟨hA, ?_, ?_, ?_⟩
  · intro r rc hcap hno hsetup hpid hsw hcpu hpre hfr hrun hout h0 h1
    have hargs : process_args o e.args (-1) = Except.ok o.pid := by
      unfold process_args
      simp [hno, hpid, hsw, hsetup]
    have hg := run_attach_globals fuel o e.run { initial_globals with app_PID := o.pid } fs r rc
      hsw rfl hfr hrun hout
    have hk := (hA o.pid r hcap hargs (by simp [hsw]) hcpu hpre hrun).1 rc hout h0 h1 hg.1
    rw [hg.2.2] at hk
    refine ⟨hk, hg.2.1, ?_⟩
    intro ok
    simp [op_sig_stop, hg.2.1]
  · intro hs
    have hno : ∀ (p : Int) (r : RunResult),
        _run fuel o e.run { initial_globals with app_PID := p } fs = some r →
        r.g.app_started = false := by
      intro p r hrun
      rw [run_system_wide fuel o e.run _ fs r hs hrun]
      rfl
    refine ⟨hno, ?_⟩
    intro m hm
    by_cases hcap : e.perf_cap_rc = 0
    swap
    · exact Or.inl (main_early_exit fuel o e fs m hm (Or.inl hcap))
    cases hargs : process_args o e.args (-1) with
    | error c => exact Or.inl (main_early_exit fuel o e fs m hm (Or.inr (Or.inl ⟨c, hargs⟩)))
    | ok p =>
      have hp : p = -1 := by
        unfold process_args at hargs
        by_cases hn : e.args.non_options.isEmpty = true <;> by_cases hpid : o.pid = 0 <;>
          by_cases hv : e.args.validate_ok = true <;> by_cases hu : e.args.setup_ok = true <;>
          simp [hn, hpid, hs, hv, hu] at hargs <;> exact hargs.symm
      subst hp
      by_cases hroot : (o.system_wide && e.my_uid != 0) = true
      · exact Or.inl (main_early_exit fuel o e fs m hm (Or.inr (Or.inr (Or.inl hroot))))
      by_cases hcpu : e.cpu_ok = true
      swap
      · exact Or.inl (main_early_exit fuel o e fs m hm
          (Or.inr (Or.inr (Or.inr (Or.inl (by simpa using hcpu))))))
      by_cases hpre : (e.my_uid != 0 && !e.precheck_ok) = true
      · exact Or.inl (main_early_exit fuel o e fs m hm
          (Or.inr (Or.inr (Or.inr (Or.inr hpre)))))
      right
      cases hrun : _run fuel o e.run { initial_globals with app_PID := -1 } fs with
      | none =>
        rw [main_run_pending fuel o e fs (-1) hcap hargs (Bool.eq_false_iff.mpr hroot) hcpu
          (Bool.eq_false_iff.mpr hpre) hrun] at hm
        cases hm
      | some r =>
        have hmr := (hA (-1) r hcap hargs (Bool.eq_false_iff.mpr hroot) hcpu
          (Bool.eq_false_iff.mpr hpre) hrun).2
          (fun rc _ => Or.inr (Or.inr (hno (-1) r hrun)))
        rw [hmr] at hm
        exact hm
  · intro g ok
    cases hs : g.startApp
    · exact Or.inr ⟨rfl, by simp [op_sig_stop, hs]⟩
    · exact Or.inl ⟨rfl, by simp [op_sig_stop, hs]⟩

/-- C21 (witness): `operf --pid 4242` run by root.  When the wait on the Recorder fails, `_run`
returns `PERF_RECORD_ERROR` and `main` ends with `kill(4242, SIGKILL)`; when the Converter
exits with code 1, `_run` returns `PERF_READ_ERROR` and `main` ends with the same call; the
handler would send nothing in either session.  The same answers under `operf --system-wide`:
`main` makes no call besides those of `_run`. -/
theorem cleanup_kill_in_main_witness :
    (∃ r, _run 50 attach_options attach_record_error_env.run attach_globals one_file_fs =
        some r ∧ r.out = Outcome.returned PERF_RECORD_ERROR ∧
      main 50 attach_options attach_record_error_env one_file_fs =
        some { r with trace := r.trace ++ [Ev.kill 4242 SIGKILL true] } ∧
      r.g.startApp = false ∧ ∀ ok, op_sig_stop r.g ok = []) ∧
    (∃ r, _run 50 attach_options attach_read_error_env.run attach_globals one_file_fs =
        some r ∧ r.out = Outcome.returned PERF_READ_ERROR ∧
      main 50 attach_options attach_read_error_env one_file_fs =
        some { r with trace := r.trace ++ [Ev.kill 4242 SIGKILL true] } ∧
      r.g.startApp = false ∧ ∀ ok, op_sig_stop r.g ok = []) ∧
    (∀ m, main 50 system_wide_options system_wide_record_error_env one_file_fs = some m →
      m.trace = [] ∨
      _run 50 system_wide_options system_wide_record_error_env.run initial_globals
        one_file_fs = some m) ∧
    (main 50 system_wide_options system_wide_record_error_env one_file_fs).map
        (fun m => (m.out, m.trace.filter Ev.isKill)) =
      some (Outcome.returned PERF_RECORD_ERROR, []) := by
  refine ⟨?_, ?_, ?_, by decide⟩
  · have ho : (_run 50 attach_options attach_record_error_env.run attach_globals
        one_file_fs).map (fun r => r.out) = some (Outcome.returned PERF_RECORD_ERROR) := by
      decide
    cases hr : _run 50 attach_options attach_record_error_env.run attach_globals
        one_file_fs with
    | none => rw [hr] at ho; simp at ho
    | some r =>
      rw [hr] at ho
      have hout : r.out = Outcome.returned PERF_RECORD_ERROR := by simpa using ho
      exact ⟨r, rfl, hout, (cleanup_kill_in_main 50 attach_options attach_record_error_env
        one_file_fs).2.1 r PERF_RECORD_ERROR rfl rfl rfl (by decide) rfl rfl rfl (by decide)
        hr hout (by decide) (by decide)⟩
  · have ho : (_run 50 attach_options attach_read_error_env.run attach_globals
        one_file_fs).map (fun r => r.out) = some (Outcome.returned PERF_READ_ERROR) := by
      decide
    cases hr : _run 50 attach_options attach_read_error_env.run attach_globals
        one_file_fs with
    | none => rw [hr] at ho; simp at ho
    | some r =>
      rw [hr] at ho
      have hout : r.out = Outcome.returned PERF_READ_ERROR := by simpa using ho
      exact ⟨r, rfl, hout, (cleanup_kill_in_main 50 attach_options attach_read_error_env
        one_file_fs).2.1 r PERF_READ_ERROR rfl rfl rfl (by decide) rfl rfl rfl (by decide)
        hr hout (by decide) (by decide)⟩
  · exact ((cleanup_kill_in_main 50 system_wide_options system_wide_record_error_env
      one_file_fs).2.2.1 rfl).2

/-! ### The argument vector -/

theorem find_first_of_none (s : List Char) (c : Char) (h : find_first_of s c = none) :
    c ∉ s := by
  induction s with
  | nil => simp
  | cons x xs ih =>
    unfold find_first_of at h
    by_cases hx : x = c
    · simp [hx] at h
    · simp only [hx, if_false, Option.map_eq_none'] at h
      simp [ih h, Ne.symm hx]

theorem find_first_of_some (s : List Char) (c : Char) (n : Nat)
    (h : find_first_of s c = some n) :
    c ∉ s.take n ∧ s = s.take n ++ c :: s.drop (n + 1) := by
  induction s generalizing n with
  | nil => simp [find_first_of] at h
  | cons x xs ih =>
    unfold find_first_of at h
    by_cases hx : x = c
    · simp only [hx, if_true, Option.some.injEq] at h
      subst h
      simp [hx]
    · simp only [hx, if_false, Option.map_eq_some'] at h
      obtain ⟨m, hm, rfl⟩ := h
      obtain ⟨h1, h2⟩ := ih m hm
      refine ⟨?_, ?_⟩
      · simp [List.take_succ_cons, h1, Ne.symm hx]
      · simp only [List.take_succ_cons, List.drop_succ_cons, List.cons_append]
        exact congrArg (List.cons x) h2

theorem rindex_none (s : List Char) (c : Char) (h : rindex s c = none) : c ∉ s := by
  induction s with
  | nil => simp
  | cons x xs ih =>
    unfold rindex at h
    cases hr : rindex xs c with
    | some n => simp [hr] at h
    | none =>
      simp only [hr] at h
      by_cases hx : x = c
      · simp [hx] at h
      · simp [ih hr, Ne.symm hx]

theorem rindex_some (s : List Char) (c : Char) (i : Nat) (h : rindex s c = some i) :
    c ∉ s.drop (i + 1) ∧ s = s.take i ++ c :: s.drop (i + 1) := by
  induction s generalizing i with
  | nil => simp [rindex] at h
  | cons x xs ih =>
    unfold rindex at h
    cases hr : rindex xs c with
    | some n =>
      simp only [hr, Option.some.injEq] at h
      subst h
      obtain ⟨h1, h2⟩ := ih n hr
      refine ⟨by simpa using h1, ?_⟩
      simp only [List.take_succ_cons, List.drop_succ_cons, List.cons_append]
      exact congrArg (List.cons x) h2
    | none =>
      simp only [hr] at h
      by_cases hx : x = c
      · simp only [hx, if_true, Option.some.injEq] at h
        subst h
        exact ⟨by simpa using rindex_none xs c hr, by simp [hx]⟩
      · simp [hx] at h

theorem rindex_of_mem (s : List Char) (c : Char) (h : c ∈ s) : ∃ i, rindex s c = some i := by
  cases hr : rindex s c with
  | some i => exact ⟨i, rfl⟩
  | none => exact absurd h (rindex_none s c hr)

theorem intercalate_cons_cons (sep p q : List Char) (rest : List (List Char)) :
    List.intercalate sep (p :: q :: rest) = p ++ sep ++ List.intercalate sep (q :: rest) := by
  simp [List.intercalate, List.intersperse]

/-- The splitting loop ends within `length + 1` iterations, and the strings it appends are the
pieces of the string between its spaces. -/
theorem split_loop_spec :
    ∀ (fuel : Nat) (s : List Char) (acc : List (List Char)), s.length < fuel →
      ∃ pieces, split_loop fuel s acc = some (acc ++ pieces) ∧
        (∀ p ∈ pieces, ' ' ∉ p) ∧ pieces.length = s.count ' ' + 1 ∧
        List.intercalate [' '] pieces = s := by
  intro fuel
  induction fuel with
  | zero => intro s acc h; omega
  | succ n ih =>
    intro s acc hlen
    unfold split_loop
    cases hf : find_first_of s ' ' with
    | none =>
      have hn := find_first_of_none s ' ' hf
      refine ⟨[s], rfl, ?_, ?_, ?_⟩
      · intro p hp
        simp only [List.mem_singleton] at hp
        subst hp
        exact hn
      · simp [List.count_eq_zero_of_not_mem hn]
      · simp [List.intercalate]
    | some k =>
      obtain ⟨h1, h2⟩ := find_first_of_some s ' ' k hf
      have hk : (s.drop (k + 1)).length < n := by
        have : s.length = (s.take k).length + ((s.drop (k + 1)).length + 1) := by
          conv_lhs => rw [h2]
          simp
        omega
      obtain ⟨ps, e1, e2, e3, e4⟩ := ih (s.drop (k + 1)) (acc ++ [s.take k]) hk
      refine ⟨s.take k :: ps, ?_, ?_, ?_, ?_⟩
      · simp only [e1, List.append_assoc, List.singleton_append]
      · intro p hp
        rcases List.mem_cons.mp hp with h | h
        · subst h
          exact h1
        · exact e2 p h
      · have hc : s.count ' ' = (s.drop (k + 1)).count ' ' + 1 := by
          conv_lhs => rw [h2]
          simp [List.count_append, List.count_eq_zero_of_not_mem h1]
        simp only [List.length_cons, e3, hc]
      · cases ps with
        | nil => simp at e3
        | cons q rest =>
          rw [intercalate_cons_cons, e4]
          simpa using h2.symm

theorem argv_map_some (v : List (List Char)) : argv (v.map some ++ [none]) = v := by
  induction v with
  | nil => rfl
  | cons x xs ih => simp [argv, ih]

/-- Two lists of strings without spaces, of the same length, that give the same string when
joined with single spaces, are equal. -/
theorem pieces_unique : ∀ (a b : List (List Char)), (∀ p ∈ a, ' ' ∉ p) → (∀ p ∈ b, ' ' ∉ p) →
    a.length = b.length → List.intercalate [' '] a = List.intercalate [' '] b →
    a = b := by
  intro a
  induction a with
  | nil =>
    intro b _ _ hl _
    cases b with
    | nil => rfl
    | cons y ys => simp at hl
  | cons x xs ih =>
    intro b ha hb hl hj
    cases b with
    | nil => simp at hl
    | cons y ys =>
      have hx := ha x (List.mem_cons_self _ _)
      have hy := hb y (List.mem_cons_self _ _)
      have hl2 : xs.length = ys.length := by simpa using hl
      cases xs with
      | nil =>
        cases ys with
        | nil =>
          simp only [List.intercalate, List.intersperse, List.flatten_cons, List.flatten_nil,
            List.append_nil] at hj
          rw [hj]
        | cons y2 ys2 => simp at hl2
      | cons x2 xs2 =>
        cases ys with
        | nil => simp at hl2
        | cons y2 ys2 =>
          rw [intercalate_cons_cons, intercalate_cons_cons] at hj
          simp only [List.append_assoc, List.singleton_append] at hj
          have hxy : x = y ∧ List.intercalate [' '] (x2 :: xs2) =
              List.intercalate [' '] (y2 :: ys2) := by
            have := List.append_eq_append_iff.mp hj
            rcases this with ⟨a', ha1, ha2⟩ | ⟨c', hc1, hc2⟩
            · cases a' with
              | nil =>
                simp only [List.append_nil, List.nil_append] at ha1 ha2
                exact ⟨ha1.symm, by simpa using ha2⟩
              | cons z zs =>
                simp only [List.cons_append, List.cons.injEq] at ha2
                exfalso
                apply hy
                rw [ha1, ← ha2.1]
                simp
            · cases c' with
              | nil =>
                simp only [List.append_nil, List.nil_append] at hc1 hc2
                exact ⟨hc1, by simpa using hc2.symm⟩
              | cons z zs =>
                simp only [List.cons_append, List.cons.injEq] at hc2
                exfalso
                apply hx
                rw [hc1, ← hc2.1]
                simp
          obtain ⟨hxe, hrest⟩ := hxy
          subst hxe
          have := ih (y2 :: ys2) (fun p hp => ha p (List.mem_cons_of_mem _ hp))
            (fun p hp => hb p (List.mem_cons_of_mem _ hp)) hl2 hrest
          rw [this]

/-- C22: for an `app_name` that holds a `/` and every argument string `s`, the splitting loop
ends (any bound above the length of `s` is enough) and the vector built by `run_app` is the
text of `app_name` after its last `/`, then the pieces of `s`, then the null pointer, where no
piece holds a space, the number of pieces is the number of spaces of `s` plus one, and the
pieces joined with single spaces give back `s`; this is the vector `execvp` receives.  When
`app_args` is the null pointer the vector is the program name and the null pointer. -/
theorem exec_args_split (app_name s : List Char) (hslash : '/' ∈ app_name) :
    ∃ (pre fname : List Char) (pieces : List (List Char)),
      app_name = pre ++ '/' :: fname ∧ '/' ∉ fname ∧
      (∀ fuel, s.length < fuel →
        build_exec_args fuel app_name (some s) =
          some (some fname :: pieces.map some ++ [none])) ∧
      (∀ p ∈ pieces, ' ' ∉ p) ∧ pieces.length = s.count ' ' + 1 ∧
      List.intercalate [' '] pieces = s ∧
      (∀ fuel, build_exec_args fuel app_name none = some [some fname, none]) ∧
      (∀ fuel (e : AppEnv), s.length < fuel →
        run_app_from_top fuel app_name (some s) e =
          some (run_app { e with exec_args := fname :: pieces })) := by
  obtain ⟨i, hi⟩ := rindex_of_mem app_name '/' hslash
  obtain ⟨h1, h2⟩ := rindex_some app_name '/' i hi
  obtain ⟨pieces, e1, e2, e3, e4⟩ := split_loop_spec (s.length + 1) s [] (by omega)
  have hloop : ∀ fuel, s.length < fuel → split_loop fuel s [] = some pieces := by
    intro fuel hf
    obtain ⟨ps, f1, f2, f3, f4⟩ := split_loop_spec fuel s [] hf
    have hps : ps = pieces := by
      exact pieces_unique ps pieces f2 e2 (by rw [f3, e3]) (by rw [f4, e4])
    simpa [hps] using f1
  refine ⟨app_name.take i, app_name.drop (i + 1), pieces, h2, h1, ?_, e2, e3, e4, ?_, ?_⟩
  · intro fuel hf
    unfold build_exec_args
    simp only [hi, hloop fuel hf]
  · intro fuel
    unfold build_exec_args
    simp only [hi]
    rfl
  · intro fuel e hf
    have hb : build_exec_args fuel app_name (some s) =
        some (some (app_name.drop (i + 1)) :: pieces.map some ++ [none]) := by
      unfold build_exec_args
      simp only [hi, hloop fuel hf]
    unfold run_app_from_top
    simp only [hb]
    rw [List.cons_append]
    simp only [argv, argv_map_some]

/-- C22 (witness): `app_name` is `/bin/ls` and `app_args` is the string with a leading space,
`-l`, two spaces, `/tmp` and a trailing space: the vector is `ls`, the empty string, `-l`, the
empty string, `/tmp`, the empty string and the null pointer. -/
theorem exec_args_split_witness :
    '/' ∈ bin_ls ∧
    (∃ (pre fname : List Char) (pieces : List (List Char)),
      bin_ls = pre ++ '/' :: fname ∧ '/' ∉ fname ∧
      (∀ fuel, spaced_args.length < fuel →
        build_exec_args fuel bin_ls (some spaced_args) =
          some (some fname :: pieces.map some ++ [none])) ∧
      (∀ p ∈ pieces, ' ' ∉ p) ∧ pieces.length = spaced_args.count ' ' + 1 ∧
      List.intercalate [' '] pieces = spaced_args ∧
      (∀ fuel, build_exec_args fuel bin_ls none = some [some fname, none]) ∧
      (∀ fuel (e : AppEnv), spaced_args.length < fuel →
        run_app_from_top fuel bin_ls (some spaced_args) e =
          some (run_app { e with exec_args := fname :: pieces }))) ∧
    build_exec_args 11 bin_ls (some spaced_args) =
      some [some ['l', 's'], some [], some ['-', 'l'], some [], some ['/', 't', 'm', 'p'],
        some [], none] ∧
    build_exec_args 0 bin_ls none = some [some ['l', 's'], none] :=
  ⟨by decide, exec_args_split bin_ls spaced_args (by decide), by decide, by decide⟩

end Operf
